import Mathlib

/-!
# Authentication backend validation (internal/configuration/validator/authentication.go)

A shallow embedding of the validator of the authentication backend
configuration, followed by theorems about it.

Conventions of the embedding.

* A Go pointer field that may be nil (File, Ldap, Password, TLS, SkipVerify)
  is an Option; a pointer taken from a package-level default of the schema
  package is the value of that default.
* The in-place mutation of the configuration and of the validator is explicit
  state passing: every function returns the new configuration together with
  the new validator.
* A Go int is an Int; the one arithmetic operation of the file, the product
  Parallelism*8, wraps to 64 bits (wrapInt64).
* Declarations of other packages that the file uses and that are not part of
  the sources at hand (the defaults of the schema package, the duration and
  TLS version parsers of the utils package) and the functions of the Go
  standard library whose tables cannot be written down here (strings.ToLower,
  url.Parse) are fields of the record Env. The general theorems hold for every
  Env; the closed statements evaluate the functions in sampleEnv.
* An entry of the validator is a value of ValidationError, one constructor for
  each message of the file; ValidationError.message gives its text.
-/

namespace Authelia

/-! ## Data model -/

/-- The schema.PasswordConfiguration record: the fields the validator reads and writes. -/
structure PasswordConfiguration where
  Iterations : Int
  KeyLength : Int
  SaltLength : Int
  Algorithm : String
  Memory : Int
  Parallelism : Int
deriving DecidableEq, Repr

/-- The schema.FileAuthenticationBackendConfiguration record; Password is a pointer. -/
structure FileAuthenticationBackendConfiguration where
  Path : String
  Password : Option PasswordConfiguration
deriving DecidableEq, Repr

/-- The schema.TLSConfig record. -/
structure TLSConfig where
  MinimumVersion : String
  SkipVerify : Bool
  ServerName : String
deriving DecidableEq, Repr

/-- The schema.LDAPAuthenticationBackendConfiguration record: the fields the validator
reads and writes. TLS and the deprecated SkipVerify are pointers. -/
structure LDAPAuthenticationBackendConfiguration where
  Implementation : String
  URL : String
  TLS : Option TLSConfig
  SkipVerify : Option Bool
  MinimumTLSVersion : String
  BaseDN : String
  UsersFilter : String
  GroupsFilter : String
  UsernameAttribute : String
  MailAttribute : String
  DisplayNameAttribute : String
  GroupNameAttribute : String
  User : String
  Password : String
deriving DecidableEq, Repr

/-- The schema.AuthenticationBackendConfiguration record; Ldap and File are pointers. -/
structure AuthenticationBackendConfiguration where
  Ldap : Option LDAPAuthenticationBackendConfiguration
  File : Option FileAuthenticationBackendConfiguration
  RefreshInterval : String
deriving DecidableEq, Repr

/-- The entries the validator pushes, one constructor for each errors.New or fmt.Errorf
call of authentication.go, carrying the arguments of the format string. -/
inductive ValidationError where
  | filePathMissing
  | unknownAlgorithm (algorithm : String)
  | iterationsInvalid (iterations : Int)
  | saltLengthInvalid (saltLength : Int)
  | parallelismInvalid (parallelism : Int)
  | memoryInvalid (required memory parallelism : Int)
  | keyLengthInvalid (keyLength : Int)
  | ldapURLUnparsable
  | ldapURLUnknownScheme
  | deprecatedSkipVerify
  | deprecatedMinimumTLSVersion
  | ldapTLSVersionInvalid (value err : String)
  | ldapImplementationInvalid
  | ldapURLMissing
  | ldapUserMissing
  | ldapPasswordMissing
  | ldapBaseDNMissing
  | usersFilterMissing
  | usersFilterParenthesis
  | usersFilterUsernameAttribute
  | usersFilterInput
  | groupsFilterMissing
  | groupsFilterParenthesis
  | backendMissing
  | backendBoth
  | refreshIntervalInvalid (value err : String)
deriving DecidableEq, Repr

/-- Modelled from the spec: the schema.StructValidator type, which is declared outside
the sources at hand. The spec describes it as an ordered collection of fatal errors and
an ordered collection of warnings with append operations. -/
structure StructValidator where
  errors : List ValidationError
  warnings : List ValidationError
deriving DecidableEq, Repr

/-- Modelled from the spec: StructValidator.Push appends one fatal error. -/
def StructValidator.Push (validator : StructValidator) (err : ValidationError) : StructValidator :=
  { validator with errors := validator.errors ++ [err] }

/-- Modelled from the spec: StructValidator.PushWarning appends one warning. -/
def StructValidator.PushWarning (validator : StructValidator) (err : ValidationError) : StructValidator :=
  { validator with warnings := validator.warnings ++ [err] }

/-- A validator that holds nothing yet. -/
def StructValidator.empty : StructValidator :=
  { errors := [], warnings := [] }

/-- The fatal errors that a run taking the validator from before to after has appended. -/
def pushedErrors (before after : StructValidator) : List ValidationError :=
  after.errors.drop before.errors.length

/-- The warnings that a run taking the validator from before to after has appended. -/
def pushedWarnings (before after : StructValidator) : List ValidationError :=
  after.warnings.drop before.warnings.length

/-- What url.Parse returns on success, as far as the validator looks at it: the Scheme
field and the results of the String and Hostname methods. -/
structure URL where
  Scheme : String
  Serialized : String
  Host : String
deriving DecidableEq, Repr

/-- The declarations used by authentication.go that are not part of the sources at
hand, taken as parameters. -/
structure Env where
  /-- The variable schema.DefaultPasswordConfiguration. -/
  DefaultPasswordConfiguration : PasswordConfiguration
  /-- The variable schema.DefaultPasswordSHA512Configuration. -/
  DefaultPasswordSHA512Configuration : PasswordConfiguration
  /-- The variable schema.DefaultLDAPAuthenticationBackendConfiguration; its field TLS is
  read through DefaultLDAPTLS below. -/
  DefaultLDAPAuthenticationBackendConfiguration : LDAPAuthenticationBackendConfiguration
  /-- The record the pointer schema.DefaultLDAPAuthenticationBackendConfiguration.TLS
  refers to; the spec calls it the default TLS record, so the pointer is not nil. -/
  DefaultLDAPTLS : TLSConfig
  /-- The variable schema.DefaultLDAPAuthenticationBackendImplementationActiveDirectoryConfiguration. -/
  DefaultLDAPAuthenticationBackendImplementationActiveDirectoryConfiguration :
    LDAPAuthenticationBackendConfiguration
  /-- The constant schema.RefreshIntervalDefault. -/
  RefreshIntervalDefault : String
  /-- The function strings.ToLower of the Go standard library. -/
  ToLower : String → String
  /-- The function url.Parse of the Go standard library; none is a parse error. -/
  urlParse : String → Option URL
  /-- The function utils.TLSStringToTLSConfigVersion; error carries the message. -/
  TLSStringToTLSConfigVersion : String → Except String Nat
  /-- The function utils.ParseDurationString; error carries the message. -/
  ParseDurationString : String → Except String Int

/-- Modelled from the spec: the constant argon2id of the validator package, declared
outside the sources at hand; the spec and the error message of line 27 name the value. -/
def argon2id : String := "argon2id"

/-- Modelled from the spec: the constant sha512 of the validator package, declared
outside the sources at hand; the spec and the error message of line 27 name the value. -/
def sha512 : String := "sha512"

/-- Modelled from the spec: the constant schemeLDAP of the validator package. -/
def schemeLDAP : String := "ldap"

/-- Modelled from the spec: the constant schemeLDAPS of the validator package. -/
def schemeLDAPS : String := "ldaps"

/-- Modelled from the spec: the constant schema.LDAPImplementationCustom. -/
def LDAPImplementationCustom : String := "custom"

/-- Modelled from the spec: the constant schema.LDAPImplementationActiveDirectory. -/
def LDAPImplementationActiveDirectory : String := "activedirectory"

/-- Modelled from the spec: the constant schema.ProfileRefreshDisabled. -/
def ProfileRefreshDisabled : String := "disable"

/-- Modelled from the spec: the constant schema.ProfileRefreshAlways. -/
def ProfileRefreshAlways : String := "always"

/-- Go int arithmetic: the value of a 64 bit signed result, two's complement wrap-around. -/
def wrapInt64 (x : Int) : Int :=
  (x + 2 ^ 63) % 2 ^ 64 - 2 ^ 63

/-! ## validateFileAuthenticationBackend (lines 14 to 73) -/

/-- Lines 22 to 29: the Algorithm field of a policy that is present. -/
def validatePasswordAlgorithm (env : Env) (password : PasswordConfiguration)
    (validator : StructValidator) : PasswordConfiguration × StructValidator :=
  if password.Algorithm = "" then
    ({ password with Algorithm := env.DefaultPasswordConfiguration.Algorithm }, validator)
  else
    let password := { password with Algorithm := env.ToLower password.Algorithm }
    if password.Algorithm ≠ argon2id ∧ password.Algorithm ≠ sha512 then
      (password, validator.Push (.unknownAlgorithm password.Algorithm))
    else
      (password, validator)

/-- Lines 31 to 40: the Iterations field. -/
def validatePasswordIterations (env : Env) (password : PasswordConfiguration)
    (validator : StructValidator) : PasswordConfiguration × StructValidator :=
  if password.Iterations = 0 then
    if password.Algorithm = argon2id then
      ({ password with Iterations := env.DefaultPasswordConfiguration.Iterations }, validator)
    else
      ({ password with Iterations := env.DefaultPasswordSHA512Configuration.Iterations }, validator)
  else if password.Iterations < 1 then
    (password, validator.Push (.iterationsInvalid password.Iterations))
  else
    (password, validator)

/-- Lines 42 to 48: the SaltLength field. -/
def validatePasswordSaltLength (env : Env) (password : PasswordConfiguration)
    (validator : StructValidator) : PasswordConfiguration × StructValidator :=
  if password.SaltLength = 0 then
    ({ password with SaltLength := env.DefaultPasswordConfiguration.SaltLength }, validator)
  else if password.SaltLength < 8 then
    (password, validator.Push (.saltLengthInvalid password.SaltLength))
  else
    (password, validator)

/-- Lines 51 to 56: the Parallelism field, inside the argon2id branch. -/
def validatePasswordParallelism (env : Env) (password : PasswordConfiguration)
    (validator : StructValidator) : PasswordConfiguration × StructValidator :=
  if password.Parallelism = 0 then
    ({ password with Parallelism := env.DefaultPasswordConfiguration.Parallelism }, validator)
  else if password.Parallelism < 1 then
    (password, validator.Push (.parallelismInvalid password.Parallelism))
  else
    (password, validator)

/-- Lines 58 to 63: the Memory field, inside the argon2id branch. -/
def validatePasswordMemory (env : Env) (password : PasswordConfiguration)
    (validator : StructValidator) : PasswordConfiguration × StructValidator :=
  if password.Memory = 0 then
    ({ password with Memory := env.DefaultPasswordConfiguration.Memory }, validator)
  else if password.Memory < wrapInt64 (password.Parallelism * 8) then
    (password, validator.Push (.memoryInvalid (wrapInt64 (password.Parallelism * 8))
      password.Memory password.Parallelism))
  else
    (password, validator)

/-- Lines 65 to 70: the KeyLength field, inside the argon2id branch. -/
def validatePasswordKeyLength (env : Env) (password : PasswordConfiguration)
    (validator : StructValidator) : PasswordConfiguration × StructValidator :=
  if password.KeyLength = 0 then
    ({ password with KeyLength := env.DefaultPasswordConfiguration.KeyLength }, validator)
  else if password.KeyLength < 16 then
    (password, validator.Push (.keyLengthInvalid password.KeyLength))
  else
    (password, validator)

/-- Lines 50 to 71: the three fields that are checked under argon2id only. -/
def validatePasswordArgon2id (env : Env) (password : PasswordConfiguration)
    (validator : StructValidator) : PasswordConfiguration × StructValidator :=
  if password.Algorithm = argon2id then
    let r := validatePasswordParallelism env password validator
    let r := validatePasswordMemory env r.1 r.2
    validatePasswordKeyLength env r.1 r.2
  else
    (password, validator)

/-- Lines 22 to 71: the else branch of line 21, run on the record Password points to. -/
def validatePasswordConfiguration (env : Env) (password : PasswordConfiguration)
    (validator : StructValidator) : PasswordConfiguration × StructValidator :=
  let r := validatePasswordAlgorithm env password validator
  let r := validatePasswordIterations env r.1 r.2
  let r := validatePasswordSaltLength env r.1 r.2
  validatePasswordArgon2id env r.1 r.2

/-- The function validateFileAuthenticationBackend, lines 14 to 73. -/
def validateFileAuthenticationBackend (env : Env)
    (configuration : FileAuthenticationBackendConfiguration) (validator : StructValidator) :
    FileAuthenticationBackendConfiguration × StructValidator :=
  let validator :=
    if configuration.Path = "" then validator.Push .filePathMissing else validator
  match configuration.Password with
  | none =>
    ({ configuration with Password := some env.DefaultPasswordConfiguration }, validator)
  | some password =>
    let r := validatePasswordConfiguration env password validator
    ({ configuration with Password := some r.1 }, r.2)

/-- The Algorithm of a policy after lines 22 to 29: what the later blocks of
validateFileAuthenticationBackend read as the algorithm. -/
def resolvedAlgorithm (env : Env) (password : PasswordConfiguration) : String :=
  (validatePasswordAlgorithm env password StructValidator.empty).1.Algorithm

/-! ## validateLdapURL (lines 82 to 96) -/

/-- The function validateLdapURL, lines 82 to 96; the result is the pair
(finalURL, hostname) and the new validator. -/
def validateLdapURL (env : Env) (ldapURL : String) (validator : StructValidator) :
    (String × String) × StructValidator :=
  match env.urlParse ldapURL with
  | none => (("", ""), validator.Push .ldapURLUnparsable)
  | some parsedURL =>
    if ¬ (parsedURL.Scheme = schemeLDAP ∨ parsedURL.Scheme = schemeLDAPS) then
      (("", ""), validator.Push .ldapURLUnknownScheme)
    else
      ((parsedURL.Serialized, parsedURL.Host), validator)

/-- The function validateLdapURLSimple, lines 76 to 80. -/
def validateLdapURLSimple (env : Env) (ldapURL : String) (validator : StructValidator) :
    String × StructValidator :=
  let r := validateLdapURL env ldapURL validator
  (r.1.1, r.2)

/-! ## validateLdapAuthenticationBackend (lines 99 to 194) -/

/-- The function strings.HasPrefix, on the characters of the two strings. -/
def HasPrefix (s pre : String) : Bool :=
  pre.data.isPrefixOf s.data

/-- The function strings.HasSuffix, on the characters of the two strings. -/
def HasSuffix (s suf : String) : Bool :=
  suf.data.isSuffixOf s.data

/-- The function strings.Contains: substr starts at some position of s. -/
def Contains (s substr : String) : Bool :=
  s.data.tails.any (fun t => substr.data.isPrefixOf t)

/-- The function setDefaultImplementationActiveDirectoryLdapAuthenticationBackend,
lines 196 to 220. -/
def setDefaultImplementationActiveDirectoryLdapAuthenticationBackend (env : Env)
    (configuration : LDAPAuthenticationBackendConfiguration) :
    LDAPAuthenticationBackendConfiguration :=
  let d := env.DefaultLDAPAuthenticationBackendImplementationActiveDirectoryConfiguration
  let configuration :=
    if configuration.UsersFilter = "" then
      { configuration with UsersFilter := d.UsersFilter } else configuration
  let configuration :=
    if configuration.UsernameAttribute = "" then
      { configuration with UsernameAttribute := d.UsernameAttribute } else configuration
  let configuration :=
    if configuration.DisplayNameAttribute = "" then
      { configuration with DisplayNameAttribute := d.DisplayNameAttribute } else configuration
  let configuration :=
    if configuration.MailAttribute = "" then
      { configuration with MailAttribute := d.MailAttribute } else configuration
  let configuration :=
    if configuration.GroupsFilter = "" then
      { configuration with GroupsFilter := d.GroupsFilter } else configuration
  if configuration.GroupNameAttribute = "" then
    { configuration with GroupNameAttribute := d.GroupNameAttribute } else configuration

/-- The function setDefaultImplementationCustomLdapAuthenticationBackend, lines 222 to 238. -/
def setDefaultImplementationCustomLdapAuthenticationBackend (env : Env)
    (configuration : LDAPAuthenticationBackendConfiguration) :
    LDAPAuthenticationBackendConfiguration :=
  let d := env.DefaultLDAPAuthenticationBackendConfiguration
  let configuration :=
    if configuration.UsernameAttribute = "" then
      { configuration with UsernameAttribute := d.UsernameAttribute } else configuration
  let configuration :=
    if configuration.GroupNameAttribute = "" then
      { configuration with GroupNameAttribute := d.GroupNameAttribute } else configuration
  let configuration :=
    if configuration.MailAttribute = "" then
      { configuration with MailAttribute := d.MailAttribute } else configuration
  if configuration.DisplayNameAttribute = "" then
    { configuration with DisplayNameAttribute := d.DisplayNameAttribute } else configuration

/-- The state of a run of validateLdapAuthenticationBackend after line 107: the
configuration, the record configuration.TLS points to (never nil from there on), the
local nilTLS and the validator. -/
structure LdapRun where
  configuration : LDAPAuthenticationBackendConfiguration
  tls : TLSConfig
  nilTLS : Bool
  validator : StructValidator
deriving DecidableEq, Repr

/-- Lines 100 to 107: the Implementation default, nilTLS and the TLS default. -/
def ldapStart (env : Env) (configuration : LDAPAuthenticationBackendConfiguration)
    (validator : StructValidator) : LdapRun :=
  let configuration :=
    if configuration.Implementation = "" then
      { configuration with
        Implementation := env.DefaultLDAPAuthenticationBackendConfiguration.Implementation }
    else configuration
  match configuration.TLS with
  | none =>
    { configuration := configuration, tls := env.DefaultLDAPTLS, nilTLS := true,
      validator := validator }
  | some tls =>
    { configuration := configuration, tls := tls, nilTLS := false, validator := validator }

/-- Lines 110 to 116: the deprecated skip_verify option. -/
def ldapDeprecatedSkipVerify (r : LdapRun) : LdapRun :=
  match r.configuration.SkipVerify with
  | some skipVerify =>
    let r := { r with validator := r.validator.PushWarning .deprecatedSkipVerify }
    if r.nilTLS then { r with tls := { r.tls with SkipVerify := skipVerify } } else r
  | none => r

/-- Lines 119 to 125: the deprecated minimum_tls_version option. -/
def ldapDeprecatedMinimumTLSVersion (r : LdapRun) : LdapRun :=
  if r.configuration.MinimumTLSVersion ≠ "" then
    let r := { r with validator := r.validator.PushWarning .deprecatedMinimumTLSVersion }
    if r.nilTLS then
      { r with tls := { r.tls with MinimumVersion := r.configuration.MinimumTLSVersion } }
    else r
  else r

/-- Lines 127 to 133: the default of TLS.MinimumVersion and its check. -/
def ldapMinimumVersion (env : Env) (r : LdapRun) : LdapRun :=
  let r :=
    if r.tls.MinimumVersion = "" then
      { r with tls := { r.tls with MinimumVersion := env.DefaultLDAPTLS.MinimumVersion } }
    else r
  match env.TLSStringToTLSConfigVersion r.tls.MinimumVersion with
  | .error err =>
    { r with validator := r.validator.Push (.ldapTLSVersionInvalid r.tls.MinimumVersion err) }
  | .ok _ => r

/-- Lines 135 to 142: the switch on Implementation. -/
def ldapImplementation (env : Env) (r : LdapRun) : LdapRun :=
  if r.configuration.Implementation = LDAPImplementationCustom then
    { r with configuration :=
        setDefaultImplementationCustomLdapAuthenticationBackend env r.configuration }
  else if r.configuration.Implementation = LDAPImplementationActiveDirectory then
    { r with configuration :=
        setDefaultImplementationActiveDirectoryLdapAuthenticationBackend env r.configuration }
  else
    { r with validator := r.validator.Push .ldapImplementationInvalid }

/-- Lines 144 to 154: the URL field and TLS.ServerName. -/
def ldapURL (env : Env) (r : LdapRun) : LdapRun :=
  if r.configuration.URL = "" then
    { r with validator := r.validator.Push .ldapURLMissing }
  else
    let u := validateLdapURL env r.configuration.URL r.validator
    let r := { r with configuration := { r.configuration with URL := u.1.1 }, validator := u.2 }
    if r.tls.ServerName = "" then { r with tls := { r.tls with ServerName := u.1.2 } } else r

/-- Lines 157 to 168: the User, Password and BaseDN fields. -/
def ldapCredentials (r : LdapRun) : LdapRun :=
  let r :=
    if r.configuration.User = "" then
      { r with validator := r.validator.Push .ldapUserMissing } else r
  let r :=
    if r.configuration.Password = "" then
      { r with validator := r.validator.Push .ldapPasswordMissing } else r
  if r.configuration.BaseDN = "" then
    { r with validator := r.validator.Push .ldapBaseDNMissing } else r

/-- Lines 170 to 187: the UsersFilter field. -/
def ldapUsersFilter (r : LdapRun) : LdapRun :=
  if r.configuration.UsersFilter = "" then
    { r with validator := r.validator.Push .usersFilterMissing }
  else
    let r :=
      if !HasPrefix r.configuration.UsersFilter "(" || !HasSuffix r.configuration.UsersFilter ")"
      then { r with validator := r.validator.Push .usersFilterParenthesis } else r
    let r :=
      if !Contains r.configuration.UsersFilter "{username_attribute}"
      then { r with validator := r.validator.Push .usersFilterUsernameAttribute } else r
    if !Contains r.configuration.UsersFilter "{0}" && !Contains r.configuration.UsersFilter "{input}"
    then { r with validator := r.validator.Push .usersFilterInput } else r

/-- Lines 189 to 193: the GroupsFilter field. -/
def ldapGroupsFilter (r : LdapRun) : LdapRun :=
  if r.configuration.GroupsFilter = "" then
    { r with validator := r.validator.Push .groupsFilterMissing }
  else if !HasPrefix r.configuration.GroupsFilter "(" || !HasSuffix r.configuration.GroupsFilter ")"
  then { r with validator := r.validator.Push .groupsFilterParenthesis }
  else r

/-- The function validateLdapAuthenticationBackend, lines 99 to 194. -/
def validateLdapAuthenticationBackend (env : Env)
    (configuration : LDAPAuthenticationBackendConfiguration) (validator : StructValidator) :
    LDAPAuthenticationBackendConfiguration × StructValidator :=
  let r := ldapStart env configuration validator
  let r := ldapDeprecatedSkipVerify r
  let r := ldapDeprecatedMinimumTLSVersion r
  let r := ldapMinimumVersion env r
  let r := ldapImplementation env r
  let r := ldapURL env r
  let r := ldapCredentials r
  let r := ldapUsersFilter r
  let r := ldapGroupsFilter r
  ({ r.configuration with TLS := some r.tls }, r.validator)

/-- The Implementation of a directory backend after lines 100 to 102: what the switch of
line 135 reads. -/
def resolvedImplementation (env : Env) (configuration : LDAPAuthenticationBackendConfiguration) :
    String :=
  (ldapStart env configuration StructValidator.empty).configuration.Implementation

/-- The record configuration.TLS points to after lines 104 to 107: the record of the
caller, or the default TLS record when the caller gave none. -/
def suppliedTLS (env : Env) (configuration : LDAPAuthenticationBackendConfiguration) :
    TLSConfig :=
  (ldapStart env configuration StructValidator.empty).tls

/-! ## ValidateAuthenticationBackend (lines 241 to 264) -/

/-- Lines 242 to 248: the two checks on the presence of Ldap and File. -/
def validateBackendPresence (configuration : AuthenticationBackendConfiguration)
    (validator : StructValidator) : StructValidator :=
  let validator :=
    if configuration.Ldap = none ∧ configuration.File = none then
      validator.Push .backendMissing else validator
  if configuration.Ldap ≠ none ∧ configuration.File ≠ none then
    validator.Push .backendBoth else validator

/-- Lines 250 to 254: the delegation to one of the two backend validators. -/
def validateBackend (env : Env) (configuration : AuthenticationBackendConfiguration)
    (validator : StructValidator) : AuthenticationBackendConfiguration × StructValidator :=
  match configuration.File with
  | some file =>
    let r := validateFileAuthenticationBackend env file validator
    ({ configuration with File := some r.1 }, r.2)
  | none =>
    match configuration.Ldap with
    | some ldap =>
      let r := validateLdapAuthenticationBackend env ldap validator
      ({ configuration with Ldap := some r.1 }, r.2)
    | none => (configuration, validator)

/-- Lines 256 to 263: the RefreshInterval field. -/
def validateRefreshInterval (env : Env) (configuration : AuthenticationBackendConfiguration)
    (validator : StructValidator) : AuthenticationBackendConfiguration × StructValidator :=
  if configuration.RefreshInterval = "" then
    ({ configuration with RefreshInterval := env.RefreshIntervalDefault }, validator)
  else
    match env.ParseDurationString configuration.RefreshInterval with
    | .error err =>
      if configuration.RefreshInterval ≠ ProfileRefreshDisabled ∧
          configuration.RefreshInterval ≠ ProfileRefreshAlways then
        (configuration,
          validator.Push (.refreshIntervalInvalid configuration.RefreshInterval err))
      else (configuration, validator)
    | .ok _ => (configuration, validator)

/-- The function ValidateAuthenticationBackend, lines 241 to 264. -/
def ValidateAuthenticationBackend (env : Env)
    (configuration : AuthenticationBackendConfiguration) (validator : StructValidator) :
    AuthenticationBackendConfiguration × StructValidator :=
  let validator := validateBackendPresence configuration validator
  let r := validateBackend env configuration validator
  validateRefreshInterval env r.1 r.2

/-! ## The text of the entries -/

/-- The text of an entry as errors.New or fmt.Errorf builds it (the verb %d prints an
int in decimal, %s and %v print the string). -/
def ValidationError.message : ValidationError → String
  | .filePathMissing =>
    "Please provide a `path` for the users database in `authentication_backend`"
  | .unknownAlgorithm algorithm =>
    "Unknown hashing algorithm supplied, valid values are argon2id and sha512, you configured \x27"
      ++ algorithm ++ "\x27"
  | .iterationsInvalid iterations =>
    "The number of iterations specified is invalid, must be 1 or more, you configured "
      ++ toString iterations
  | .saltLengthInvalid saltLength =>
    "The salt length must be 2 or more, you configured " ++ toString saltLength
  | .parallelismInvalid parallelism =>
    "Parallelism for argon2id must be 1 or more, you configured " ++ toString parallelism
  | .memoryInvalid required memory parallelism =>
    "Memory for argon2id must be " ++ toString required
      ++ " or more (parallelism * 8), you configured memory as " ++ toString memory
      ++ " and parallelism as " ++ toString parallelism
  | .keyLengthInvalid keyLength =>
    "Key length for argon2id must be 16, you configured " ++ toString keyLength
  | .ldapURLUnparsable =>
    "Unable to parse URL to ldap server. The scheme is probably missing: ldap:// or ldaps://"
  | .ldapURLUnknownScheme => "Unknown scheme for ldap url, should be ldap:// or ldaps://"
  | .deprecatedSkipVerify =>
    "DEPRECATED: LDAP Auth Backend `skip_verify` option has been replaced by "
      ++ "`authentication_backend.ldap.tls.skip_verify` (will be removed in 4.28.0)"
  | .deprecatedMinimumTLSVersion =>
    "DEPRECATED: LDAP Auth Backend `minimum_tls_version` option has been replaced by "
      ++ "`authentication_backend.ldap.tls.minimum_version` (will be removed in 4.28.0)"
  | .ldapTLSVersionInvalid value err =>
    "error occurred validating the LDAP minimum_tls_version key with value " ++ value
      ++ ": " ++ err
  | .ldapImplementationInvalid =>
    "authentication backend ldap implementation must be blank or one of the following values `"
      ++ LDAPImplementationCustom ++ "`, `" ++ LDAPImplementationActiveDirectory ++ "`"
  | .ldapURLMissing => "Please provide a URL to the LDAP server"
  | .ldapUserMissing => "Please provide a user name to connect to the LDAP server"
  | .ldapPasswordMissing => "Please provide a password to connect to the LDAP server"
  | .ldapBaseDNMissing => "Please provide a base DN to connect to the LDAP server"
  | .usersFilterMissing => "Please provide a users filter with `users_filter` attribute"
  | .usersFilterParenthesis =>
    "The users filter should contain enclosing parenthesis. For instance "
      ++ "{username_attribute}={input} should be ({username_attribute}={input})"
  | .usersFilterUsernameAttribute =>
    "Unable to detect {username_attribute} placeholder in users_filter, your configuration "
      ++ "is broken. Please review configuration options listed at "
      ++ "https://docs.authelia.com/configuration/authentication/ldap.html"
  | .usersFilterInput =>
    "Unable to detect {input} placeholder in users_filter, your configuration might be "
      ++ "broken. Please review configuration options listed at "
      ++ "https://docs.authelia.com/configuration/authentication/ldap.html"
  | .groupsFilterMissing => "Please provide a groups filter with `groups_filter` attribute"
  | .groupsFilterParenthesis =>
    "The groups filter should contain enclosing parenthesis. For instance cn={input} "
      ++ "should be (cn={input})"
  | .backendMissing => "Please provide `ldap` or `file` object in `authentication_backend`"
  | .backendBoth =>
    "You cannot provide both `ldap` and `file` objects in `authentication_backend`"
  | .refreshIntervalInvalid value err =>
    "Auth Backend `refresh_interval` is configured to \x27" ++ value
      ++ "\x27 but it must be either a duration notation or one of \x27disable\x27, or "
      ++ "\x27always\x27. Error from parser: " ++ err

/-! ## A concrete environment

The theorems below hold for every Env. The environment defined here gives the
parameters concrete values, so that the functions can be evaluated on concrete
configurations. -/

/-- ASCII lower-casing of a string; strings.ToLower agrees with it on ASCII strings. -/
def asciiToLower (s : String) : String :=
  String.mk (s.data.map Char.toLower)

/-- The characters before and after the first occurrence of :// in a string. -/
def splitScheme : List Char → Option (List Char × List Char)
  | [] => none
  | c :: cs =>
    if "://".data.isPrefixOf (c :: cs) then some ([], (c :: cs).drop 3)
    else (splitScheme cs).map (fun p => (c :: p.1, p.2))

/-- A parser in the place of url.Parse for the sample environment: it accepts
scheme://host, with an optional port or path after the host, and reports a parse error
for every other string. -/
def sampleURLParse (s : String) : Option URL :=
  match splitScheme s.data with
  | some (scheme, rest) =>
    if scheme = [] ∨ rest = [] then none
    else
      some { Scheme := String.mk scheme, Serialized := s,
             Host := String.mk (rest.takeWhile (fun c => c ≠ ':' ∧ c ≠ '/')) }
  | none => none

/-- The TLS version names the sample environment accepts, with the version numbers of
crypto/tls. -/
def sampleTLSVersion (s : String) : Except String Nat :=
  if s = "TLS1.3" ∨ s = "1.3" then .ok 772
  else if s = "TLS1.2" ∨ s = "1.2" then .ok 771
  else if s = "TLS1.1" ∨ s = "1.1" then .ok 770
  else if s = "TLS1.0" ∨ s = "1.0" then .ok 769
  else .error "supplied TLS version isn\x27t supported"

/-- The value of a string of decimal digits, none when the string is empty or holds
another character. -/
def decimalValue (cs : List Char) : Option Nat :=
  if cs ≠ [] ∧ cs.all Char.isDigit then
    some (cs.foldl (fun n c => 10 * n + (c.toNat - 48)) 0)
  else none

/-- A duration parser for the sample environment: decimal digits, then at most one of
the unit letters s, m, h, d, w, M, y; the result is in seconds. -/
def sampleParseDuration (s : String) : Except String Int :=
  let fail : Except String Int :=
    .error ("could not convert the input string of " ++ s ++ " into a duration")
  match decimalValue s.data with
  | some n => .ok n
  | none =>
    match decimalValue s.data.dropLast, s.data.getLast? with
    | some n, some unit =>
      if unit = 's' then .ok n
      else if unit = 'm' then .ok (60 * n)
      else if unit = 'h' then .ok (3600 * n)
      else if unit = 'd' then .ok (86400 * n)
      else if unit = 'w' then .ok (604800 * n)
      else if unit = 'M' then .ok (2592000 * n)
      else if unit = 'y' then .ok (31536000 * n)
      else fail
    | _, _ => fail

/-- An LDAP configuration record with every field empty. -/
def emptyLdap : LDAPAuthenticationBackendConfiguration :=
  { Implementation := "", URL := "", TLS := none, SkipVerify := none, MinimumTLSVersion := "",
    BaseDN := "", UsersFilter := "", GroupsFilter := "", UsernameAttribute := "",
    MailAttribute := "", DisplayNameAttribute := "", GroupNameAttribute := "", User := "",
    Password := "" }

/-- The sample environment. -/
def sampleEnv : Env :=
  { DefaultPasswordConfiguration :=
      { Iterations := 1, KeyLength := 32, SaltLength := 16, Algorithm := argon2id,
        Memory := 1024, Parallelism := 8 }
    DefaultPasswordSHA512Configuration :=
      { Iterations := 50000, KeyLength := 0, SaltLength := 16, Algorithm := sha512,
        Memory := 0, Parallelism := 0 }
    DefaultLDAPAuthenticationBackendConfiguration :=
      { emptyLdap with
        Implementation := LDAPImplementationCustom, UsernameAttribute := "uid",
        MailAttribute := "mail", DisplayNameAttribute := "displayname",
        GroupNameAttribute := "cn" }
    DefaultLDAPTLS := { MinimumVersion := "TLS1.2", SkipVerify := false, ServerName := "" }
    DefaultLDAPAuthenticationBackendImplementationActiveDirectoryConfiguration :=
      { emptyLdap with
        UsersFilter := "(&(|({username_attribute}={input})({mail_attribute}={input}))"
          ++ "(sAMAccountType=805306368)(!(userAccountControl:1.2.840.113556.1.4.803:=2))"
          ++ "(!(pwdLastSet=0)))",
        UsernameAttribute := "sAMAccountName", MailAttribute := "mail",
        DisplayNameAttribute := "displayName",
        GroupsFilter := "(&(member={dn})(objectClass=group))", GroupNameAttribute := "cn" }
    RefreshIntervalDefault := "5m"
    ToLower := asciiToLower
    urlParse := sampleURLParse
    TLSStringToTLSConfigVersion := sampleTLSVersion
    ParseDurationString := sampleParseDuration }

/-! ## Lemmas: lists of pushed entries -/

theorem mem_ite_singleton {α : Type} {c : Prop} [Decidable c] (e x : α) :
    e ∈ (if c then [x] else []) ↔ c ∧ e = x := by
  split_ifs with h <;> simp [h]

theorem mem_ite_nil {α : Type} {c : Prop} [Decidable c] (e : α) (l : List α) :
    e ∈ (if c then l else []) ↔ c ∧ e ∈ l := by
  split_ifs with h <;> simp [h]

theorem pushedErrors_append (v : StructValidator) (l w : List ValidationError) :
    pushedErrors v { errors := v.errors ++ l, warnings := w } = l := by
  simp [pushedErrors]

theorem pushedWarnings_append (v : StructValidator) (e l : List ValidationError) :
    pushedWarnings v { errors := e, warnings := v.warnings ++ l } = l := by
  simp [pushedWarnings]

theorem pushedWarnings_same (v : StructValidator) (e : List ValidationError) :
    pushedWarnings v { errors := e, warnings := v.warnings } = [] := by
  simp [pushedWarnings]

/-! ## Lemmas: the blocks of validateFileAuthenticationBackend

Each block is described by the record it returns and the validator it returns. -/

theorem validatePasswordAlgorithm_fst (env : Env) (p : PasswordConfiguration)
    (v : StructValidator) :
    (validatePasswordAlgorithm env p v).1 =
      { p with Algorithm :=
          if p.Algorithm = "" then env.DefaultPasswordConfiguration.Algorithm
          else env.ToLower p.Algorithm } := by
  simp only [validatePasswordAlgorithm]
  split_ifs <;> simp_all

theorem validatePasswordAlgorithm_snd (env : Env) (p : PasswordConfiguration)
    (v : StructValidator) :
    (validatePasswordAlgorithm env p v).2 =
      { v with errors := v.errors ++
          if p.Algorithm ≠ "" ∧ env.ToLower p.Algorithm ≠ argon2id ∧
              env.ToLower p.Algorithm ≠ sha512 then
            [.unknownAlgorithm (env.ToLower p.Algorithm)]
          else [] } := by
  simp only [validatePasswordAlgorithm]
  split_ifs <;> simp_all [StructValidator.Push]

theorem validatePasswordIterations_fst (env : Env) (p : PasswordConfiguration)
    (v : StructValidator) :
    (validatePasswordIterations env p v).1 =
      { p with Iterations :=
          if p.Iterations = 0 then
            if p.Algorithm = argon2id then env.DefaultPasswordConfiguration.Iterations
            else env.DefaultPasswordSHA512Configuration.Iterations
          else p.Iterations } := by
  simp only [validatePasswordIterations]
  split_ifs <;> simp_all

theorem validatePasswordIterations_snd (env : Env) (p : PasswordConfiguration)
    (v : StructValidator) :
    (validatePasswordIterations env p v).2 =
      { v with errors := v.errors ++
          if p.Iterations ≠ 0 ∧ p.Iterations < 1 then [.iterationsInvalid p.Iterations]
          else [] } := by
  simp only [validatePasswordIterations]
  split_ifs <;> simp_all [StructValidator.Push]

theorem validatePasswordSaltLength_fst (env : Env) (p : PasswordConfiguration)
    (v : StructValidator) :
    (validatePasswordSaltLength env p v).1 =
      { p with SaltLength :=
          if p.SaltLength = 0 then env.DefaultPasswordConfiguration.SaltLength
          else p.SaltLength } := by
  simp only [validatePasswordSaltLength]
  split_ifs <;> simp_all

theorem validatePasswordSaltLength_snd (env : Env) (p : PasswordConfiguration)
    (v : StructValidator) :
    (validatePasswordSaltLength env p v).2 =
      { v with errors := v.errors ++
          if p.SaltLength ≠ 0 ∧ p.SaltLength < 8 then [.saltLengthInvalid p.SaltLength]
          else [] } := by
  simp only [validatePasswordSaltLength]
  split_ifs <;> simp_all [StructValidator.Push]

theorem validatePasswordParallelism_fst (env : Env) (p : PasswordConfiguration)
    (v : StructValidator) :
    (validatePasswordParallelism env p v).1 =
      { p with Parallelism :=
          if p.Parallelism = 0 then env.DefaultPasswordConfiguration.Parallelism
          else p.Parallelism } := by
  simp only [validatePasswordParallelism]
  split_ifs <;> simp_all

theorem validatePasswordParallelism_snd (env : Env) (p : PasswordConfiguration)
    (v : StructValidator) :
    (validatePasswordParallelism env p v).2 =
      { v with errors := v.errors ++
          if p.Parallelism ≠ 0 ∧ p.Parallelism < 1 then [.parallelismInvalid p.Parallelism]
          else [] } := by
  simp only [validatePasswordParallelism]
  split_ifs <;> simp_all [StructValidator.Push]

theorem validatePasswordMemory_fst (env : Env) (p : PasswordConfiguration)
    (v : StructValidator) :
    (validatePasswordMemory env p v).1 =
      { p with Memory :=
          if p.Memory = 0 then env.DefaultPasswordConfiguration.Memory else p.Memory } := by
  simp only [validatePasswordMemory]
  split_ifs <;> simp_all

theorem validatePasswordMemory_snd (env : Env) (p : PasswordConfiguration)
    (v : StructValidator) :
    (validatePasswordMemory env p v).2 =
      { v with errors := v.errors ++
          if p.Memory ≠ 0 ∧ p.Memory < wrapInt64 (p.Parallelism * 8) then
            [.memoryInvalid (wrapInt64 (p.Parallelism * 8)) p.Memory p.Parallelism]
          else [] } := by
  simp only [validatePasswordMemory]
  split_ifs <;> simp_all [StructValidator.Push]

theorem validatePasswordKeyLength_fst (env : Env) (p : PasswordConfiguration)
    (v : StructValidator) :
    (validatePasswordKeyLength env p v).1 =
      { p with KeyLength :=
          if p.KeyLength = 0 then env.DefaultPasswordConfiguration.KeyLength
          else p.KeyLength } := by
  simp only [validatePasswordKeyLength]
  split_ifs <;> simp_all

theorem validatePasswordKeyLength_snd (env : Env) (p : PasswordConfiguration)
    (v : StructValidator) :
    (validatePasswordKeyLength env p v).2 =
      { v with errors := v.errors ++
          if p.KeyLength ≠ 0 ∧ p.KeyLength < 16 then [.keyLengthInvalid p.KeyLength]
          else [] } := by
  simp only [validatePasswordKeyLength]
  split_ifs <;> simp_all [StructValidator.Push]

theorem resolvedAlgorithm_eq (env : Env) (p : PasswordConfiguration) :
    resolvedAlgorithm env p =
      if p.Algorithm = "" then env.DefaultPasswordConfiguration.Algorithm
      else env.ToLower p.Algorithm := by
  simp [resolvedAlgorithm, validatePasswordAlgorithm_fst]

theorem validatePasswordArgon2id_fst (env : Env) (p : PasswordConfiguration)
    (v : StructValidator) :
    (validatePasswordArgon2id env p v).1 =
      if p.Algorithm = argon2id then
        { p with
          Parallelism :=
            if p.Parallelism = 0 then env.DefaultPasswordConfiguration.Parallelism
            else p.Parallelism
          Memory := if p.Memory = 0 then env.DefaultPasswordConfiguration.Memory else p.Memory
          KeyLength :=
            if p.KeyLength = 0 then env.DefaultPasswordConfiguration.KeyLength
            else p.KeyLength }
      else p := by
  by_cases h : p.Algorithm = argon2id
  · rw [validatePasswordArgon2id, if_pos h, if_pos h]
    simp only [validatePasswordKeyLength_fst, validatePasswordMemory_fst,
      validatePasswordParallelism_fst]
  · rw [validatePasswordArgon2id, if_neg h, if_neg h]

theorem validatePasswordArgon2id_snd (env : Env) (p : PasswordConfiguration)
    (v : StructValidator) :
    (validatePasswordArgon2id env p v).2 =
      { v with errors := v.errors ++
          if p.Algorithm = argon2id then
            (if p.Parallelism ≠ 0 ∧ p.Parallelism < 1 then
              [ValidationError.parallelismInvalid p.Parallelism] else []) ++
            ((if p.Memory ≠ 0 ∧ p.Memory < wrapInt64
                ((if p.Parallelism = 0 then env.DefaultPasswordConfiguration.Parallelism
                  else p.Parallelism) * 8) then
              [ValidationError.memoryInvalid
                (wrapInt64 ((if p.Parallelism = 0 then
                  env.DefaultPasswordConfiguration.Parallelism else p.Parallelism) * 8))
                p.Memory
                (if p.Parallelism = 0 then env.DefaultPasswordConfiguration.Parallelism
                  else p.Parallelism)] else []) ++
            (if p.KeyLength ≠ 0 ∧ p.KeyLength < 16 then
              [ValidationError.keyLengthInvalid p.KeyLength] else []))
          else [] } := by
  by_cases h : p.Algorithm = argon2id
  · rw [validatePasswordArgon2id, if_pos h, if_pos h]
    simp only [validatePasswordKeyLength_snd, validatePasswordMemory_snd,
      validatePasswordParallelism_snd, validatePasswordMemory_fst,
      validatePasswordParallelism_fst, List.append_assoc]
  · rw [validatePasswordArgon2id, if_neg h, if_neg h]
    simp


theorem validatePasswordConfiguration_fst (env : Env) (p : PasswordConfiguration)
    (v : StructValidator) :
    (validatePasswordConfiguration env p v).1 =
      { Algorithm := resolvedAlgorithm env p
        Iterations :=
          if p.Iterations = 0 then
            if resolvedAlgorithm env p = argon2id then
              env.DefaultPasswordConfiguration.Iterations
            else env.DefaultPasswordSHA512Configuration.Iterations
          else p.Iterations
        SaltLength :=
          if p.SaltLength = 0 then env.DefaultPasswordConfiguration.SaltLength
          else p.SaltLength
        Parallelism :=
          if resolvedAlgorithm env p = argon2id ∧ p.Parallelism = 0 then
            env.DefaultPasswordConfiguration.Parallelism
          else p.Parallelism
        Memory :=
          if resolvedAlgorithm env p = argon2id ∧ p.Memory = 0 then
            env.DefaultPasswordConfiguration.Memory
          else p.Memory
        KeyLength :=
          if resolvedAlgorithm env p = argon2id ∧ p.KeyLength = 0 then
            env.DefaultPasswordConfiguration.KeyLength
          else p.KeyLength } := by
  simp only [validatePasswordConfiguration, validatePasswordArgon2id_fst,
    validatePasswordSaltLength_fst, validatePasswordIterations_fst,
    validatePasswordAlgorithm_fst, resolvedAlgorithm_eq]
  by_cases h : (if p.Algorithm = "" then env.DefaultPasswordConfiguration.Algorithm
      else env.ToLower p.Algorithm) = argon2id
  · simp only [h, if_true, true_and]
  · simp only [h, if_false, false_and]

theorem validatePasswordConfiguration_snd (env : Env) (p : PasswordConfiguration)
    (v : StructValidator) :
    (validatePasswordConfiguration env p v).2 =
      { v with errors := v.errors ++
          ((if p.Algorithm ≠ "" ∧ env.ToLower p.Algorithm ≠ argon2id ∧
              env.ToLower p.Algorithm ≠ sha512 then
            [ValidationError.unknownAlgorithm (env.ToLower p.Algorithm)] else []) ++
          ((if p.Iterations ≠ 0 ∧ p.Iterations < 1 then
            [ValidationError.iterationsInvalid p.Iterations] else []) ++
          ((if p.SaltLength ≠ 0 ∧ p.SaltLength < 8 then
            [ValidationError.saltLengthInvalid p.SaltLength] else []) ++
          (if resolvedAlgorithm env p = argon2id then
            (if p.Parallelism ≠ 0 ∧ p.Parallelism < 1 then
              [ValidationError.parallelismInvalid p.Parallelism] else []) ++
            ((if p.Memory ≠ 0 ∧ p.Memory < wrapInt64
                ((if p.Parallelism = 0 then env.DefaultPasswordConfiguration.Parallelism
                  else p.Parallelism) * 8) then
              [ValidationError.memoryInvalid
                (wrapInt64 ((if p.Parallelism = 0 then
                  env.DefaultPasswordConfiguration.Parallelism else p.Parallelism) * 8))
                p.Memory
                (if p.Parallelism = 0 then env.DefaultPasswordConfiguration.Parallelism
                  else p.Parallelism)] else []) ++
            (if p.KeyLength ≠ 0 ∧ p.KeyLength < 16 then
              [ValidationError.keyLengthInvalid p.KeyLength] else []))
          else [])))) } := by
  simp only [validatePasswordConfiguration, validatePasswordArgon2id_snd,
    validatePasswordSaltLength_snd, validatePasswordIterations_snd,
    validatePasswordAlgorithm_snd, validatePasswordSaltLength_fst,
    validatePasswordIterations_fst, validatePasswordAlgorithm_fst, resolvedAlgorithm_eq,
    List.append_assoc]

theorem validateFileAuthenticationBackend_some_fst (env : Env)
    (c : FileAuthenticationBackendConfiguration) (p : PasswordConfiguration)
    (v : StructValidator) (hp : c.Password = some p) :
    (validateFileAuthenticationBackend env c v).1 =
      { c with Password := some (validatePasswordConfiguration env p StructValidator.empty).1 } := by
  simp only [validateFileAuthenticationBackend, hp, validatePasswordConfiguration_fst]

theorem validateFileAuthenticationBackend_some_snd (env : Env)
    (c : FileAuthenticationBackendConfiguration) (p : PasswordConfiguration)
    (v : StructValidator) (hp : c.Password = some p) :
    (validateFileAuthenticationBackend env c v).2 =
      { v with errors := v.errors ++
          ((if c.Path = "" then [ValidationError.filePathMissing] else []) ++
            (validatePasswordConfiguration env p StructValidator.empty).2.errors) } := by
  by_cases h : c.Path = ""
  · simp only [validateFileAuthenticationBackend, hp, h, if_true,
      validatePasswordConfiguration_snd, StructValidator.Push, StructValidator.empty,
      List.append_assoc, List.nil_append, List.singleton_append, List.cons_append]
  · simp only [validateFileAuthenticationBackend, hp, h, if_false,
      validatePasswordConfiguration_snd, StructValidator.Push, StructValidator.empty,
      List.append_assoc, List.nil_append]

theorem validateFileAuthenticationBackend_some_pushed (env : Env)
    (c : FileAuthenticationBackendConfiguration) (p : PasswordConfiguration)
    (v : StructValidator) (hp : c.Password = some p) :
    pushedErrors v (validateFileAuthenticationBackend env c v).2 =
      (if c.Path = "" then [ValidationError.filePathMissing] else []) ++
      ((if p.Algorithm ≠ "" ∧ env.ToLower p.Algorithm ≠ argon2id ∧
          env.ToLower p.Algorithm ≠ sha512 then
        [ValidationError.unknownAlgorithm (env.ToLower p.Algorithm)] else []) ++
      ((if p.Iterations ≠ 0 ∧ p.Iterations < 1 then
        [ValidationError.iterationsInvalid p.Iterations] else []) ++
      ((if p.SaltLength ≠ 0 ∧ p.SaltLength < 8 then
        [ValidationError.saltLengthInvalid p.SaltLength] else []) ++
      (if resolvedAlgorithm env p = argon2id then
        (if p.Parallelism ≠ 0 ∧ p.Parallelism < 1 then
          [ValidationError.parallelismInvalid p.Parallelism] else []) ++
        ((if p.Memory ≠ 0 ∧ p.Memory < wrapInt64
            ((if p.Parallelism = 0 then env.DefaultPasswordConfiguration.Parallelism
              else p.Parallelism) * 8) then
          [ValidationError.memoryInvalid
            (wrapInt64 ((if p.Parallelism = 0 then
              env.DefaultPasswordConfiguration.Parallelism else p.Parallelism) * 8))
            p.Memory
            (if p.Parallelism = 0 then env.DefaultPasswordConfiguration.Parallelism
              else p.Parallelism)] else []) ++
        (if p.KeyLength ≠ 0 ∧ p.KeyLength < 16 then
          [ValidationError.keyLengthInvalid p.KeyLength] else []))
      else [])))) := by
  rw [validateFileAuthenticationBackend_some_snd env c p v hp, pushedErrors_append,
    validatePasswordConfiguration_snd]
  simp only [StructValidator.empty, List.nil_append]

theorem wrapInt64_of_range (x : Int) (h₁ : -2 ^ 63 ≤ x) (h₂ : x < 2 ^ 63) :
    wrapInt64 x = x := by
  unfold wrapInt64
  have : (x + 2 ^ 63) % 2 ^ 64 = x + 2 ^ 63 := Int.emod_eq_of_lt (by omega) (by omega)
  omega

/-! ## The file backend: claims C4 to C10 -/

/-- C4: when the Password policy of a file backend is absent,
validateFileAuthenticationBackend sets it to the default record (whose algorithm is
argon2id when the default record says so), leaves Path unchanged, pushes no warning, and
pushes exactly the missing-path error when Path is empty and nothing otherwise. -/
theorem validateFile_password_absent (env : Env)
    (c : FileAuthenticationBackendConfiguration) (v : StructValidator)
    (hp : c.Password = none)
    (hd : env.DefaultPasswordConfiguration.Algorithm = argon2id) :
    (validateFileAuthenticationBackend env c v).1 =
      { Path := c.Path, Password := some env.DefaultPasswordConfiguration } ∧
    Option.map PasswordConfiguration.Algorithm
      (validateFileAuthenticationBackend env c v).1.Password = some argon2id ∧
    pushedErrors v (validateFileAuthenticationBackend env c v).2 =
      (if c.Path = "" then [ValidationError.filePathMissing] else []) ∧
    (ValidationError.filePathMissing ∈
      pushedErrors v (validateFileAuthenticationBackend env c v).2 ↔ c.Path = "") ∧
    pushedWarnings v (validateFileAuthenticationBackend env c v).2 = [] := by
  by_cases h : c.Path = ""
  · simp [validateFileAuthenticationBackend, hp, hd, h, StructValidator.Push, pushedErrors,
      pushedWarnings]
  · simp [validateFileAuthenticationBackend, hp, hd, h, pushedErrors, pushedWarnings]

theorem validateFile_password_absent_witness :
    (({ Path := "", Password := none } : FileAuthenticationBackendConfiguration).Password = none ∧
      sampleEnv.DefaultPasswordConfiguration.Algorithm = argon2id) ∧
    (validateFileAuthenticationBackend sampleEnv { Path := "", Password := none }
        StructValidator.empty).1 =
      { Path := "",
        Password := some { Iterations := 1, KeyLength := 32, SaltLength := 16,
                           Algorithm := "argon2id", Memory := 1024, Parallelism := 8 } } ∧
    pushedErrors StructValidator.empty
      (validateFileAuthenticationBackend sampleEnv { Path := "", Password := none }
        StructValidator.empty).2 = [ValidationError.filePathMissing] :=
  ⟨⟨rfl, rfl⟩,
    (validateFile_password_absent sampleEnv { Path := "", Password := none }
      StructValidator.empty rfl rfl).1,
    (validateFile_password_absent sampleEnv { Path := "", Password := none }
      StructValidator.empty rfl rfl).2.2.1⟩

/-- C5: for a file backend whose policy resolves to argon2id and whose Memory is not 0,
with P the resolved Parallelism (the default when the input is 0, the input otherwise)
and P*8 in the range of a 64 bit signed integer: the memory error is pushed if and only
if Memory < P*8, every memory error pushed cites P*8 as the minimum (with the Memory and
the Parallelism P it was computed from), and Memory keeps the value of the caller. -/
theorem validateFile_memory (env : Env) (c : FileAuthenticationBackendConfiguration)
    (p : PasswordConfiguration) (v : StructValidator) (P : Int)
    (hp : c.Password = some p)
    (halg : resolvedAlgorithm env p = argon2id)
    (hmem : p.Memory ≠ 0)
    (hP : P = if p.Parallelism = 0 then env.DefaultPasswordConfiguration.Parallelism
      else p.Parallelism)
    (hlo : -2 ^ 63 ≤ P * 8) (hhi : P * 8 < 2 ^ 63) :
    (ValidationError.memoryInvalid (P * 8) p.Memory P ∈
        pushedErrors v (validateFileAuthenticationBackend env c v).2 ↔ p.Memory < P * 8) ∧
    (∀ required memory parallelism, ValidationError.memoryInvalid required memory parallelism ∈
        pushedErrors v (validateFileAuthenticationBackend env c v).2 →
      required = P * 8 ∧ memory = p.Memory ∧ parallelism = P) ∧
    Option.map PasswordConfiguration.Memory
      (validateFileAuthenticationBackend env c v).1.Password = some p.Memory := by
  rw [validateFileAuthenticationBackend_some_pushed env c p v hp,
    validateFileAuthenticationBackend_some_fst env c p v hp,
    validatePasswordConfiguration_fst]
  subst hP
  simp only [List.mem_append, mem_ite_singleton, mem_ite_nil, halg, hmem,
    wrapInt64_of_range _ hlo hhi, reduceCtorEq, and_false, false_or, or_false, true_and,
    ne_eq, not_false_eq_true, ValidationError.memoryInvalid.injEq, and_true, Option.map_some',
    and_false, if_false, List.mem_singleton]
  intro a b c h
  exact h.2

theorem validateFile_memory_witness :
    ((ValidationError.memoryInvalid (4 * 8) 16 4 ∈
        pushedErrors StructValidator.empty
          (validateFileAuthenticationBackend sampleEnv
            { Path := "/config/users.yml",
              Password := some { Iterations := 1, KeyLength := 32, SaltLength := 16,
                                 Algorithm := "argon2id", Memory := 16, Parallelism := 4 } }
            StructValidator.empty).2 ↔ (16 : Int) < 4 * 8) ∧
      (∀ required memory parallelism,
        ValidationError.memoryInvalid required memory parallelism ∈
          pushedErrors StructValidator.empty
            (validateFileAuthenticationBackend sampleEnv
              { Path := "/config/users.yml",
                Password := some { Iterations := 1, KeyLength := 32, SaltLength := 16,
                                   Algorithm := "argon2id", Memory := 16, Parallelism := 4 } }
              StructValidator.empty).2 →
        required = 4 * 8 ∧ memory = 16 ∧ parallelism = 4) ∧
      Option.map PasswordConfiguration.Memory
        (validateFileAuthenticationBackend sampleEnv
          { Path := "/config/users.yml",
            Password := some { Iterations := 1, KeyLength := 32, SaltLength := 16,
                               Algorithm := "argon2id", Memory := 16, Parallelism := 4 } }
          StructValidator.empty).1.Password = some 16) ∧
    validateFileAuthenticationBackend sampleEnv
        { Path := "/config/users.yml",
          Password := some { Iterations := 1, KeyLength := 32, SaltLength := 16,
                             Algorithm := "argon2id", Memory := 16, Parallelism := 4 } }
        StructValidator.empty =
      ({ Path := "/config/users.yml",
         Password := some { Iterations := 1, KeyLength := 32, SaltLength := 16,
                            Algorithm := "argon2id", Memory := 16, Parallelism := 4 } },
       { errors := [ValidationError.memoryInvalid 32 16 4], warnings := [] }) :=
  ⟨validateFile_memory sampleEnv _
      { Iterations := 1, KeyLength := 32, SaltLength := 16, Algorithm := "argon2id",
        Memory := 16, Parallelism := 4 }
      StructValidator.empty 4 rfl (by decide) (by decide) (by decide) (by decide) (by decide),
    by decide⟩

/-- C7: for a file backend with a policy present, an empty Algorithm becomes the
default algorithm (argon2id, when the default record says so) and no algorithm error is
pushed; a non-empty Algorithm becomes its lower-case form, and the unknown-algorithm
error is pushed if and only if that form is neither argon2id nor sha512, in which case
the lower-case value stays in the record. -/
theorem validateFile_algorithm (env : Env) (c : FileAuthenticationBackendConfiguration)
    (p : PasswordConfiguration) (v : StructValidator)
    (hp : c.Password = some p)
    (hd : env.DefaultPasswordConfiguration.Algorithm = argon2id) :
    (p.Algorithm = "" →
      Option.map PasswordConfiguration.Algorithm
        (validateFileAuthenticationBackend env c v).1.Password = some argon2id ∧
      ∀ a, ValidationError.unknownAlgorithm a ∉
        pushedErrors v (validateFileAuthenticationBackend env c v).2) ∧
    (p.Algorithm ≠ "" →
      Option.map PasswordConfiguration.Algorithm
        (validateFileAuthenticationBackend env c v).1.Password =
          some (env.ToLower p.Algorithm) ∧
      (ValidationError.unknownAlgorithm (env.ToLower p.Algorithm) ∈
          pushedErrors v (validateFileAuthenticationBackend env c v).2 ↔
        env.ToLower p.Algorithm ≠ "argon2id" ∧ env.ToLower p.Algorithm ≠ "sha512") ∧
      ∀ a, ValidationError.unknownAlgorithm a ∈
          pushedErrors v (validateFileAuthenticationBackend env c v).2 →
        a = env.ToLower p.Algorithm) := by
  rw [validateFileAuthenticationBackend_some_pushed env c p v hp,
    validateFileAuthenticationBackend_some_fst env c p v hp,
    validatePasswordConfiguration_fst, resolvedAlgorithm_eq]
  refine ⟨fun h => ?_, fun h => ?_⟩
  · simp only [List.mem_append, mem_ite_singleton, mem_ite_nil, List.mem_singleton, h, hd,
      reduceCtorEq, and_false, false_or, or_false, ne_eq, not_true_eq_false, false_and,
      not_false_eq_true, if_true, Option.map_some', implies_true, and_self]
  · simp only [List.mem_append, mem_ite_singleton, mem_ite_nil, List.mem_singleton, h,
      reduceCtorEq, and_false, false_or, or_false, ne_eq, not_false_eq_true, true_and,
      if_false, Option.map_some', ValidationError.unknownAlgorithm.injEq, and_true, argon2id,
      sha512]
    intro a ha
    exact ha.2

theorem validateFile_algorithm_witness :
    ((({ Path := "/config/users.yml",
         Password := some { Iterations := 1, KeyLength := 32, SaltLength := 16,
                            Algorithm := "BCrypt", Memory := 1024, Parallelism := 8 } } :
        FileAuthenticationBackendConfiguration).Password =
        some { Iterations := 1, KeyLength := 32, SaltLength := 16, Algorithm := "BCrypt",
               Memory := 1024, Parallelism := 8 }) ∧
      sampleEnv.DefaultPasswordConfiguration.Algorithm = argon2id) ∧
    validateFileAuthenticationBackend sampleEnv
        { Path := "/config/users.yml",
          Password := some { Iterations := 1, KeyLength := 32, SaltLength := 16,
                             Algorithm := "BCrypt", Memory := 1024, Parallelism := 8 } }
        StructValidator.empty =
      ({ Path := "/config/users.yml",
         Password := some { Iterations := 1, KeyLength := 32, SaltLength := 16,
                            Algorithm := "bcrypt", Memory := 1024, Parallelism := 8 } },
       { errors := [ValidationError.unknownAlgorithm "bcrypt"], warnings := [] }) ∧
    ∀ a, ValidationError.unknownAlgorithm a ∈
        pushedErrors StructValidator.empty
          (validateFileAuthenticationBackend sampleEnv
            { Path := "/config/users.yml",
              Password := some { Iterations := 1, KeyLength := 32, SaltLength := 16,
                                 Algorithm := "BCrypt", Memory := 1024, Parallelism := 8 } }
            StructValidator.empty).2 →
      a = sampleEnv.ToLower "BCrypt" :=
  ⟨⟨rfl, rfl⟩, by decide,
    ((validateFile_algorithm sampleEnv _
      { Iterations := 1, KeyLength := 32, SaltLength := 16, Algorithm := "BCrypt",
        Memory := 1024, Parallelism := 8 }
      StructValidator.empty rfl rfl).2 (by decide)).2.2⟩

/-- C8: for a file backend with a policy present, Iterations 0 is replaced by the
argon2id default when the resolved algorithm is argon2id and by the sha512 default for
every other resolved algorithm, with no iterations error; a non-zero Iterations is left
unchanged and the iterations error is pushed if and only if Iterations < 1. The
resolved algorithm is the Algorithm of the resulting record. -/
theorem validateFile_iterations (env : Env) (c : FileAuthenticationBackendConfiguration)
    (p : PasswordConfiguration) (v : StructValidator)
    (hp : c.Password = some p) :
    Option.map PasswordConfiguration.Algorithm
      (validateFileAuthenticationBackend env c v).1.Password =
        some (resolvedAlgorithm env p) ∧
    (p.Iterations = 0 →
      Option.map PasswordConfiguration.Iterations
        (validateFileAuthenticationBackend env c v).1.Password =
          some (if resolvedAlgorithm env p = argon2id then
                  env.DefaultPasswordConfiguration.Iterations
                else env.DefaultPasswordSHA512Configuration.Iterations) ∧
      ∀ n, ValidationError.iterationsInvalid n ∉
        pushedErrors v (validateFileAuthenticationBackend env c v).2) ∧
    (p.Iterations ≠ 0 →
      Option.map PasswordConfiguration.Iterations
        (validateFileAuthenticationBackend env c v).1.Password = some p.Iterations ∧
      (ValidationError.iterationsInvalid p.Iterations ∈
          pushedErrors v (validateFileAuthenticationBackend env c v).2 ↔ p.Iterations < 1) ∧
      ∀ n, ValidationError.iterationsInvalid n ∈
          pushedErrors v (validateFileAuthenticationBackend env c v).2 → n = p.Iterations) := by
  rw [validateFileAuthenticationBackend_some_pushed env c p v hp,
    validateFileAuthenticationBackend_some_fst env c p v hp,
    validatePasswordConfiguration_fst]
  refine ⟨rfl, fun h => ?_, fun h => ?_⟩
  · simp only [List.mem_append, mem_ite_singleton, mem_ite_nil, List.mem_singleton, h,
      reduceCtorEq, and_false, false_or, or_false, ne_eq, not_true_eq_false, false_and,
      not_false_eq_true, if_true, Option.map_some', implies_true, and_self]
  · simp only [List.mem_append, mem_ite_singleton, mem_ite_nil, List.mem_singleton, h,
      reduceCtorEq, and_false, false_or, or_false, ne_eq, not_false_eq_true, true_and,
      if_false, Option.map_some', ValidationError.iterationsInvalid.injEq, and_true]
    intro n hn
    exact hn.2

theorem validateFile_iterations_witness :
    (({ Path := "/config/users.yml",
        Password := some { Iterations := 0, KeyLength := 0, SaltLength := 16,
                           Algorithm := "SHA512", Memory := 0, Parallelism := 0 } } :
        FileAuthenticationBackendConfiguration).Password =
      some { Iterations := 0, KeyLength := 0, SaltLength := 16, Algorithm := "SHA512",
             Memory := 0, Parallelism := 0 }) ∧
    Option.map PasswordConfiguration.Algorithm
      (validateFileAuthenticationBackend sampleEnv
        { Path := "/config/users.yml",
          Password := some { Iterations := 0, KeyLength := 0, SaltLength := 16,
                             Algorithm := "SHA512", Memory := 0, Parallelism := 0 } }
        StructValidator.empty).1.Password = some "sha512" ∧
    validateFileAuthenticationBackend sampleEnv
        { Path := "/config/users.yml",
          Password := some { Iterations := 0, KeyLength := 0, SaltLength := 16,
                             Algorithm := "SHA512", Memory := 0, Parallelism := 0 } }
        StructValidator.empty =
      ({ Path := "/config/users.yml",
         Password := some { Iterations := 50000, KeyLength := 0, SaltLength := 16,
                            Algorithm := "sha512", Memory := 0, Parallelism := 0 } },
       { errors := [], warnings := [] }) :=
  ⟨rfl,
    (validateFile_iterations sampleEnv _
      { Iterations := 0, KeyLength := 0, SaltLength := 16, Algorithm := "SHA512",
        Memory := 0, Parallelism := 0 }
      StructValidator.empty rfl).1,
    by decide⟩

/-- C9: for a file backend with a policy present, whatever the algorithm, SaltLength 0
is replaced by the default with no salt-length error; a non-zero SaltLength is left
unchanged and the salt-length error is pushed if and only if it is below 8. -/
theorem validateFile_saltLength (env : Env) (c : FileAuthenticationBackendConfiguration)
    (p : PasswordConfiguration) (v : StructValidator)
    (hp : c.Password = some p) :
    (p.SaltLength = 0 →
      Option.map PasswordConfiguration.SaltLength
        (validateFileAuthenticationBackend env c v).1.Password =
          some env.DefaultPasswordConfiguration.SaltLength ∧
      ∀ n, ValidationError.saltLengthInvalid n ∉
        pushedErrors v (validateFileAuthenticationBackend env c v).2) ∧
    (p.SaltLength ≠ 0 →
      Option.map PasswordConfiguration.SaltLength
        (validateFileAuthenticationBackend env c v).1.Password = some p.SaltLength ∧
      (ValidationError.saltLengthInvalid p.SaltLength ∈
          pushedErrors v (validateFileAuthenticationBackend env c v).2 ↔ p.SaltLength < 8) ∧
      ∀ n, ValidationError.saltLengthInvalid n ∈
          pushedErrors v (validateFileAuthenticationBackend env c v).2 → n = p.SaltLength) := by
  rw [validateFileAuthenticationBackend_some_pushed env c p v hp,
    validateFileAuthenticationBackend_some_fst env c p v hp,
    validatePasswordConfiguration_fst]
  refine ⟨fun h => ?_, fun h => ?_⟩
  · simp only [List.mem_append, mem_ite_singleton, mem_ite_nil, List.mem_singleton, h,
      reduceCtorEq, and_false, false_or, or_false, ne_eq, not_true_eq_false, false_and,
      not_false_eq_true, if_true, Option.map_some', implies_true, and_self]
  · simp only [List.mem_append, mem_ite_singleton, mem_ite_nil, List.mem_singleton, h,
      reduceCtorEq, and_false, false_or, or_false, ne_eq, not_false_eq_true, true_and,
      if_false, Option.map_some', ValidationError.saltLengthInvalid.injEq, and_true]
    intro n hn
    exact hn.2

theorem validateFile_saltLength_witness :
    (({ Path := "/config/users.yml",
        Password := some { Iterations := 50000, KeyLength := 0, SaltLength := 7,
                           Algorithm := "sha512", Memory := 0, Parallelism := 0 } } :
        FileAuthenticationBackendConfiguration).Password =
      some { Iterations := 50000, KeyLength := 0, SaltLength := 7, Algorithm := "sha512",
             Memory := 0, Parallelism := 0 }) ∧
    (ValidationError.saltLengthInvalid 7 ∈
        pushedErrors StructValidator.empty
          (validateFileAuthenticationBackend sampleEnv
            { Path := "/config/users.yml",
              Password := some { Iterations := 50000, KeyLength := 0, SaltLength := 7,
                                 Algorithm := "sha512", Memory := 0, Parallelism := 0 } }
            StructValidator.empty).2 ↔ (7 : Int) < 8) ∧
    validateFileAuthenticationBackend sampleEnv
        { Path := "/config/users.yml",
          Password := some { Iterations := 50000, KeyLength := 0, SaltLength := 7,
                             Algorithm := "sha512", Memory := 0, Parallelism := 0 } }
        StructValidator.empty =
      ({ Path := "/config/users.yml",
         Password := some { Iterations := 50000, KeyLength := 0, SaltLength := 7,
                            Algorithm := "sha512", Memory := 0, Parallelism := 0 } },
       { errors := [ValidationError.saltLengthInvalid 7], warnings := [] }) :=
  ⟨rfl,
    ((validateFile_saltLength sampleEnv _
      { Iterations := 50000, KeyLength := 0, SaltLength := 7, Algorithm := "sha512",
        Memory := 0, Parallelism := 0 }
      StructValidator.empty rfl).2 (by decide)).2.1,
    by decide⟩

/-- C10: for a file backend with a policy present whose resolved algorithm is not
argon2id, Parallelism, Memory and KeyLength are left exactly as the caller set them and no
parallelism, memory or key-length error is pushed. -/
theorem validateFile_not_argon2id (env : Env) (c : FileAuthenticationBackendConfiguration)
    (p : PasswordConfiguration) (v : StructValidator)
    (hp : c.Password = some p)
    (halg : resolvedAlgorithm env p ≠ argon2id) :
    Option.map PasswordConfiguration.Parallelism
      (validateFileAuthenticationBackend env c v).1.Password = some p.Parallelism ∧
    Option.map PasswordConfiguration.Memory
      (validateFileAuthenticationBackend env c v).1.Password = some p.Memory ∧
    Option.map PasswordConfiguration.KeyLength
      (validateFileAuthenticationBackend env c v).1.Password = some p.KeyLength ∧
    (∀ n, ValidationError.parallelismInvalid n ∉
      pushedErrors v (validateFileAuthenticationBackend env c v).2) ∧
    (∀ r m n, ValidationError.memoryInvalid r m n ∉
      pushedErrors v (validateFileAuthenticationBackend env c v).2) ∧
    (∀ n, ValidationError.keyLengthInvalid n ∉
      pushedErrors v (validateFileAuthenticationBackend env c v).2) := by
  rw [validateFileAuthenticationBackend_some_pushed env c p v hp,
    validateFileAuthenticationBackend_some_fst env c p v hp,
    validatePasswordConfiguration_fst]
  simp only [List.mem_append, mem_ite_singleton, mem_ite_nil, List.mem_singleton, halg,
    reduceCtorEq, and_false, false_or, or_false, ne_eq, not_false_eq_true, false_and,
    if_false, Option.map_some', implies_true, and_self, List.not_mem_nil]

theorem validateFile_not_argon2id_witness :
    (({ Path := "/config/users.yml",
        Password := some { Iterations := 50000, KeyLength := -3, SaltLength := 16,
                           Algorithm := "sha512", Memory := 0, Parallelism := -1 } } :
        FileAuthenticationBackendConfiguration).Password =
      some { Iterations := 50000, KeyLength := -3, SaltLength := 16, Algorithm := "sha512",
             Memory := 0, Parallelism := -1 } ∧
      resolvedAlgorithm sampleEnv
        { Iterations := 50000, KeyLength := -3, SaltLength := 16, Algorithm := "sha512",
          Memory := 0, Parallelism := -1 } ≠ argon2id) ∧
    Option.map PasswordConfiguration.Parallelism
      (validateFileAuthenticationBackend sampleEnv
        { Path := "/config/users.yml",
          Password := some { Iterations := 50000, KeyLength := -3, SaltLength := 16,
                             Algorithm := "sha512", Memory := 0, Parallelism := -1 } }
        StructValidator.empty).1.Password = some (-1) ∧
    validateFileAuthenticationBackend sampleEnv
        { Path := "/config/users.yml",
          Password := some { Iterations := 50000, KeyLength := -3, SaltLength := 16,
                             Algorithm := "sha512", Memory := 0, Parallelism := -1 } }
        StructValidator.empty =
      ({ Path := "/config/users.yml",
         Password := some { Iterations := 50000, KeyLength := -3, SaltLength := 16,
                            Algorithm := "sha512", Memory := 0, Parallelism := -1 } },
       { errors := [], warnings := [] }) :=
  ⟨⟨rfl, by decide⟩,
    (validateFile_not_argon2id sampleEnv _
      { Iterations := 50000, KeyLength := -3, SaltLength := 16, Algorithm := "sha512",
        Memory := 0, Parallelism := -1 }
      StructValidator.empty rfl (by decide)).1,
    by decide⟩

/-- C6, the case the code misses: for a file backend whose policy resolves to argon2id
and whose Memory is 0, Memory is set to the default and no memory error is pushed,
whatever the Parallelism: the default Memory is never compared with Parallelism*8. -/
theorem validateFile_default_memory_unchecked (env : Env)
    (c : FileAuthenticationBackendConfiguration) (p : PasswordConfiguration)
    (v : StructValidator)
    (hp : c.Password = some p)
    (halg : resolvedAlgorithm env p = argon2id)
    (hmem : p.Memory = 0) :
    Option.map PasswordConfiguration.Memory
      (validateFileAuthenticationBackend env c v).1.Password =
        some env.DefaultPasswordConfiguration.Memory ∧
    Option.map PasswordConfiguration.Parallelism
      (validateFileAuthenticationBackend env c v).1.Password =
        some (if p.Parallelism = 0 then env.DefaultPasswordConfiguration.Parallelism
              else p.Parallelism) ∧
    ∀ r m n, ValidationError.memoryInvalid r m n ∉
      pushedErrors v (validateFileAuthenticationBackend env c v).2 := by
  rw [validateFileAuthenticationBackend_some_pushed env c p v hp,
    validateFileAuthenticationBackend_some_fst env c p v hp,
    validatePasswordConfiguration_fst]
  simp only [List.mem_append, mem_ite_singleton, mem_ite_nil, List.mem_singleton, halg, hmem,
    reduceCtorEq, and_false, false_or, or_false, ne_eq, not_true_eq_false, false_and,
    not_false_eq_true, if_true, true_and, Option.map_some', implies_true, and_self, and_true]

theorem validateFile_default_memory_unchecked_witness :
    (Option.map PasswordConfiguration.Memory
        (validateFileAuthenticationBackend sampleEnv
          { Path := "/config/users.yml",
            Password := some { Iterations := 1, KeyLength := 32, SaltLength := 16,
                               Algorithm := "argon2id", Memory := 0,
                               Parallelism := 1000000 } }
          StructValidator.empty).1.Password =
        some sampleEnv.DefaultPasswordConfiguration.Memory) ∧
    validateFileAuthenticationBackend sampleEnv
        { Path := "/config/users.yml",
          Password := some { Iterations := 1, KeyLength := 32, SaltLength := 16,
                             Algorithm := "argon2id", Memory := 0, Parallelism := 1000000 } }
        StructValidator.empty =
      ({ Path := "/config/users.yml",
         Password := some { Iterations := 1, KeyLength := 32, SaltLength := 16,
                            Algorithm := "argon2id", Memory := 1024,
                            Parallelism := 1000000 } },
       { errors := [], warnings := [] }) ∧
    ¬ ((1024 : Int) ≥ 1000000 * 8) :=
  ⟨(validateFile_default_memory_unchecked sampleEnv _
      { Iterations := 1, KeyLength := 32, SaltLength := 16, Algorithm := "argon2id",
        Memory := 0, Parallelism := 1000000 }
      StructValidator.empty rfl (by decide) rfl).1,
    by decide, by decide⟩

/-! ## Lemmas: validateFileAuthenticationBackend and the validator it is given -/

theorem validateFileAuthenticationBackend_fst (env : Env)
    (c : FileAuthenticationBackendConfiguration) (v : StructValidator) :
    (validateFileAuthenticationBackend env c v).1 =
      (validateFileAuthenticationBackend env c StructValidator.empty).1 := by
  cases hp : c.Password with
  | none => simp only [validateFileAuthenticationBackend, hp]
  | some p =>
    rw [validateFileAuthenticationBackend_some_fst env c p v hp,
      validateFileAuthenticationBackend_some_fst env c p _ hp]

theorem validateFileAuthenticationBackend_snd (env : Env)
    (c : FileAuthenticationBackendConfiguration) (v : StructValidator) :
    (validateFileAuthenticationBackend env c v).2 =
      { v with errors := v.errors ++
          (validateFileAuthenticationBackend env c StructValidator.empty).2.errors } := by
  cases hp : c.Password with
  | none =>
    by_cases h : c.Path = "" <;>
      simp [validateFileAuthenticationBackend, hp, h, StructValidator.Push,
        StructValidator.empty]
  | some p =>
    rw [validateFileAuthenticationBackend_some_snd env c p v hp,
      validateFileAuthenticationBackend_some_snd env c p _ hp]
    simp only [StructValidator.empty, List.nil_append]

/-! ## Lemmas: the blocks of ValidateAuthenticationBackend -/

theorem validateRefreshInterval_fst (env : Env) (c : AuthenticationBackendConfiguration)
    (v : StructValidator) :
    (validateRefreshInterval env c v).1 =
      { c with RefreshInterval :=
          if c.RefreshInterval = "" then env.RefreshIntervalDefault else c.RefreshInterval } := by
  simp only [validateRefreshInterval]
  by_cases h : c.RefreshInterval = ""
  · simp only [h, if_true]
  · simp only [h, if_false]
    cases env.ParseDurationString c.RefreshInterval with
    | error err => simp only; split_ifs <;> rfl
    | ok d => rfl

theorem validateRefreshInterval_snd (env : Env) (c : AuthenticationBackendConfiguration)
    (v : StructValidator) :
    (validateRefreshInterval env c v).2 =
      { v with errors := v.errors ++
          match env.ParseDurationString c.RefreshInterval with
          | .error err =>
            if c.RefreshInterval ≠ "" ∧ c.RefreshInterval ≠ "disable" ∧
                c.RefreshInterval ≠ "always" then
              [ValidationError.refreshIntervalInvalid c.RefreshInterval err]
            else []
          | .ok _ => [] } := by
  simp only [validateRefreshInterval, ProfileRefreshDisabled, ProfileRefreshAlways]
  by_cases h : c.RefreshInterval = ""
  · simp only [h, if_true]
    cases env.ParseDurationString "" <;> simp
  · simp only [h, if_false]
    cases env.ParseDurationString c.RefreshInterval <;> simp only
    · split_ifs <;> simp_all [StructValidator.Push]
    · simp

theorem ValidateAuthenticationBackend_both (env : Env)
    (c : AuthenticationBackendConfiguration) (f : FileAuthenticationBackendConfiguration)
    (l : LDAPAuthenticationBackendConfiguration) (v : StructValidator)
    (hf : c.File = some f) (hl : c.Ldap = some l) :
    ValidateAuthenticationBackend env c v =
      ({ Ldap := some l,
         File := some (validateFileAuthenticationBackend env f StructValidator.empty).1,
         RefreshInterval :=
           if c.RefreshInterval = "" then env.RefreshIntervalDefault else c.RefreshInterval },
       { errors := v.errors ++ (ValidationError.backendBoth ::
           ((validateFileAuthenticationBackend env f StructValidator.empty).2.errors ++
            (validateRefreshInterval env c StructValidator.empty).2.errors)),
         warnings := v.warnings }) := by
  have h1 : validateBackendPresence c v = v.Push ValidationError.backendBoth := by
    simp [validateBackendPresence, hf, hl]
  have h2 : ∀ w, validateBackend env c w =
      ({ c with File := some (validateFileAuthenticationBackend env f w).1 },
        (validateFileAuthenticationBackend env f w).2) := by
    intro w
    simp only [validateBackend, hf]
  apply Prod.ext
  · simp only [ValidateAuthenticationBackend, h1, h2, validateRefreshInterval_fst, hl]
    rw [validateFileAuthenticationBackend_fst]
  · simp only [ValidateAuthenticationBackend, h1, h2, validateRefreshInterval_snd]
    rw [validateFileAuthenticationBackend_snd]
    simp [StructValidator.Push, StructValidator.empty]

theorem ValidateAuthenticationBackend_neither (env : Env)
    (c : AuthenticationBackendConfiguration) (v : StructValidator)
    (hf : c.File = none) (hl : c.Ldap = none) :
    ValidateAuthenticationBackend env c v =
      ({ Ldap := none, File := none,
         RefreshInterval :=
           if c.RefreshInterval = "" then env.RefreshIntervalDefault else c.RefreshInterval },
       { errors := v.errors ++ (ValidationError.backendMissing ::
            (validateRefreshInterval env c StructValidator.empty).2.errors),
         warnings := v.warnings }) := by
  have h1 : validateBackendPresence c v = v.Push ValidationError.backendMissing := by
    simp [validateBackendPresence, hf, hl]
  have h2 : ∀ w, validateBackend env c w = (c, w) := by
    intro w
    simp only [validateBackend, hf, hl]
  apply Prod.ext
  · simp only [ValidateAuthenticationBackend, h1, h2, validateRefreshInterval_fst, hl, hf]
  · simp only [ValidateAuthenticationBackend, h1, h2, validateRefreshInterval_snd]
    simp [StructValidator.Push, StructValidator.empty]

/-! ## The dispatcher: claims C1 to C3 -/

/-- C1, as the code has it: when File and Ldap are both present,
ValidateAuthenticationBackend pushes the mutual-exclusivity error and runs
validateFileAuthenticationBackend on File only. Every error the file validator pushes
when run alone is in the accumulator; the pushed errors are the mutual-exclusivity
error, the errors of the file validator and those of the refresh interval check, in
this order; File holds the result of the file validator; Ldap is left as it was and no
warning is pushed, so validateLdapAuthenticationBackend is not run. -/
theorem ValidateAuthenticationBackend_both_present (env : Env)
    (c : AuthenticationBackendConfiguration) (f : FileAuthenticationBackendConfiguration)
    (l : LDAPAuthenticationBackendConfiguration) (v : StructValidator)
    (hf : c.File = some f) (hl : c.Ldap = some l) :
    ValidationError.backendBoth ∈
      pushedErrors v (ValidateAuthenticationBackend env c v).2 ∧
    (∀ e ∈ pushedErrors StructValidator.empty
        (validateFileAuthenticationBackend env f StructValidator.empty).2,
      e ∈ pushedErrors v (ValidateAuthenticationBackend env c v).2) ∧
    pushedErrors v (ValidateAuthenticationBackend env c v).2 =
      ValidationError.backendBoth ::
        (pushedErrors StructValidator.empty
            (validateFileAuthenticationBackend env f StructValidator.empty).2 ++
          pushedErrors StructValidator.empty
            (validateRefreshInterval env c StructValidator.empty).2) ∧
    (ValidateAuthenticationBackend env c v).1.File =
      some (validateFileAuthenticationBackend env f StructValidator.empty).1 ∧
    (ValidateAuthenticationBackend env c v).1.Ldap = some l ∧
    pushedWarnings v (ValidateAuthenticationBackend env c v).2 = [] := by
  rw [ValidateAuthenticationBackend_both env c f l v hf hl]
  simp only [pushedErrors_append, pushedWarnings_same]
  simp [pushedErrors, StructValidator.empty]
  intro e he
  exact Or.inr (Or.inl he)

theorem ValidateAuthenticationBackend_both_present_witness :
    ((({ Ldap := some emptyLdap, File := some { Path := "", Password := none },
         RefreshInterval := "5m" } : AuthenticationBackendConfiguration).File =
        some { Path := "", Password := none }) ∧
      (({ Ldap := some emptyLdap, File := some { Path := "", Password := none },
          RefreshInterval := "5m" } : AuthenticationBackendConfiguration).Ldap =
        some emptyLdap)) ∧
    (∀ e ∈ pushedErrors StructValidator.empty
        (validateFileAuthenticationBackend sampleEnv { Path := "", Password := none }
          StructValidator.empty).2,
      e ∈ pushedErrors StructValidator.empty
        (ValidateAuthenticationBackend sampleEnv
          { Ldap := some emptyLdap, File := some { Path := "", Password := none },
            RefreshInterval := "5m" } StructValidator.empty).2) ∧
    (ValidateAuthenticationBackend sampleEnv
        { Ldap := some emptyLdap, File := some { Path := "", Password := none },
          RefreshInterval := "5m" } StructValidator.empty).2 =
      { errors := [ValidationError.backendBoth, ValidationError.filePathMissing],
        warnings := [] } :=
  ⟨⟨rfl, rfl⟩,
    (ValidateAuthenticationBackend_both_present sampleEnv
      { Ldap := some emptyLdap, File := some { Path := "", Password := none },
        RefreshInterval := "5m" }
      { Path := "", Password := none } emptyLdap StructValidator.empty rfl rfl).2.1,
    by decide⟩

/-- C1 fails as stated: with both backends present and an LDAP record without a URL,
validateLdapAuthenticationBackend run alone pushes the missing-URL error, and
ValidateAuthenticationBackend does not push it and leaves Ldap as it was. -/
theorem ValidateAuthenticationBackend_both_skips_ldap :
    ValidationError.ldapURLMissing ∈
      pushedErrors StructValidator.empty
        (validateLdapAuthenticationBackend sampleEnv emptyLdap StructValidator.empty).2 ∧
    ValidationError.ldapURLMissing ∉
      pushedErrors StructValidator.empty
        (ValidateAuthenticationBackend sampleEnv
          { Ldap := some emptyLdap,
            File := some { Path := "/config/users.yml", Password := none },
            RefreshInterval := "5m" } StructValidator.empty).2 ∧
    (ValidateAuthenticationBackend sampleEnv
        { Ldap := some emptyLdap,
          File := some { Path := "/config/users.yml", Password := none },
          RefreshInterval := "5m" } StructValidator.empty).2.errors =
      [ValidationError.backendBoth] := by
  decide

/-- C2, as the code has it: when File and Ldap are both absent,
ValidateAuthenticationBackend pushes the backend-required error first and after it the
refresh-interval error, the latter exactly when RefreshInterval is not empty, is rejected
by the duration parser and is neither disable nor always; File and Ldap stay absent and no
warning is pushed. -/
theorem ValidateAuthenticationBackend_neither_present (env : Env)
    (c : AuthenticationBackendConfiguration) (v : StructValidator)
    (hf : c.File = none) (hl : c.Ldap = none) :
    pushedErrors v (ValidateAuthenticationBackend env c v).2 =
      (match env.ParseDurationString c.RefreshInterval with
        | .error err =>
          if c.RefreshInterval ≠ "" ∧ c.RefreshInterval ≠ "disable" ∧
              c.RefreshInterval ≠ "always" then
            [ValidationError.backendMissing,
              ValidationError.refreshIntervalInvalid c.RefreshInterval err]
          else [ValidationError.backendMissing]
        | .ok _ => [ValidationError.backendMissing]) ∧
    (ValidateAuthenticationBackend env c v).1.File = none ∧
    (ValidateAuthenticationBackend env c v).1.Ldap = none ∧
    pushedWarnings v (ValidateAuthenticationBackend env c v).2 = [] := by
  rw [ValidateAuthenticationBackend_neither env c v hf hl]
  simp only [pushedErrors_append, pushedWarnings_same, validateRefreshInterval_snd,
    StructValidator.empty, List.nil_append, and_self, and_true]
  cases env.ParseDurationString c.RefreshInterval with
  | error err => simp only; split_ifs <;> rfl
  | ok d => rfl

theorem ValidateAuthenticationBackend_neither_present_witness :
    ((({ Ldap := none, File := none, RefreshInterval := "always" } :
        AuthenticationBackendConfiguration).File = none) ∧
      (({ Ldap := none, File := none, RefreshInterval := "always" } :
        AuthenticationBackendConfiguration).Ldap = none)) ∧
    (ValidateAuthenticationBackend sampleEnv
        { Ldap := none, File := none, RefreshInterval := "always" }
        StructValidator.empty).1.File = none ∧
    ValidateAuthenticationBackend sampleEnv
        { Ldap := none, File := none, RefreshInterval := "always" } StructValidator.empty =
      ({ Ldap := none, File := none, RefreshInterval := "always" },
       { errors := [ValidationError.backendMissing], warnings := [] }) :=
  ⟨⟨rfl, rfl⟩,
    (ValidateAuthenticationBackend_neither_present sampleEnv
      { Ldap := none, File := none, RefreshInterval := "always" } StructValidator.empty
      rfl rfl).2.1,
    by decide⟩

/-- C2 fails as stated: with both backends absent and a RefreshInterval that the
duration parser rejects, the run started on an empty accumulator ends with two fatal
errors, the backend-required error and the refresh-interval error. -/
theorem ValidateAuthenticationBackend_neither_two_errors :
    (ValidateAuthenticationBackend sampleEnv
        { Ldap := none, File := none, RefreshInterval := "five minutes" }
        StructValidator.empty).2.errors =
      [ValidationError.backendMissing,
        ValidationError.refreshIntervalInvalid "five minutes"
          "could not convert the input string of five minutes into a duration"] ∧
    (ValidateAuthenticationBackend sampleEnv
        { Ldap := none, File := none, RefreshInterval := "five minutes" }
        StructValidator.empty).2.errors.length ≠ 1 := by
  decide

/-- C3, as the code has it: when File and Ldap are both absent or both present,
ValidateAuthenticationBackend pushes a fatal error (the backend-required error when
they are absent, the mutual-exclusivity error when they are present) and leaves Ldap
equal to its input; an absent File stays absent, a present File is replaced by the
result of validateFileAuthenticationBackend on it; RefreshInterval is left equal to its
input unless it is empty, and an empty RefreshInterval is set to the default. -/
theorem ValidateAuthenticationBackend_frame (env : Env)
    (c : AuthenticationBackendConfiguration) (v : StructValidator)
    (h : (c.File = none ∧ c.Ldap = none) ∨ (c.File ≠ none ∧ c.Ldap ≠ none)) :
    (c.File = none → ValidationError.backendMissing ∈
      pushedErrors v (ValidateAuthenticationBackend env c v).2) ∧
    (c.File ≠ none → ValidationError.backendBoth ∈
      pushedErrors v (ValidateAuthenticationBackend env c v).2) ∧
    (ValidateAuthenticationBackend env c v).1.Ldap = c.Ldap ∧
    (ValidateAuthenticationBackend env c v).1.File =
      c.File.map (fun f => (validateFileAuthenticationBackend env f StructValidator.empty).1) ∧
    (ValidateAuthenticationBackend env c v).1.RefreshInterval =
      (if c.RefreshInterval = "" then env.RefreshIntervalDefault else c.RefreshInterval) := by
  rcases h with ⟨hf, hl⟩ | ⟨hf, hl⟩
  · rw [ValidateAuthenticationBackend_neither env c v hf hl]
    simp [pushedErrors_append, hf, hl]
  · obtain ⟨f, hf'⟩ := Option.ne_none_iff_exists'.mp hf
    obtain ⟨l, hl'⟩ := Option.ne_none_iff_exists'.mp hl
    rw [ValidateAuthenticationBackend_both env c f l v hf' hl']
    simp [pushedErrors_append, hf', hl']

theorem ValidateAuthenticationBackend_frame_witness :
    ((({ Ldap := none, File := none, RefreshInterval := "1h" } :
          AuthenticationBackendConfiguration).File = none ∧
        ({ Ldap := none, File := none, RefreshInterval := "1h" } :
          AuthenticationBackendConfiguration).Ldap = none) ∨
      (({ Ldap := none, File := none, RefreshInterval := "1h" } :
          AuthenticationBackendConfiguration).File ≠ none ∧
        ({ Ldap := none, File := none, RefreshInterval := "1h" } :
          AuthenticationBackendConfiguration).Ldap ≠ none)) ∧
    (ValidateAuthenticationBackend sampleEnv
        { Ldap := none, File := none, RefreshInterval := "1h" }
        StructValidator.empty).1.Ldap = none ∧
    ValidateAuthenticationBackend sampleEnv
        { Ldap := none, File := none, RefreshInterval := "1h" } StructValidator.empty =
      ({ Ldap := none, File := none, RefreshInterval := "1h" },
       { errors := [ValidationError.backendMissing], warnings := [] }) :=
  ⟨Or.inl ⟨rfl, rfl⟩,
    (ValidateAuthenticationBackend_frame sampleEnv
      { Ldap := none, File := none, RefreshInterval := "1h" } StructValidator.empty
      (Or.inl ⟨rfl, rfl⟩)).2.2.1,
    by decide⟩

/-- C3 fails as stated: with both backends present and no Password policy in File, the
record ValidateAuthenticationBackend returns differs from its input (File now holds the
default policy); with both backends absent and an empty RefreshInterval, the record
returned differs from its input as well (RefreshInterval now holds the default). -/
theorem ValidateAuthenticationBackend_record_modified :
    (ValidateAuthenticationBackend sampleEnv
        { Ldap := some emptyLdap,
          File := some { Path := "/config/users.yml", Password := none },
          RefreshInterval := "5m" } StructValidator.empty).1 ≠
      { Ldap := some emptyLdap,
        File := some { Path := "/config/users.yml", Password := none },
        RefreshInterval := "5m" } ∧
    (ValidateAuthenticationBackend sampleEnv
        { Ldap := none, File := none, RefreshInterval := "" } StructValidator.empty).1 ≠
      { Ldap := none, File := none, RefreshInterval := "" } := by
  decide

/-! ## Further properties of the file backend -/

/-- The bounds that an error-free run does establish under argon2id: when the defaults
of the schema package satisfy the bounds themselves and no fatal error is pushed, the
resulting policy has Parallelism ≥ 1, KeyLength ≥ 16, SaltLength ≥ 8 and
Iterations ≥ 1, and it has Memory ≥ Parallelism*8 provided Memory was supplied by the
caller (not 0) and Parallelism*8 is in the range of a 64 bit signed integer. -/
theorem validateFile_argon2id_bounds (env : Env)
    (c : FileAuthenticationBackendConfiguration) (p q : PasswordConfiguration)
    (v : StructValidator)
    (hp : c.Password = some p)
    (halg : resolvedAlgorithm env p = argon2id)
    (hdp : 1 ≤ env.DefaultPasswordConfiguration.Parallelism)
    (hdk : 16 ≤ env.DefaultPasswordConfiguration.KeyLength)
    (hds : 8 ≤ env.DefaultPasswordConfiguration.SaltLength)
    (hdi : 1 ≤ env.DefaultPasswordConfiguration.Iterations)
    (hno : pushedErrors v (validateFileAuthenticationBackend env c v).2 = [])
    (hq : (validateFileAuthenticationBackend env c v).1.Password = some q) :
    1 ≤ q.Parallelism ∧ 16 ≤ q.KeyLength ∧ 8 ≤ q.SaltLength ∧ 1 ≤ q.Iterations ∧
    (p.Memory ≠ 0 → -2 ^ 63 ≤ q.Parallelism * 8 → q.Parallelism * 8 < 2 ^ 63 →
      q.Parallelism * 8 ≤ q.Memory) := by
  rw [validateFileAuthenticationBackend_some_pushed env c p v hp] at hno
  rw [validateFileAuthenticationBackend_some_fst env c p v hp,
    validatePasswordConfiguration_fst] at hq
  simp only [Option.some.injEq] at hq
  subst hq
  simp only [halg, if_true, true_and, List.append_eq_nil, ite_eq_right_iff,
    List.cons_ne_self, reduceCtorEq, imp_false, not_and, not_lt, ne_eq] at hno ⊢
  obtain ⟨-, -, hi, hs, hpar, hm, hk⟩ := hno
  refine ⟨?_, ?_, ?_, ?_, ?_⟩
  · split_ifs with h0
    · exact hdp
    · exact hpar h0
  · split_ifs with h0
    · exact hdk
    · exact hk h0
  · split_ifs with h0
    · exact hds
    · exact hs h0
  · split_ifs with h0
    · exact hdi
    · exact hi h0
  · intro hm0 hlo hhi
    have := hm hm0
    rw [wrapInt64_of_range _ hlo hhi] at this
    simp only [hm0, if_false]
    exact this

theorem validateFile_argon2id_bounds_witness :
    (validateFileAuthenticationBackend sampleEnv
        { Path := "/config/users.yml",
          Password := some { Iterations := 0, KeyLength := 0, SaltLength := 0,
                             Algorithm := "", Memory := 128, Parallelism := 0 } }
        StructValidator.empty).1.Password =
      some { Iterations := 1, KeyLength := 32, SaltLength := 16, Algorithm := "argon2id",
             Memory := 128, Parallelism := 8 } ∧
    ((1 : Int) ≤ 8 ∧ (16 : Int) ≤ 32 ∧ (8 : Int) ≤ 16 ∧ (1 : Int) ≤ 1 ∧
      ((128 : Int) ≠ 0 → -2 ^ 63 ≤ (8 : Int) * 8 → (8 : Int) * 8 < 2 ^ 63 →
        (8 : Int) * 8 ≤ 128)) :=
  ⟨by decide,
    validateFile_argon2id_bounds sampleEnv
      { Path := "/config/users.yml",
        Password := some { Iterations := 0, KeyLength := 0, SaltLength := 0,
                           Algorithm := "", Memory := 128, Parallelism := 0 } }
      { Iterations := 0, KeyLength := 0, SaltLength := 0, Algorithm := "", Memory := 128,
        Parallelism := 0 }
      { Iterations := 1, KeyLength := 32, SaltLength := 16, Algorithm := "argon2id",
        Memory := 128, Parallelism := 8 }
      StructValidator.empty rfl (by decide) (by decide) (by decide) (by decide) (by decide)
      (by decide) (by decide)⟩

/-- The product Parallelism*8 of line 61 wraps: with Parallelism 2^60 the product is
-2^63 as a 64 bit signed integer, so Memory 1 is accepted without any error. -/
theorem validateFile_memory_overflow_accepted :
    wrapInt64 (2 ^ 60 * 8) = -2 ^ 63 ∧
    validateFileAuthenticationBackend sampleEnv
        { Path := "/config/users.yml",
          Password := some { Iterations := 1, KeyLength := 32, SaltLength := 16,
                             Algorithm := "argon2id", Memory := 1, Parallelism := 2 ^ 60 } }
        StructValidator.empty =
      ({ Path := "/config/users.yml",
         Password := some { Iterations := 1, KeyLength := 32, SaltLength := 16,
                            Algorithm := "argon2id", Memory := 1, Parallelism := 2 ^ 60 } },
       { errors := [], warnings := [] }) := by
  decide

/-! ## Lemmas: the blocks of validateLdapAuthenticationBackend -/

theorem setDefaultImplementationCustom_eq (env : Env)
    (c : LDAPAuthenticationBackendConfiguration) :
    setDefaultImplementationCustomLdapAuthenticationBackend env c =
      { c with
        UsernameAttribute :=
          if c.UsernameAttribute = "" then
            env.DefaultLDAPAuthenticationBackendConfiguration.UsernameAttribute
          else c.UsernameAttribute
        GroupNameAttribute :=
          if c.GroupNameAttribute = "" then
            env.DefaultLDAPAuthenticationBackendConfiguration.GroupNameAttribute
          else c.GroupNameAttribute
        MailAttribute :=
          if c.MailAttribute = "" then
            env.DefaultLDAPAuthenticationBackendConfiguration.MailAttribute
          else c.MailAttribute
        DisplayNameAttribute :=
          if c.DisplayNameAttribute = "" then
            env.DefaultLDAPAuthenticationBackendConfiguration.DisplayNameAttribute
          else c.DisplayNameAttribute } := by
  simp only [setDefaultImplementationCustomLdapAuthenticationBackend]
  by_cases h1 : c.UsernameAttribute = "" <;> by_cases h2 : c.GroupNameAttribute = "" <;>
    by_cases h3 : c.MailAttribute = "" <;> by_cases h4 : c.DisplayNameAttribute = "" <;>
    simp [h1, h2, h3, h4]

theorem setDefaultImplementationActiveDirectory_eq (env : Env)
    (c : LDAPAuthenticationBackendConfiguration) :
    setDefaultImplementationActiveDirectoryLdapAuthenticationBackend env c =
      { c with
        UsersFilter :=
          if c.UsersFilter = "" then
            env.DefaultLDAPAuthenticationBackendImplementationActiveDirectoryConfiguration.UsersFilter
          else c.UsersFilter
        UsernameAttribute :=
          if c.UsernameAttribute = "" then
            env.DefaultLDAPAuthenticationBackendImplementationActiveDirectoryConfiguration.UsernameAttribute
          else c.UsernameAttribute
        DisplayNameAttribute :=
          if c.DisplayNameAttribute = "" then
            env.DefaultLDAPAuthenticationBackendImplementationActiveDirectoryConfiguration.DisplayNameAttribute
          else c.DisplayNameAttribute
        MailAttribute :=
          if c.MailAttribute = "" then
            env.DefaultLDAPAuthenticationBackendImplementationActiveDirectoryConfiguration.MailAttribute
          else c.MailAttribute
        GroupsFilter :=
          if c.GroupsFilter = "" then
            env.DefaultLDAPAuthenticationBackendImplementationActiveDirectoryConfiguration.GroupsFilter
          else c.GroupsFilter
        GroupNameAttribute :=
          if c.GroupNameAttribute = "" then
            env.DefaultLDAPAuthenticationBackendImplementationActiveDirectoryConfiguration.GroupNameAttribute
          else c.GroupNameAttribute } := by
  simp only [setDefaultImplementationActiveDirectoryLdapAuthenticationBackend]
  by_cases h1 : c.UsersFilter = "" <;> by_cases h2 : c.UsernameAttribute = "" <;>
    by_cases h3 : c.DisplayNameAttribute = "" <;> by_cases h4 : c.MailAttribute = "" <;>
    by_cases h5 : c.GroupsFilter = "" <;> by_cases h6 : c.GroupNameAttribute = "" <;>
    simp [h1, h2, h3, h4, h5, h6]

theorem validateLdapURL_fst (env : Env) (url : String) (v : StructValidator) :
    (validateLdapURL env url v).1 = (validateLdapURL env url StructValidator.empty).1 := by
  simp only [validateLdapURL]
  cases env.urlParse url with
  | none => rfl
  | some u => simp only; split_ifs <;> rfl

theorem validateLdapURL_snd (env : Env) (url : String) (v : StructValidator) :
    (validateLdapURL env url v).2 =
      { v with errors := v.errors ++ (validateLdapURL env url StructValidator.empty).2.errors } := by
  simp only [validateLdapURL]
  cases env.urlParse url with
  | none => simp [StructValidator.Push, StructValidator.empty]
  | some u => simp only; split_ifs <;> simp [StructValidator.Push, StructValidator.empty]

theorem ldapStart_configuration (env : Env) (c : LDAPAuthenticationBackendConfiguration)
    (v : StructValidator) :
    (ldapStart env c v).configuration =
      { c with Implementation :=
          if c.Implementation = "" then
            env.DefaultLDAPAuthenticationBackendConfiguration.Implementation
          else c.Implementation } := by
  rcases c with ⟨impl, url, tls, sv, mtv, bdn, uf, gf, ua, ma, da, ga, us, pw⟩
  simp only [ldapStart]
  by_cases h : impl = "" <;> cases tls <;> simp [h]

theorem ldapStart_tls (env : Env) (c : LDAPAuthenticationBackendConfiguration)
    (v : StructValidator) :
    (ldapStart env c v).tls = c.TLS.getD env.DefaultLDAPTLS := by
  simp only [ldapStart]
  by_cases h : c.Implementation = "" <;> cases hT : c.TLS <;> simp [h, hT]

theorem ldapStart_nilTLS (env : Env) (c : LDAPAuthenticationBackendConfiguration)
    (v : StructValidator) :
    (ldapStart env c v).nilTLS = c.TLS.isNone := by
  simp only [ldapStart]
  by_cases h : c.Implementation = "" <;> cases hT : c.TLS <;> simp [h, hT]

theorem ldapStart_validator (env : Env) (c : LDAPAuthenticationBackendConfiguration)
    (v : StructValidator) :
    (ldapStart env c v).validator = v := by
  simp only [ldapStart]
  by_cases h : c.Implementation = "" <;> cases hT : c.TLS <;> simp [h, hT]

theorem ldapDeprecatedSkipVerify_eq (r : LdapRun) :
    ldapDeprecatedSkipVerify r =
      { configuration := r.configuration
        tls := { r.tls with SkipVerify :=
                  if r.nilTLS = true then r.configuration.SkipVerify.getD r.tls.SkipVerify
                  else r.tls.SkipVerify }
        nilTLS := r.nilTLS
        validator :=
          { r.validator with warnings := r.validator.warnings ++
              if r.configuration.SkipVerify.isSome = true then
                [ValidationError.deprecatedSkipVerify] else [] } } := by
  rcases r with ⟨cfg, ⟨mv, sv, sn⟩, n, ⟨e, w⟩⟩
  simp only [ldapDeprecatedSkipVerify]
  cases hS : cfg.SkipVerify <;> cases n <;> simp [StructValidator.PushWarning]

theorem ldapDeprecatedMinimumTLSVersion_eq (r : LdapRun) :
    ldapDeprecatedMinimumTLSVersion r =
      { configuration := r.configuration
        tls := { r.tls with MinimumVersion :=
                  if r.configuration.MinimumTLSVersion ≠ "" ∧ r.nilTLS = true then
                    r.configuration.MinimumTLSVersion
                  else r.tls.MinimumVersion }
        nilTLS := r.nilTLS
        validator :=
          { r.validator with warnings := r.validator.warnings ++
              if r.configuration.MinimumTLSVersion ≠ "" then
                [ValidationError.deprecatedMinimumTLSVersion] else [] } } := by
  rcases r with ⟨cfg, ⟨mv, sv, sn⟩, n, ⟨e, w⟩⟩
  simp only [ldapDeprecatedMinimumTLSVersion]
  by_cases hM : cfg.MinimumTLSVersion = "" <;> cases n <;>
    simp [hM, StructValidator.PushWarning]

theorem ldapMinimumVersion_eq (env : Env) (r : LdapRun) :
    ldapMinimumVersion env r =
      { configuration := r.configuration
        tls := { r.tls with MinimumVersion :=
                  if r.tls.MinimumVersion = "" then env.DefaultLDAPTLS.MinimumVersion
                  else r.tls.MinimumVersion }
        nilTLS := r.nilTLS
        validator :=
          { r.validator with errors := r.validator.errors ++
              match (env.TLSStringToTLSConfigVersion
                  (if r.tls.MinimumVersion = "" then env.DefaultLDAPTLS.MinimumVersion
                   else r.tls.MinimumVersion)) with
              | .error err =>
                [ValidationError.ldapTLSVersionInvalid
                  (if r.tls.MinimumVersion = "" then env.DefaultLDAPTLS.MinimumVersion
                   else r.tls.MinimumVersion) err]
              | .ok _ => [] } } := by
  rcases r with ⟨cfg, ⟨mv, sv, sn⟩, n, ⟨e, w⟩⟩
  simp only [ldapMinimumVersion]
  by_cases hM : mv = ""
  · simp only [hM, if_true]
    cases env.TLSStringToTLSConfigVersion env.DefaultLDAPTLS.MinimumVersion <;>
      simp [StructValidator.Push]
  · simp only [hM, if_false]
    cases env.TLSStringToTLSConfigVersion mv <;> simp [StructValidator.Push]

theorem ldapImplementation_eq (env : Env) (r : LdapRun) :
    ldapImplementation env r =
      { configuration :=
          if r.configuration.Implementation = LDAPImplementationCustom then
            setDefaultImplementationCustomLdapAuthenticationBackend env r.configuration
          else if r.configuration.Implementation = LDAPImplementationActiveDirectory then
            setDefaultImplementationActiveDirectoryLdapAuthenticationBackend env r.configuration
          else r.configuration
        tls := r.tls
        nilTLS := r.nilTLS
        validator :=
          { r.validator with errors := r.validator.errors ++
              if r.configuration.Implementation ≠ LDAPImplementationCustom ∧
                  r.configuration.Implementation ≠ LDAPImplementationActiveDirectory then
                [ValidationError.ldapImplementationInvalid] else [] } } := by
  rcases r with ⟨cfg, ⟨mv, sv, sn⟩, n, ⟨e, w⟩⟩
  simp only [ldapImplementation]
  have hne : LDAPImplementationActiveDirectory ≠ LDAPImplementationCustom := by decide
  by_cases h1 : cfg.Implementation = LDAPImplementationCustom
  · simp [h1]
  · by_cases h2 : cfg.Implementation = LDAPImplementationActiveDirectory
    · simp [h2, hne]
    · simp [h1, h2, StructValidator.Push]

theorem ldapURL_eq (env : Env) (r : LdapRun) :
    ldapURL env r =
      { configuration :=
          { r.configuration with URL :=
              if r.configuration.URL = "" then ""
              else (validateLdapURL env r.configuration.URL StructValidator.empty).1.1 }
        tls := { r.tls with ServerName :=
                  if r.configuration.URL ≠ "" ∧ r.tls.ServerName = "" then
                    (validateLdapURL env r.configuration.URL StructValidator.empty).1.2
                  else r.tls.ServerName }
        nilTLS := r.nilTLS
        validator :=
          { r.validator with errors := r.validator.errors ++
              if r.configuration.URL = "" then [ValidationError.ldapURLMissing]
              else (validateLdapURL env r.configuration.URL StructValidator.empty).2.errors } } := by
  rcases r with ⟨⟨impl, url, tls, skv, mtv, bdn, uf, gf, ua, ma, da, ga, us, pw⟩,
    ⟨mv, sv, sn⟩, n, ⟨e, w⟩⟩
  simp only [ldapURL]
  by_cases h : url = ""
  · simp [h, StructValidator.Push]
  · simp only [h, if_false]
    rw [validateLdapURL_snd, validateLdapURL_fst]
    by_cases h2 : sn = "" <;> simp [h, h2]

theorem ldapCredentials_eq (r : LdapRun) :
    ldapCredentials r =
      { configuration := r.configuration
        tls := r.tls
        nilTLS := r.nilTLS
        validator :=
          { r.validator with errors := r.validator.errors ++
              ((if r.configuration.User = "" then [ValidationError.ldapUserMissing] else []) ++
               ((if r.configuration.Password = "" then [ValidationError.ldapPasswordMissing]
                 else []) ++
                (if r.configuration.BaseDN = "" then [ValidationError.ldapBaseDNMissing]
                 else []))) } } := by
  rcases r with ⟨cfg, ⟨mv, sv, sn⟩, n, ⟨e, w⟩⟩
  simp only [ldapCredentials]
  by_cases h1 : cfg.User = "" <;> by_cases h2 : cfg.Password = "" <;>
    by_cases h3 : cfg.BaseDN = "" <;> simp [h1, h2, h3, StructValidator.Push]

theorem ldapUsersFilter_eq (r : LdapRun) :
    ldapUsersFilter r =
      { configuration := r.configuration
        tls := r.tls
        nilTLS := r.nilTLS
        validator :=
          { r.validator with errors := r.validator.errors ++
              if r.configuration.UsersFilter = "" then [ValidationError.usersFilterMissing]
              else
                ((if (!HasPrefix r.configuration.UsersFilter "(" ||
                      !HasSuffix r.configuration.UsersFilter ")") = true then
                    [ValidationError.usersFilterParenthesis] else []) ++
                 ((if (!Contains r.configuration.UsersFilter "{username_attribute}") = true then
                    [ValidationError.usersFilterUsernameAttribute] else []) ++
                  (if (!Contains r.configuration.UsersFilter "{0}" &&
                       !Contains r.configuration.UsersFilter "{input}") = true then
                    [ValidationError.usersFilterInput] else []))) } } := by
  rcases r with ⟨cfg, ⟨mv, sv, sn⟩, n, ⟨e, w⟩⟩
  simp only [ldapUsersFilter]
  by_cases h : cfg.UsersFilter = ""
  · simp [h, StructValidator.Push]
  · simp only [h, if_false]
    by_cases h1 : (!HasPrefix cfg.UsersFilter "(" || !HasSuffix cfg.UsersFilter ")") = true <;>
      by_cases h2 : (!Contains cfg.UsersFilter "{username_attribute}") = true <;>
      by_cases h3 : (!Contains cfg.UsersFilter "{0}" && !Contains cfg.UsersFilter "{input}") = true <;>
      simp only [h1, h2, h3, if_true, if_false, StructValidator.Push, List.append_assoc,
        List.nil_append, List.append_nil, List.singleton_append, List.cons_append,
        Bool.false_eq_true]

theorem ldapGroupsFilter_eq (r : LdapRun) :
    ldapGroupsFilter r =
      { configuration := r.configuration
        tls := r.tls
        nilTLS := r.nilTLS
        validator :=
          { r.validator with errors := r.validator.errors ++
              if r.configuration.GroupsFilter = "" then [ValidationError.groupsFilterMissing]
              else if (!HasPrefix r.configuration.GroupsFilter "(" ||
                       !HasSuffix r.configuration.GroupsFilter ")") = true then
                [ValidationError.groupsFilterParenthesis]
              else [] } } := by
  rcases r with ⟨cfg, ⟨mv, sv, sn⟩, n, ⟨e, w⟩⟩
  simp only [ldapGroupsFilter]
  by_cases h : cfg.GroupsFilter = ""
  · simp [h, StructValidator.Push]
  · by_cases h1 : (!HasPrefix cfg.GroupsFilter "(" || !HasSuffix cfg.GroupsFilter ")") = true <;>
      simp only [h, h1, if_true, if_false, StructValidator.Push, List.append_nil,
        Bool.false_eq_true]

theorem validateLdapAuthenticationBackend_fst (env : Env)
    (c : LDAPAuthenticationBackendConfiguration) (v : StructValidator) :
    (validateLdapAuthenticationBackend env c v).1 =
      (validateLdapAuthenticationBackend env c StructValidator.empty).1 := by
  simp only [validateLdapAuthenticationBackend, ldapGroupsFilter_eq, ldapUsersFilter_eq,
    ldapCredentials_eq, ldapURL_eq, ldapImplementation_eq, ldapMinimumVersion_eq,
    ldapDeprecatedMinimumTLSVersion_eq, ldapDeprecatedSkipVerify_eq, ldapStart_configuration,
    ldapStart_tls, ldapStart_nilTLS, ldapStart_validator]

theorem validateLdapAuthenticationBackend_snd (env : Env)
    (c : LDAPAuthenticationBackendConfiguration) (v : StructValidator) :
    (validateLdapAuthenticationBackend env c v).2 =
      { errors := v.errors ++
          (validateLdapAuthenticationBackend env c StructValidator.empty).2.errors
        warnings := v.warnings ++
          (validateLdapAuthenticationBackend env c StructValidator.empty).2.warnings } := by
  simp only [validateLdapAuthenticationBackend, ldapGroupsFilter_eq, ldapUsersFilter_eq,
    ldapCredentials_eq, ldapURL_eq, ldapImplementation_eq, ldapMinimumVersion_eq,
    ldapDeprecatedMinimumTLSVersion_eq, ldapDeprecatedSkipVerify_eq, ldapStart_configuration,
    ldapStart_tls, ldapStart_nilTLS, ldapStart_validator, StructValidator.empty,
    List.nil_append, List.append_assoc]

theorem ldapImplementation_configuration (env : Env)
    (x : LDAPAuthenticationBackendConfiguration) :
    (if x.Implementation = LDAPImplementationCustom then
        setDefaultImplementationCustomLdapAuthenticationBackend env x
      else if x.Implementation = LDAPImplementationActiveDirectory then
        setDefaultImplementationActiveDirectoryLdapAuthenticationBackend env x
      else x) =
      { x with
        UsersFilter :=
          if x.Implementation = LDAPImplementationActiveDirectory ∧ x.UsersFilter = "" then
            env.DefaultLDAPAuthenticationBackendImplementationActiveDirectoryConfiguration.UsersFilter
          else x.UsersFilter
        GroupsFilter :=
          if x.Implementation = LDAPImplementationActiveDirectory ∧ x.GroupsFilter = "" then
            env.DefaultLDAPAuthenticationBackendImplementationActiveDirectoryConfiguration.GroupsFilter
          else x.GroupsFilter
        UsernameAttribute :=
          if x.Implementation = LDAPImplementationCustom ∧ x.UsernameAttribute = "" then
            env.DefaultLDAPAuthenticationBackendConfiguration.UsernameAttribute
          else if x.Implementation = LDAPImplementationActiveDirectory ∧
              x.UsernameAttribute = "" then
            env.DefaultLDAPAuthenticationBackendImplementationActiveDirectoryConfiguration.UsernameAttribute
          else x.UsernameAttribute
        MailAttribute :=
          if x.Implementation = LDAPImplementationCustom ∧ x.MailAttribute = "" then
            env.DefaultLDAPAuthenticationBackendConfiguration.MailAttribute
          else if x.Implementation = LDAPImplementationActiveDirectory ∧
              x.MailAttribute = "" then
            env.DefaultLDAPAuthenticationBackendImplementationActiveDirectoryConfiguration.MailAttribute
          else x.MailAttribute
        DisplayNameAttribute :=
          if x.Implementation = LDAPImplementationCustom ∧ x.DisplayNameAttribute = "" then
            env.DefaultLDAPAuthenticationBackendConfiguration.DisplayNameAttribute
          else if x.Implementation = LDAPImplementationActiveDirectory ∧
              x.DisplayNameAttribute = "" then
            env.DefaultLDAPAuthenticationBackendImplementationActiveDirectoryConfiguration.DisplayNameAttribute
          else x.DisplayNameAttribute
        GroupNameAttribute :=
          if x.Implementation = LDAPImplementationCustom ∧ x.GroupNameAttribute = "" then
            env.DefaultLDAPAuthenticationBackendConfiguration.GroupNameAttribute
          else if x.Implementation = LDAPImplementationActiveDirectory ∧
              x.GroupNameAttribute = "" then
            env.DefaultLDAPAuthenticationBackendImplementationActiveDirectoryConfiguration.GroupNameAttribute
          else x.GroupNameAttribute } := by
  have hne : LDAPImplementationActiveDirectory ≠ LDAPImplementationCustom := by decide
  by_cases h1 : x.Implementation = LDAPImplementationCustom
  · have h2 : x.Implementation ≠ LDAPImplementationActiveDirectory := by
      rw [h1]; exact fun h => hne h.symm
    simp only [h1, h2, if_true, if_false, true_and, false_and, setDefaultImplementationCustom_eq,
      hne.symm]
  · by_cases h2 : x.Implementation = LDAPImplementationActiveDirectory
    · simp only [h2, hne, if_true, if_false, true_and, false_and,
        setDefaultImplementationActiveDirectory_eq]
    · simp only [h1, h2, if_false, false_and]

theorem ldapImplementation_flat (env : Env) (r : LdapRun) :
    ldapImplementation env r =
      { configuration :=
          { r.configuration with
            UsersFilter :=
              if r.configuration.Implementation = LDAPImplementationActiveDirectory ∧
                  r.configuration.UsersFilter = "" then
                env.DefaultLDAPAuthenticationBackendImplementationActiveDirectoryConfiguration.UsersFilter
              else r.configuration.UsersFilter
            GroupsFilter :=
              if r.configuration.Implementation = LDAPImplementationActiveDirectory ∧
                  r.configuration.GroupsFilter = "" then
                env.DefaultLDAPAuthenticationBackendImplementationActiveDirectoryConfiguration.GroupsFilter
              else r.configuration.GroupsFilter
            UsernameAttribute :=
              if r.configuration.Implementation = LDAPImplementationCustom ∧
                  r.configuration.UsernameAttribute = "" then
                env.DefaultLDAPAuthenticationBackendConfiguration.UsernameAttribute
              else if r.configuration.Implementation = LDAPImplementationActiveDirectory ∧
                  r.configuration.UsernameAttribute = "" then
                env.DefaultLDAPAuthenticationBackendImplementationActiveDirectoryConfiguration.UsernameAttribute
              else r.configuration.UsernameAttribute
            MailAttribute :=
              if r.configuration.Implementation = LDAPImplementationCustom ∧
                  r.configuration.MailAttribute = "" then
                env.DefaultLDAPAuthenticationBackendConfiguration.MailAttribute
              else if r.configuration.Implementation = LDAPImplementationActiveDirectory ∧
                  r.configuration.MailAttribute = "" then
                env.DefaultLDAPAuthenticationBackendImplementationActiveDirectoryConfiguration.MailAttribute
              else r.configuration.MailAttribute
            DisplayNameAttribute :=
              if r.configuration.Implementation = LDAPImplementationCustom ∧
                  r.configuration.DisplayNameAttribute = "" then
                env.DefaultLDAPAuthenticationBackendConfiguration.DisplayNameAttribute
              else if r.configuration.Implementation = LDAPImplementationActiveDirectory ∧
                  r.configuration.DisplayNameAttribute = "" then
                env.DefaultLDAPAuthenticationBackendImplementationActiveDirectoryConfiguration.DisplayNameAttribute
              else r.configuration.DisplayNameAttribute
            GroupNameAttribute :=
              if r.configuration.Implementation = LDAPImplementationCustom ∧
                  r.configuration.GroupNameAttribute = "" then
                env.DefaultLDAPAuthenticationBackendConfiguration.GroupNameAttribute
              else if r.configuration.Implementation = LDAPImplementationActiveDirectory ∧
                  r.configuration.GroupNameAttribute = "" then
                env.DefaultLDAPAuthenticationBackendImplementationActiveDirectoryConfiguration.GroupNameAttribute
              else r.configuration.GroupNameAttribute }
        tls := r.tls
        nilTLS := r.nilTLS
        validator :=
          { r.validator with errors := r.validator.errors ++
              if r.configuration.Implementation ≠ LDAPImplementationCustom ∧
                  r.configuration.Implementation ≠ LDAPImplementationActiveDirectory then
                [ValidationError.ldapImplementationInvalid] else [] } } := by
  rw [ldapImplementation_eq, ldapImplementation_configuration]

theorem resolvedImplementation_eq (env : Env) (c : LDAPAuthenticationBackendConfiguration) :
    resolvedImplementation env c =
      if c.Implementation = "" then
        env.DefaultLDAPAuthenticationBackendConfiguration.Implementation
      else c.Implementation := by
  simp only [resolvedImplementation, ldapStart_configuration]

theorem suppliedTLS_eq (env : Env) (c : LDAPAuthenticationBackendConfiguration) :
    suppliedTLS env c = c.TLS.getD env.DefaultLDAPTLS := by
  simp only [suppliedTLS, ldapStart_tls]

theorem validateLdapAuthenticationBackend_warnings (env : Env)
    (c : LDAPAuthenticationBackendConfiguration) :
    (validateLdapAuthenticationBackend env c StructValidator.empty).2.warnings =
      (if c.SkipVerify.isSome = true then [ValidationError.deprecatedSkipVerify] else []) ++
      (if c.MinimumTLSVersion ≠ "" then [ValidationError.deprecatedMinimumTLSVersion]
       else []) := by
  simp only [validateLdapAuthenticationBackend, ldapGroupsFilter_eq, ldapUsersFilter_eq,
    ldapCredentials_eq, ldapURL_eq, ldapImplementation_flat, ldapMinimumVersion_eq,
    ldapDeprecatedMinimumTLSVersion_eq, ldapDeprecatedSkipVerify_eq, ldapStart_configuration,
    ldapStart_tls, ldapStart_nilTLS, ldapStart_validator, StructValidator.empty,
    List.nil_append, List.append_assoc]

theorem validateLdapAuthenticationBackend_record (env : Env)
    (c : LDAPAuthenticationBackendConfiguration) :
    (validateLdapAuthenticationBackend env c StructValidator.empty).1 =
      { Implementation := resolvedImplementation env c
        URL := if c.URL = "" then "" else (validateLdapURL env c.URL StructValidator.empty).1.1
        TLS := some
          { MinimumVersion :=
              if (if c.MinimumTLSVersion ≠ "" ∧ c.TLS.isNone = true then c.MinimumTLSVersion
                  else (suppliedTLS env c).MinimumVersion) = "" then
                env.DefaultLDAPTLS.MinimumVersion
              else if c.MinimumTLSVersion ≠ "" ∧ c.TLS.isNone = true then c.MinimumTLSVersion
              else (suppliedTLS env c).MinimumVersion
            SkipVerify :=
              if c.TLS.isNone = true then c.SkipVerify.getD (suppliedTLS env c).SkipVerify
              else (suppliedTLS env c).SkipVerify
            ServerName :=
              if c.URL ≠ "" ∧ (suppliedTLS env c).ServerName = "" then
                (validateLdapURL env c.URL StructValidator.empty).1.2
              else (suppliedTLS env c).ServerName }
        SkipVerify := c.SkipVerify
        MinimumTLSVersion := c.MinimumTLSVersion
        BaseDN := c.BaseDN
        UsersFilter :=
          if resolvedImplementation env c = LDAPImplementationActiveDirectory ∧
              c.UsersFilter = "" then
            env.DefaultLDAPAuthenticationBackendImplementationActiveDirectoryConfiguration.UsersFilter
          else c.UsersFilter
        GroupsFilter :=
          if resolvedImplementation env c = LDAPImplementationActiveDirectory ∧
              c.GroupsFilter = "" then
            env.DefaultLDAPAuthenticationBackendImplementationActiveDirectoryConfiguration.GroupsFilter
          else c.GroupsFilter
        UsernameAttribute :=
          if resolvedImplementation env c = LDAPImplementationCustom ∧
              c.UsernameAttribute = "" then
            env.DefaultLDAPAuthenticationBackendConfiguration.UsernameAttribute
          else if resolvedImplementation env c = LDAPImplementationActiveDirectory ∧
              c.UsernameAttribute = "" then
            env.DefaultLDAPAuthenticationBackendImplementationActiveDirectoryConfiguration.UsernameAttribute
          else c.UsernameAttribute
        MailAttribute :=
          if resolvedImplementation env c = LDAPImplementationCustom ∧
              c.MailAttribute = "" then
            env.DefaultLDAPAuthenticationBackendConfiguration.MailAttribute
          else if resolvedImplementation env c = LDAPImplementationActiveDirectory ∧
              c.MailAttribute = "" then
            env.DefaultLDAPAuthenticationBackendImplementationActiveDirectoryConfiguration.MailAttribute
          else c.MailAttribute
        DisplayNameAttribute :=
          if resolvedImplementation env c = LDAPImplementationCustom ∧
              c.DisplayNameAttribute = "" then
            env.DefaultLDAPAuthenticationBackendConfiguration.DisplayNameAttribute
          else if resolvedImplementation env c = LDAPImplementationActiveDirectory ∧
              c.DisplayNameAttribute = "" then
            env.DefaultLDAPAuthenticationBackendImplementationActiveDirectoryConfiguration.DisplayNameAttribute
          else c.DisplayNameAttribute
        GroupNameAttribute :=
          if resolvedImplementation env c = LDAPImplementationCustom ∧
              c.GroupNameAttribute = "" then
            env.DefaultLDAPAuthenticationBackendConfiguration.GroupNameAttribute
          else if resolvedImplementation env c = LDAPImplementationActiveDirectory ∧
              c.GroupNameAttribute = "" then
            env.DefaultLDAPAuthenticationBackendImplementationActiveDirectoryConfiguration.GroupNameAttribute
          else c.GroupNameAttribute
        User := c.User
        Password := c.Password } := by
  simp only [validateLdapAuthenticationBackend, ldapGroupsFilter_eq, ldapUsersFilter_eq,
    ldapCredentials_eq, ldapURL_eq, ldapImplementation_flat, ldapMinimumVersion_eq,
    ldapDeprecatedMinimumTLSVersion_eq, ldapDeprecatedSkipVerify_eq, ldapStart_configuration,
    ldapStart_tls, ldapStart_nilTLS, ldapStart_validator, StructValidator.empty,
    resolvedImplementation_eq, suppliedTLS_eq]

theorem validateLdapAuthenticationBackend_errors (env : Env)
    (c : LDAPAuthenticationBackendConfiguration) :
    (validateLdapAuthenticationBackend env c StructValidator.empty).2.errors =
      (match env.TLSStringToTLSConfigVersion
          ((validateLdapAuthenticationBackend env c StructValidator.empty).1.TLS.getD
            env.DefaultLDAPTLS).MinimumVersion with
        | .error err =>
          [ValidationError.ldapTLSVersionInvalid
            ((validateLdapAuthenticationBackend env c StructValidator.empty).1.TLS.getD
              env.DefaultLDAPTLS).MinimumVersion err]
        | .ok _ => []) ++
      ((if resolvedImplementation env c ≠ LDAPImplementationCustom ∧
            resolvedImplementation env c ≠ LDAPImplementationActiveDirectory then
          [ValidationError.ldapImplementationInvalid] else []) ++
      ((if c.URL = "" then [ValidationError.ldapURLMissing]
        else (validateLdapURL env c.URL StructValidator.empty).2.errors) ++
      ((if c.User = "" then [ValidationError.ldapUserMissing] else []) ++
      ((if c.Password = "" then [ValidationError.ldapPasswordMissing] else []) ++
      ((if c.BaseDN = "" then [ValidationError.ldapBaseDNMissing] else []) ++
      ((if (validateLdapAuthenticationBackend env c StructValidator.empty).1.UsersFilter = "" then
          [ValidationError.usersFilterMissing]
        else
          ((if (!HasPrefix
                  (validateLdapAuthenticationBackend env c StructValidator.empty).1.UsersFilter "(" ||
                !HasSuffix
                  (validateLdapAuthenticationBackend env c StructValidator.empty).1.UsersFilter ")")
                = true then
              [ValidationError.usersFilterParenthesis] else []) ++
           ((if (!Contains
                  (validateLdapAuthenticationBackend env c StructValidator.empty).1.UsersFilter
                  "{username_attribute}") = true then
              [ValidationError.usersFilterUsernameAttribute] else []) ++
            (if (!Contains
                  (validateLdapAuthenticationBackend env c StructValidator.empty).1.UsersFilter "{0}" &&
                 !Contains
                  (validateLdapAuthenticationBackend env c StructValidator.empty).1.UsersFilter
                  "{input}") = true then
              [ValidationError.usersFilterInput] else [])))) ++
       (if (validateLdapAuthenticationBackend env c StructValidator.empty).1.GroupsFilter = "" then
          [ValidationError.groupsFilterMissing]
        else if (!HasPrefix
                  (validateLdapAuthenticationBackend env c StructValidator.empty).1.GroupsFilter "(" ||
                 !HasSuffix
                  (validateLdapAuthenticationBackend env c StructValidator.empty).1.GroupsFilter ")")
                 = true then
          [ValidationError.groupsFilterParenthesis]
        else []))))))) := by
  rw [validateLdapAuthenticationBackend_record]
  simp only [Option.getD_some]
  simp only [validateLdapAuthenticationBackend, ldapGroupsFilter_eq, ldapUsersFilter_eq,
    ldapCredentials_eq, ldapURL_eq, ldapImplementation_flat, ldapMinimumVersion_eq,
    ldapDeprecatedMinimumTLSVersion_eq, ldapDeprecatedSkipVerify_eq, ldapStart_configuration,
    ldapStart_tls, ldapStart_nilTLS, ldapStart_validator, StructValidator.empty,
    List.nil_append, List.append_assoc, resolvedImplementation_eq, suppliedTLS_eq]

theorem validateLdapAuthenticationBackend_pushedErrors (env : Env)
    (c : LDAPAuthenticationBackendConfiguration) (v : StructValidator) :
    pushedErrors v (validateLdapAuthenticationBackend env c v).2 =
      (validateLdapAuthenticationBackend env c StructValidator.empty).2.errors := by
  rw [validateLdapAuthenticationBackend_snd, pushedErrors_append]

theorem validateLdapAuthenticationBackend_pushedWarnings (env : Env)
    (c : LDAPAuthenticationBackendConfiguration) (v : StructValidator) :
    pushedWarnings v (validateLdapAuthenticationBackend env c v).2 =
      (validateLdapAuthenticationBackend env c StructValidator.empty).2.warnings := by
  rw [validateLdapAuthenticationBackend_snd, pushedWarnings_append]

theorem validateLdapURL_errors (env : Env) (url : String) :
    (validateLdapURL env url StructValidator.empty).2.errors =
      match env.urlParse url with
      | none => [ValidationError.ldapURLUnparsable]
      | some u =>
        if ¬ (u.Scheme = schemeLDAP ∨ u.Scheme = schemeLDAPS) then
          [ValidationError.ldapURLUnknownScheme]
        else [] := by
  simp only [validateLdapURL]
  cases env.urlParse url with
  | none => rfl
  | some u => simp only; split_ifs <;> rfl

theorem validateLdapURL_errors_mem (env : Env) (url : String) (e : ValidationError)
    (h : e ∈ (validateLdapURL env url StructValidator.empty).2.errors) :
    e = ValidationError.ldapURLUnparsable ∨ e = ValidationError.ldapURLUnknownScheme := by
  rw [validateLdapURL_errors] at h
  cases hu : env.urlParse url with
  | none => rw [hu] at h; simp only [List.mem_singleton] at h; exact Or.inl h
  | some u =>
    rw [hu] at h
    by_cases hs : u.Scheme = schemeLDAP ∨ u.Scheme = schemeLDAPS
    · simp [hs] at h
    · simp [hs] at h
      exact Or.inr h

theorem validateLdapURL_errors_count (env : Env) (url : String) (e : ValidationError)
    (h₁ : e ≠ ValidationError.ldapURLUnparsable)
    (h₂ : e ≠ ValidationError.ldapURLUnknownScheme) :
    (validateLdapURL env url StructValidator.empty).2.errors.count e = 0 := by
  rw [List.count_eq_zero]
  intro h
  rcases validateLdapURL_errors_mem env url e h with h | h
  · exact h₁ h
  · exact h₂ h

theorem tlsVersionErrors_mem (env : Env) (s : String) (e : ValidationError)
    (h : e ∈ (match env.TLSStringToTLSConfigVersion s with
        | .error err => [ValidationError.ldapTLSVersionInvalid s err]
        | .ok _ => [])) :
    ∃ err, e = ValidationError.ldapTLSVersionInvalid s err := by
  cases hu : env.TLSStringToTLSConfigVersion s with
  | error err => rw [hu] at h; simp only [List.mem_singleton] at h; exact ⟨err, h⟩
  | ok n => rw [hu] at h; simp only [List.not_mem_nil] at h

theorem tlsVersionErrors_count (env : Env) (s : String) (e : ValidationError)
    (h : ∀ t err, e ≠ ValidationError.ldapTLSVersionInvalid t err) :
    (match env.TLSStringToTLSConfigVersion s with
        | .error err => [ValidationError.ldapTLSVersionInvalid s err]
        | .ok _ => []).count e = 0 := by
  rw [List.count_eq_zero]
  intro hm
  obtain ⟨err, he⟩ := tlsVersionErrors_mem env s e hm
  exact h s err he

theorem count_ite_singleton {c : Prop} [Decidable c] (x e : ValidationError) :
    (if c then [x] else []).count e = if c ∧ e = x then 1 else 0 := by
  by_cases h : c <;> by_cases h2 : e = x <;> simp [h, h2, List.count_singleton]

theorem count_ite {c : Prop} [Decidable c] (l₁ l₂ : List ValidationError)
    (e : ValidationError) :
    (if c then l₁ else l₂).count e = if c then l₁.count e else l₂.count e := by
  split_ifs <;> rfl

/-! ## The directory backend: claims C12 to C16, C19 and C20 -/

/-- C20: for every directory backend, the number of missing-user errors that
validateLdapAuthenticationBackend pushes is 1 when User is empty and 0 otherwise, and
likewise for the missing-password error and Password and for the missing-base-DN error and
BaseDN; so each error is pushed if and only if its field is empty, whatever the other
fields hold. User, Password and BaseDN are left unchanged. -/
theorem validateLdap_credentials (env : Env) (c : LDAPAuthenticationBackendConfiguration)
    (v : StructValidator) :
    ((pushedErrors v (validateLdapAuthenticationBackend env c v).2).count
        ValidationError.ldapUserMissing = if c.User = "" then 1 else 0) ∧
    ((pushedErrors v (validateLdapAuthenticationBackend env c v).2).count
        ValidationError.ldapPasswordMissing = if c.Password = "" then 1 else 0) ∧
    ((pushedErrors v (validateLdapAuthenticationBackend env c v).2).count
        ValidationError.ldapBaseDNMissing = if c.BaseDN = "" then 1 else 0) ∧
    (validateLdapAuthenticationBackend env c v).1.User = c.User ∧
    (validateLdapAuthenticationBackend env c v).1.Password = c.Password ∧
    (validateLdapAuthenticationBackend env c v).1.BaseDN = c.BaseDN := by
  rw [validateLdapAuthenticationBackend_pushedErrors, validateLdapAuthenticationBackend_errors,
    validateLdapAuthenticationBackend_fst env c v, validateLdapAuthenticationBackend_record]
  simp only [List.count_append, count_ite, List.count_singleton, beq_iff_eq, reduceCtorEq,
    if_false, if_true, ne_eq, not_false_eq_true, implies_true, tlsVersionErrors_count,
    validateLdapURL_errors_count, List.count_nil, ite_self, zero_add, add_zero, and_self]

/-- C12: for every directory backend, validateLdapAuthenticationBackend pushes one
deprecation warning for SkipVerify when it is set, then one for MinimumTLSVersion when it
is not empty, and no other warning. The legacy values are copied if and only if the TLS
record was absent on input. When it was absent, TLS.SkipVerify is the legacy SkipVerify
when that is set and the SkipVerify of the default TLS record otherwise, and
TLS.MinimumVersion is the legacy MinimumTLSVersion when that is not empty and the
MinimumVersion of the default TLS record otherwise. When a TLS record was supplied,
whatever the legacy fields hold, TLS.SkipVerify is the supplied one and TLS.MinimumVersion
is the supplied one when that is not empty and the default MinimumVersion (not the legacy
value) when it is empty, the warnings being pushed all the same. -/
theorem validateLdap_deprecated (env : Env) (c : LDAPAuthenticationBackendConfiguration)
    (v : StructValidator) :
    pushedWarnings v (validateLdapAuthenticationBackend env c v).2 =
      (if c.SkipVerify.isSome = true then [ValidationError.deprecatedSkipVerify] else []) ++
      (if c.MinimumTLSVersion ≠ "" then [ValidationError.deprecatedMinimumTLSVersion]
       else []) ∧
    (c.TLS = none → ∀ b, c.SkipVerify = some b →
      Option.map TLSConfig.SkipVerify (validateLdapAuthenticationBackend env c v).1.TLS =
        some b) ∧
    (c.TLS = none → c.MinimumTLSVersion ≠ "" →
      Option.map TLSConfig.MinimumVersion (validateLdapAuthenticationBackend env c v).1.TLS =
        some c.MinimumTLSVersion) ∧
    (∀ t, c.TLS = some t →
      Option.map TLSConfig.SkipVerify (validateLdapAuthenticationBackend env c v).1.TLS =
        some t.SkipVerify ∧
      (t.MinimumVersion ≠ "" →
        Option.map TLSConfig.MinimumVersion (validateLdapAuthenticationBackend env c v).1.TLS =
          some t.MinimumVersion)) ∧
    (∀ t, c.TLS = some t → t.MinimumVersion = "" →
      Option.map TLSConfig.MinimumVersion (validateLdapAuthenticationBackend env c v).1.TLS =
        some env.DefaultLDAPTLS.MinimumVersion) ∧
    (c.TLS = none → c.SkipVerify = none →
      Option.map TLSConfig.SkipVerify (validateLdapAuthenticationBackend env c v).1.TLS =
        some env.DefaultLDAPTLS.SkipVerify) ∧
    (c.TLS = none → c.MinimumTLSVersion = "" →
      Option.map TLSConfig.MinimumVersion (validateLdapAuthenticationBackend env c v).1.TLS =
        some env.DefaultLDAPTLS.MinimumVersion) ∧
    (∀ t, c.TLS = some t →
      Option.map TLSConfig.SkipVerify (validateLdapAuthenticationBackend env c v).1.TLS =
        Option.map TLSConfig.SkipVerify
          (validateLdapAuthenticationBackend env
            { c with SkipVerify := none, MinimumTLSVersion := "" } v).1.TLS ∧
      Option.map TLSConfig.MinimumVersion (validateLdapAuthenticationBackend env c v).1.TLS =
        Option.map TLSConfig.MinimumVersion
          (validateLdapAuthenticationBackend env
            { c with SkipVerify := none, MinimumTLSVersion := "" } v).1.TLS) := by
  rw [validateLdapAuthenticationBackend_pushedWarnings,
    validateLdapAuthenticationBackend_warnings,
    validateLdapAuthenticationBackend_fst env c v, validateLdapAuthenticationBackend_record,
    validateLdapAuthenticationBackend_fst env { c with SkipVerify := none, MinimumTLSVersion := "" } v,
    validateLdapAuthenticationBackend_record]
  simp only [Option.map_some', suppliedTLS_eq, true_and]
  refine ⟨?_, ?_, ?_, ?_, ?_, ?_, ?_⟩
  · intro hT b hb
    simp [hT, hb]
  · intro hT hm
    simp [hT, hm]
  · intro t hT
    constructor
    · simp [hT]
    · intro hm
      simp [hT, hm]
  · intro t hT hm
    simp [hT, hm]
  · intro hT hs
    simp [hT, hs]
  · intro hT hm
    simp [hT, hm]
  · intro t hT
    simp [hT]

theorem validateLdap_deprecated_witness :
    Option.map TLSConfig.SkipVerify
      (validateLdapAuthenticationBackend sampleEnv
        { emptyLdap with
          URL := "ldap://127.0.0.1", User := "cn=admin,dc=example,dc=com",
          Password := "password", BaseDN := "dc=example,dc=com",
          UsersFilter := "({username_attribute}={input})", GroupsFilter := "(member={dn})",
          SkipVerify := some true }
        StructValidator.empty).1.TLS = some true ∧
    validateLdapAuthenticationBackend sampleEnv
        { emptyLdap with
          URL := "ldap://127.0.0.1", User := "cn=admin,dc=example,dc=com",
          Password := "password", BaseDN := "dc=example,dc=com",
          UsersFilter := "({username_attribute}={input})", GroupsFilter := "(member={dn})",
          SkipVerify := some true }
        StructValidator.empty =
      ({ Implementation := "custom", URL := "ldap://127.0.0.1",
         TLS := some { MinimumVersion := "TLS1.2", SkipVerify := true,
                       ServerName := "127.0.0.1" },
         SkipVerify := some true, MinimumTLSVersion := "", BaseDN := "dc=example,dc=com",
         UsersFilter := "({username_attribute}={input})", GroupsFilter := "(member={dn})",
         UsernameAttribute := "uid", MailAttribute := "mail",
         DisplayNameAttribute := "displayname", GroupNameAttribute := "cn",
         User := "cn=admin,dc=example,dc=com", Password := "password" },
       { errors := [], warnings := [ValidationError.deprecatedSkipVerify] }) ∧
    validateLdapAuthenticationBackend sampleEnv
        { emptyLdap with
          URL := "ldap://127.0.0.1", User := "cn=admin,dc=example,dc=com",
          Password := "password", BaseDN := "dc=example,dc=com",
          UsersFilter := "({username_attribute}={input})", GroupsFilter := "(member={dn})",
          TLS := some { MinimumVersion := "", SkipVerify := false, ServerName := "" },
          SkipVerify := some true, MinimumTLSVersion := "TLS1.0" }
        StructValidator.empty =
      ({ Implementation := "custom", URL := "ldap://127.0.0.1",
         TLS := some { MinimumVersion := "TLS1.2", SkipVerify := false,
                       ServerName := "127.0.0.1" },
         SkipVerify := some true, MinimumTLSVersion := "TLS1.0",
         BaseDN := "dc=example,dc=com",
         UsersFilter := "({username_attribute}={input})", GroupsFilter := "(member={dn})",
         UsernameAttribute := "uid", MailAttribute := "mail",
         DisplayNameAttribute := "displayname", GroupNameAttribute := "cn",
         User := "cn=admin,dc=example,dc=com", Password := "password" },
       { errors := [],
         warnings := [ValidationError.deprecatedSkipVerify,
                      ValidationError.deprecatedMinimumTLSVersion] }) :=
  ⟨(validateLdap_deprecated sampleEnv
      { emptyLdap with
        URL := "ldap://127.0.0.1", User := "cn=admin,dc=example,dc=com",
        Password := "password", BaseDN := "dc=example,dc=com",
        UsersFilter := "({username_attribute}={input})", GroupsFilter := "(member={dn})",
        SkipVerify := some true }
      StructValidator.empty).2.1 rfl true rfl,
    by decide, by decide⟩

theorem validateLdapURL_pushedErrors (env : Env) (url : String) (v : StructValidator) :
    pushedErrors v (validateLdapURL env url v).2 =
      (validateLdapURL env url StructValidator.empty).2.errors := by
  rw [validateLdapURL_snd, pushedErrors_append]

/-- C13: for every URL string, validateLdapURL pushes at most one error and no warning.
When the string does not parse, or parses with a scheme other than ldap and ldaps, it
pushes exactly one error (the unparsable error, respectively the unknown-scheme error) and
returns the empty URL and the empty hostname; otherwise it pushes nothing and returns the
re-serialised URL and its hostname. On a directory backend whose URL is not empty,
validateLdapAuthenticationBackend overwrites URL with that result and sets TLS.ServerName
to the returned hostname when TLS.ServerName was empty, leaving it unchanged otherwise. -/
theorem validateLdapURL_result (env : Env) (url : String) (w : StructValidator)
    (c : LDAPAuthenticationBackendConfiguration) (v : StructValidator)
    (hurl : c.URL ≠ "") :
    (pushedErrors w (validateLdapURL env url w).2).length ≤ 1 ∧
    pushedWarnings w (validateLdapURL env url w).2 = [] ∧
    (env.urlParse url = none →
      pushedErrors w (validateLdapURL env url w).2 = [ValidationError.ldapURLUnparsable] ∧
      (validateLdapURL env url w).1 = ("", "")) ∧
    (∀ u, env.urlParse url = some u → ¬ (u.Scheme = "ldap" ∨ u.Scheme = "ldaps") →
      pushedErrors w (validateLdapURL env url w).2 = [ValidationError.ldapURLUnknownScheme] ∧
      (validateLdapURL env url w).1 = ("", "")) ∧
    (∀ u, env.urlParse url = some u → (u.Scheme = "ldap" ∨ u.Scheme = "ldaps") →
      pushedErrors w (validateLdapURL env url w).2 = [] ∧
      (validateLdapURL env url w).1 = (u.Serialized, u.Host)) ∧
    (validateLdapAuthenticationBackend env c v).1.URL =
      (validateLdapURL env c.URL StructValidator.empty).1.1 ∧
    Option.map TLSConfig.ServerName (validateLdapAuthenticationBackend env c v).1.TLS =
      some (if (suppliedTLS env c).ServerName = "" then
              (validateLdapURL env c.URL StructValidator.empty).1.2
            else (suppliedTLS env c).ServerName) := by
  rw [validateLdapURL_pushedErrors, validateLdapURL_errors, validateLdapURL_snd,
    validateLdapURL_fst, validateLdapAuthenticationBackend_fst env c v,
    validateLdapAuthenticationBackend_record]
  simp only [pushedWarnings_same, hurl, if_false, ne_eq, not_false_eq_true, true_and,
    Option.map_some', schemeLDAP, schemeLDAPS, validateLdapURL, true_and]
  cases hu : env.urlParse url with
  | none => simp [StructValidator.empty]
  | some u =>
    by_cases hs : u.Scheme = "ldap" ∨ u.Scheme = "ldaps"
    · simp [hs, StructValidator.empty]
      tauto
    · simp [hs, StructValidator.empty]
      tauto

theorem validateLdapURL_result_witness :
    (({ emptyLdap with URL := "ftp://example.com" } :
        LDAPAuthenticationBackendConfiguration).URL ≠ "") ∧
    (pushedErrors StructValidator.empty
        (validateLdapURL sampleEnv "ftp://example.com" StructValidator.empty).2).length ≤ 1 ∧
    validateLdapURL sampleEnv "ftp://example.com" StructValidator.empty =
      (("", ""), { errors := [ValidationError.ldapURLUnknownScheme], warnings := [] }) ∧
    (validateLdapAuthenticationBackend sampleEnv { emptyLdap with URL := "ftp://example.com" }
        StructValidator.empty).1.URL = "" ∧
    validateLdapURL sampleEnv "ldaps://dc1.example.com:636" StructValidator.empty =
      (("ldaps://dc1.example.com:636", "dc1.example.com"), { errors := [], warnings := [] }) :=
  ⟨by decide,
    (validateLdapURL_result sampleEnv "ftp://example.com" StructValidator.empty
      { emptyLdap with URL := "ftp://example.com" } StructValidator.empty (by decide)).1,
    by decide, by decide, by decide⟩

/-- C14: for every directory backend whose UsersFilter is not empty,
validateLdapAuthenticationBackend leaves UsersFilter unchanged, pushes no missing-filter
error for it, and applies three independent checks, each pushing its error once when it
fails and not at all otherwise: the filter does not both start with an opening and end
with a closing parenthesis; it does not contain the username_attribute placeholder; it
contains neither the placeholder 0 nor the placeholder input. -/
theorem validateLdap_usersFilter (env : Env) (c : LDAPAuthenticationBackendConfiguration)
    (v : StructValidator) (hf : c.UsersFilter ≠ "") :
    (validateLdapAuthenticationBackend env c v).1.UsersFilter = c.UsersFilter ∧
    (pushedErrors v (validateLdapAuthenticationBackend env c v).2).count
        ValidationError.usersFilterMissing = 0 ∧
    (pushedErrors v (validateLdapAuthenticationBackend env c v).2).count
        ValidationError.usersFilterParenthesis =
      (if ¬ (HasPrefix c.UsersFilter "(" = true ∧ HasSuffix c.UsersFilter ")" = true)
       then 1 else 0) ∧
    (pushedErrors v (validateLdapAuthenticationBackend env c v).2).count
        ValidationError.usersFilterUsernameAttribute =
      (if ¬ (Contains c.UsersFilter "{username_attribute}" = true) then 1 else 0) ∧
    (pushedErrors v (validateLdapAuthenticationBackend env c v).2).count
        ValidationError.usersFilterInput =
      (if ¬ (Contains c.UsersFilter "{0}" = true) ∧ ¬ (Contains c.UsersFilter "{input}" = true)
       then 1 else 0) := by
  rw [validateLdapAuthenticationBackend_pushedErrors, validateLdapAuthenticationBackend_errors,
    validateLdapAuthenticationBackend_fst env c v, validateLdapAuthenticationBackend_record]
  simp only [List.count_append, count_ite, List.count_singleton, beq_iff_eq, reduceCtorEq,
    if_false, if_true, ne_eq, not_false_eq_true, implies_true, tlsVersionErrors_count,
    validateLdapURL_errors_count, List.count_nil, ite_self, zero_add, add_zero, and_self,
    hf, and_false, true_and]
  simp only [Bool.or_eq_true, Bool.not_eq_true', Bool.and_eq_true, Bool.not_eq_true, not_and,
    true_and]
  cases HasPrefix c.UsersFilter "(" <;> cases HasSuffix c.UsersFilter ")" <;> simp

theorem validateLdap_usersFilter_witness :
    (({ emptyLdap with
        URL := "ldap://127.0.0.1", User := "cn=admin,dc=example,dc=com",
        Password := "password", BaseDN := "dc=example,dc=com",
        UsersFilter := "(cn=admin)", GroupsFilter := "(member={dn})" } :
      LDAPAuthenticationBackendConfiguration).UsersFilter ≠ "") ∧
    (validateLdapAuthenticationBackend sampleEnv
        { emptyLdap with
          URL := "ldap://127.0.0.1", User := "cn=admin,dc=example,dc=com",
          Password := "password", BaseDN := "dc=example,dc=com",
          UsersFilter := "(cn=admin)", GroupsFilter := "(member={dn})" }
        StructValidator.empty).1.UsersFilter = "(cn=admin)" ∧
    (validateLdapAuthenticationBackend sampleEnv
        { emptyLdap with
          URL := "ldap://127.0.0.1", User := "cn=admin,dc=example,dc=com",
          Password := "password", BaseDN := "dc=example,dc=com",
          UsersFilter := "(cn=admin)", GroupsFilter := "(member={dn})" }
        StructValidator.empty).2 =
      { errors := [ValidationError.usersFilterUsernameAttribute,
                   ValidationError.usersFilterInput],
        warnings := [] } :=
  ⟨by decide,
    (validateLdap_usersFilter sampleEnv
      { emptyLdap with
        URL := "ldap://127.0.0.1", User := "cn=admin,dc=example,dc=com",
        Password := "password", BaseDN := "dc=example,dc=com",
        UsersFilter := "(cn=admin)", GroupsFilter := "(member={dn})" }
      StructValidator.empty (by decide)).1,
    by decide⟩

/-- C15, as the code has it: for a directory backend whose UsersFilter is empty on input,
validateLdapAuthenticationBackend fills the field from the Active Directory default when
the implementation (after defaulting) is activedirectory and leaves it empty otherwise,
and it pushes the error asking for a users filter exactly when the field is still empty
after that, that is unless the implementation is activedirectory and the Active
Directory default is not empty. The same holds for GroupsFilter and the error asking for a
groups filter. -/
theorem validateLdap_filter_missing (env : Env) (c : LDAPAuthenticationBackendConfiguration)
    (v : StructValidator) :
    (c.UsersFilter = "" →
      (validateLdapAuthenticationBackend env c v).1.UsersFilter =
        (if resolvedImplementation env c = "activedirectory" then
          env.DefaultLDAPAuthenticationBackendImplementationActiveDirectoryConfiguration.UsersFilter
         else "") ∧
      (pushedErrors v (validateLdapAuthenticationBackend env c v).2).count
          ValidationError.usersFilterMissing =
        (if resolvedImplementation env c = "activedirectory" ∧
            env.DefaultLDAPAuthenticationBackendImplementationActiveDirectoryConfiguration.UsersFilter
              ≠ "" then 0 else 1)) ∧
    (c.GroupsFilter = "" →
      (validateLdapAuthenticationBackend env c v).1.GroupsFilter =
        (if resolvedImplementation env c = "activedirectory" then
          env.DefaultLDAPAuthenticationBackendImplementationActiveDirectoryConfiguration.GroupsFilter
         else "") ∧
      (pushedErrors v (validateLdapAuthenticationBackend env c v).2).count
          ValidationError.groupsFilterMissing =
        (if resolvedImplementation env c = "activedirectory" ∧
            env.DefaultLDAPAuthenticationBackendImplementationActiveDirectoryConfiguration.GroupsFilter
              ≠ "" then 0 else 1)) := by
  rw [validateLdapAuthenticationBackend_pushedErrors, validateLdapAuthenticationBackend_errors,
    validateLdapAuthenticationBackend_fst env c v, validateLdapAuthenticationBackend_record]
  simp only [List.count_append, count_ite, List.count_singleton, beq_iff_eq, reduceCtorEq,
    if_false, if_true, ne_eq, not_false_eq_true, implies_true, tlsVersionErrors_count,
    validateLdapURL_errors_count, List.count_nil, ite_self, zero_add, add_zero, and_self,
    LDAPImplementationActiveDirectory]
  constructor
  · intro hu
    by_cases hI : resolvedImplementation env c = "activedirectory" <;>
      by_cases hD : env.DefaultLDAPAuthenticationBackendImplementationActiveDirectoryConfiguration.UsersFilter = "" <;>
      simp [hu, hI, hD]
  · intro hg
    by_cases hI : resolvedImplementation env c = "activedirectory" <;>
      by_cases hD : env.DefaultLDAPAuthenticationBackendImplementationActiveDirectoryConfiguration.GroupsFilter = "" <;>
      simp [hg, hI, hD]

theorem validateLdap_filter_missing_witness :
    emptyLdap.UsersFilter = "" ∧
    (pushedErrors StructValidator.empty
        (validateLdapAuthenticationBackend sampleEnv emptyLdap StructValidator.empty).2).count
        ValidationError.usersFilterMissing =
      (if resolvedImplementation sampleEnv emptyLdap = "activedirectory" ∧
          sampleEnv.DefaultLDAPAuthenticationBackendImplementationActiveDirectoryConfiguration.UsersFilter
            ≠ "" then 0 else 1) ∧
    (validateLdapAuthenticationBackend sampleEnv emptyLdap StructValidator.empty).2.errors =
      [ValidationError.ldapURLMissing, ValidationError.ldapUserMissing,
       ValidationError.ldapPasswordMissing, ValidationError.ldapBaseDNMissing,
       ValidationError.usersFilterMissing, ValidationError.groupsFilterMissing] :=
  ⟨rfl,
    ((validateLdap_filter_missing sampleEnv emptyLdap StructValidator.empty).1 rfl).2,
    by decide⟩

/-- C15 fails as stated: with Implementation activedirectory and both filters empty on
input, validateLdapAuthenticationBackend fills UsersFilter and GroupsFilter from the
Active Directory defaults and pushes neither the error asking for a users filter nor
the error asking for a groups filter. -/
theorem validateLdap_activedirectory_filters_defaulted :
    ValidationError.usersFilterMissing ∉
      pushedErrors StructValidator.empty
        (validateLdapAuthenticationBackend sampleEnv
          { emptyLdap with Implementation := "activedirectory" } StructValidator.empty).2 ∧
    ValidationError.groupsFilterMissing ∉
      pushedErrors StructValidator.empty
        (validateLdapAuthenticationBackend sampleEnv
          { emptyLdap with Implementation := "activedirectory" } StructValidator.empty).2 ∧
    (validateLdapAuthenticationBackend sampleEnv
        { emptyLdap with Implementation := "activedirectory" }
        StructValidator.empty).1.GroupsFilter = "(&(member={dn})(objectClass=group))" ∧
    (validateLdapAuthenticationBackend sampleEnv
        { emptyLdap with Implementation := "activedirectory" } StructValidator.empty).2.errors =
      [ValidationError.ldapURLMissing, ValidationError.ldapUserMissing,
       ValidationError.ldapPasswordMissing, ValidationError.ldapBaseDNMissing] := by
  decide

/-- C16: for every directory backend, with the default Implementation being custom, the
Implementation after defaulting is custom when the input is empty and the input
otherwise. With custom, each of UsernameAttribute, GroupNameAttribute, MailAttribute and
DisplayNameAttribute that is empty is filled from the generic defaults, UsersFilter and
GroupsFilter are not filled, and no implementation error is pushed. With activedirectory,
each of those four attributes and of UsersFilter and GroupsFilter that is empty is filled
from the Active Directory defaults, and no implementation error is pushed. With any other
value exactly one implementation error is pushed and none of the six fields is changed.
In all three cases a field that is not empty on input keeps its value. -/
theorem validateLdap_implementation (env : Env) (c : LDAPAuthenticationBackendConfiguration)
    (v : StructValidator)
    (hd : env.DefaultLDAPAuthenticationBackendConfiguration.Implementation = "custom") :
    (validateLdapAuthenticationBackend env c v).1.Implementation =
      resolvedImplementation env c ∧
    resolvedImplementation env c =
      (if c.Implementation = "" then "custom" else c.Implementation) ∧
    (resolvedImplementation env c = "custom" →
      (validateLdapAuthenticationBackend env c v).1.UsernameAttribute =
        (if c.UsernameAttribute = "" then
          env.DefaultLDAPAuthenticationBackendConfiguration.UsernameAttribute
         else c.UsernameAttribute) ∧
      (validateLdapAuthenticationBackend env c v).1.GroupNameAttribute =
        (if c.GroupNameAttribute = "" then
          env.DefaultLDAPAuthenticationBackendConfiguration.GroupNameAttribute
         else c.GroupNameAttribute) ∧
      (validateLdapAuthenticationBackend env c v).1.MailAttribute =
        (if c.MailAttribute = "" then
          env.DefaultLDAPAuthenticationBackendConfiguration.MailAttribute
         else c.MailAttribute) ∧
      (validateLdapAuthenticationBackend env c v).1.DisplayNameAttribute =
        (if c.DisplayNameAttribute = "" then
          env.DefaultLDAPAuthenticationBackendConfiguration.DisplayNameAttribute
         else c.DisplayNameAttribute) ∧
      (validateLdapAuthenticationBackend env c v).1.UsersFilter = c.UsersFilter ∧
      (validateLdapAuthenticationBackend env c v).1.GroupsFilter = c.GroupsFilter ∧
      (pushedErrors v (validateLdapAuthenticationBackend env c v).2).count
        ValidationError.ldapImplementationInvalid = 0) ∧
    (resolvedImplementation env c = "activedirectory" →
      (validateLdapAuthenticationBackend env c v).1.UsernameAttribute =
        (if c.UsernameAttribute = "" then
          env.DefaultLDAPAuthenticationBackendImplementationActiveDirectoryConfiguration.UsernameAttribute
         else c.UsernameAttribute) ∧
      (validateLdapAuthenticationBackend env c v).1.GroupNameAttribute =
        (if c.GroupNameAttribute = "" then
          env.DefaultLDAPAuthenticationBackendImplementationActiveDirectoryConfiguration.GroupNameAttribute
         else c.GroupNameAttribute) ∧
      (validateLdapAuthenticationBackend env c v).1.MailAttribute =
        (if c.MailAttribute = "" then
          env.DefaultLDAPAuthenticationBackendImplementationActiveDirectoryConfiguration.MailAttribute
         else c.MailAttribute) ∧
      (validateLdapAuthenticationBackend env c v).1.DisplayNameAttribute =
        (if c.DisplayNameAttribute = "" then
          env.DefaultLDAPAuthenticationBackendImplementationActiveDirectoryConfiguration.DisplayNameAttribute
         else c.DisplayNameAttribute) ∧
      (validateLdapAuthenticationBackend env c v).1.UsersFilter =
        (if c.UsersFilter = "" then
          env.DefaultLDAPAuthenticationBackendImplementationActiveDirectoryConfiguration.UsersFilter
         else c.UsersFilter) ∧
      (validateLdapAuthenticationBackend env c v).1.GroupsFilter =
        (if c.GroupsFilter = "" then
          env.DefaultLDAPAuthenticationBackendImplementationActiveDirectoryConfiguration.GroupsFilter
         else c.GroupsFilter) ∧
      (pushedErrors v (validateLdapAuthenticationBackend env c v).2).count
        ValidationError.ldapImplementationInvalid = 0) ∧
    (resolvedImplementation env c ≠ "custom" →
      resolvedImplementation env c ≠ "activedirectory" →
      (validateLdapAuthenticationBackend env c v).1.UsernameAttribute = c.UsernameAttribute ∧
      (validateLdapAuthenticationBackend env c v).1.GroupNameAttribute = c.GroupNameAttribute ∧
      (validateLdapAuthenticationBackend env c v).1.MailAttribute = c.MailAttribute ∧
      (validateLdapAuthenticationBackend env c v).1.DisplayNameAttribute =
        c.DisplayNameAttribute ∧
      (validateLdapAuthenticationBackend env c v).1.UsersFilter = c.UsersFilter ∧
      (validateLdapAuthenticationBackend env c v).1.GroupsFilter = c.GroupsFilter ∧
      (pushedErrors v (validateLdapAuthenticationBackend env c v).2).count
        ValidationError.ldapImplementationInvalid = 1) := by
  rw [validateLdapAuthenticationBackend_pushedErrors, validateLdapAuthenticationBackend_errors,
    validateLdapAuthenticationBackend_fst env c v, validateLdapAuthenticationBackend_record]
  simp only [List.count_append, count_ite, List.count_singleton, beq_iff_eq, reduceCtorEq,
    if_false, if_true, ne_eq, not_false_eq_true, implies_true, tlsVersionErrors_count,
    validateLdapURL_errors_count, List.count_nil, ite_self, zero_add, add_zero, and_self,
    LDAPImplementationActiveDirectory, LDAPImplementationCustom, true_and]
  refine ⟨?_, ?_, ?_, ?_⟩
  · rw [resolvedImplementation_eq, hd]
  · intro hI
    simp [hI]
  · intro hI
    simp [hI]
  · intro h1 h2
    simp [h1, h2]

theorem validateLdap_implementation_witness :
    sampleEnv.DefaultLDAPAuthenticationBackendConfiguration.Implementation = "custom" ∧
    (validateLdapAuthenticationBackend sampleEnv
        { emptyLdap with Implementation := "openldap", MailAttribute := "email" }
        StructValidator.empty).1.Implementation =
      resolvedImplementation sampleEnv
        { emptyLdap with Implementation := "openldap", MailAttribute := "email" } ∧
    validateLdapAuthenticationBackend sampleEnv
        { emptyLdap with Implementation := "openldap", MailAttribute := "email" }
        StructValidator.empty =
      ({ emptyLdap with
         Implementation := "openldap", MailAttribute := "email",
         TLS := some { MinimumVersion := "TLS1.2", SkipVerify := false, ServerName := "" } },
       { errors := [ValidationError.ldapImplementationInvalid, ValidationError.ldapURLMissing,
                    ValidationError.ldapUserMissing, ValidationError.ldapPasswordMissing,
                    ValidationError.ldapBaseDNMissing, ValidationError.usersFilterMissing,
                    ValidationError.groupsFilterMissing],
         warnings := [] }) ∧
    (validateLdapAuthenticationBackend sampleEnv
        { emptyLdap with MailAttribute := "email" } StructValidator.empty).1 =
      { emptyLdap with
        Implementation := "custom", UsernameAttribute := "uid", MailAttribute := "email",
        DisplayNameAttribute := "displayname", GroupNameAttribute := "cn",
        TLS := some { MinimumVersion := "TLS1.2", SkipVerify := false, ServerName := "" } } :=
  ⟨rfl,
    (validateLdap_implementation sampleEnv
      { emptyLdap with Implementation := "openldap", MailAttribute := "email" }
      StructValidator.empty rfl).1,
    by decide, by decide⟩

theorem append_eq_nil_of_errors {l₁ l₂ : List ValidationError} (h : l₁ ++ l₂ = []) :
    l₁ = [] ∧ l₂ = [] :=
  List.append_eq_nil.mp h

/-- C19, as the code has it: for every directory backend that
validateLdapAuthenticationBackend accepts with no fatal error, the input URL is not
empty and parses to a URL with scheme ldap or ldaps, and the resulting URL is the
re-serialised form of that parsed URL; where that form begins with the scheme and a
colon, the resulting URL is a non-empty string that begins with ldap: or ldaps:. The
resulting TLS.ServerName is the ServerName of the supplied TLS record when that is not
empty and the host of the URL when it is empty; when no TLS record was supplied it is the
ServerName of the default TLS record when that is not empty and the host of the URL when
it is empty. The host may be empty, and TLS.ServerName is then empty as well. -/
theorem validateLdap_accepted_url (env : Env) (c : LDAPAuthenticationBackendConfiguration)
    (v : StructValidator)
    (hno : pushedErrors v (validateLdapAuthenticationBackend env c v).2 = []) :
    c.URL ≠ "" ∧
    ∃ u, env.urlParse c.URL = some u ∧ (u.Scheme = "ldap" ∨ u.Scheme = "ldaps") ∧
      (validateLdapAuthenticationBackend env c v).1.URL = u.Serialized ∧
      (HasPrefix u.Serialized (u.Scheme ++ ":") = true →
        (validateLdapAuthenticationBackend env c v).1.URL ≠ "" ∧
        (HasPrefix (validateLdapAuthenticationBackend env c v).1.URL "ldap:" = true ∨
         HasPrefix (validateLdapAuthenticationBackend env c v).1.URL "ldaps:" = true)) ∧
      (∀ t, c.TLS = some t → t.ServerName ≠ "" →
        Option.map TLSConfig.ServerName (validateLdapAuthenticationBackend env c v).1.TLS =
          some t.ServerName) ∧
      (∀ t, c.TLS = some t → t.ServerName = "" →
        Option.map TLSConfig.ServerName (validateLdapAuthenticationBackend env c v).1.TLS =
          some u.Host) ∧
      (c.TLS = none → env.DefaultLDAPTLS.ServerName ≠ "" →
        Option.map TLSConfig.ServerName (validateLdapAuthenticationBackend env c v).1.TLS =
          some env.DefaultLDAPTLS.ServerName) ∧
      (c.TLS = none → env.DefaultLDAPTLS.ServerName = "" →
        Option.map TLSConfig.ServerName (validateLdapAuthenticationBackend env c v).1.TLS =
          some u.Host) := by
  rw [validateLdapAuthenticationBackend_pushedErrors,
    validateLdapAuthenticationBackend_errors] at hno
  rw [validateLdapAuthenticationBackend_fst env c v, validateLdapAuthenticationBackend_record]
  have h1 := (append_eq_nil_of_errors hno).2
  have h2 := (append_eq_nil_of_errors h1).2
  have h3 := (append_eq_nil_of_errors h2).1
  have hurl : c.URL ≠ "" := by
    intro h0
    simp [h0] at h3
  simp only [hurl, if_false, validateLdapURL_errors] at h3
  cases hu : env.urlParse c.URL with
  | none => simp [hu] at h3
  | some u =>
    simp only [hu, schemeLDAP, schemeLDAPS, ite_eq_right_iff, List.cons_ne_self, imp_false,
      not_not] at h3
    have hval : (validateLdapURL env c.URL StructValidator.empty).1 =
        (u.Serialized, u.Host) := by
      simp [validateLdapURL, hu, schemeLDAP, schemeLDAPS, h3]
    simp only [hurl, if_false, hval, Option.map_some', ne_eq, not_false_eq_true, true_and,
      suppliedTLS_eq]
    refine ⟨u, rfl, h3, rfl, ?_, ?_, ?_, ?_, ?_⟩
    · intro hpre
      have hne : u.Serialized ≠ "" := by
        intro h0
        rw [h0] at hpre
        rcases h3 with h3 | h3 <;> rw [h3] at hpre <;> revert hpre <;> decide
      refine ⟨hne, ?_⟩
      rcases h3 with h3 | h3
      · left
        rw [h3] at hpre
        exact hpre
      · right
        rw [h3] at hpre
        exact hpre
    · intro t hT hs
      simp [hT, hs]
    · intro t hT hs
      simp [hT, hs]
    · intro hT hs
      simp [hT, hs]
    · intro hT hs
      simp [hT, hs]

theorem validateLdap_accepted_url_witness :
    pushedErrors StructValidator.empty
      (validateLdapAuthenticationBackend sampleEnv
        { emptyLdap with
          URL := "ldaps://dc1.example.com:636", User := "cn=admin,dc=example,dc=com",
          Password := "password", BaseDN := "dc=example,dc=com",
          UsersFilter := "({username_attribute}={input})", GroupsFilter := "(member={dn})" }
        StructValidator.empty).2 = [] ∧
    ("ldaps://dc1.example.com:636" : String) ≠ "" ∧
    sampleEnv.urlParse "ldaps://dc1.example.com:636" =
      some { Scheme := "ldaps", Serialized := "ldaps://dc1.example.com:636",
             Host := "dc1.example.com" } ∧
    HasPrefix "ldaps://dc1.example.com:636" "ldaps:" = true ∧
    (validateLdapAuthenticationBackend sampleEnv
        { emptyLdap with
          URL := "ldaps://dc1.example.com:636", User := "cn=admin,dc=example,dc=com",
          Password := "password", BaseDN := "dc=example,dc=com",
          UsersFilter := "({username_attribute}={input})", GroupsFilter := "(member={dn})" }
        StructValidator.empty).1.URL = "ldaps://dc1.example.com:636" ∧
    (validateLdapAuthenticationBackend sampleEnv
        { emptyLdap with
          URL := "ldaps://dc1.example.com:636", User := "cn=admin,dc=example,dc=com",
          Password := "password", BaseDN := "dc=example,dc=com",
          UsersFilter := "({username_attribute}={input})", GroupsFilter := "(member={dn})" }
        StructValidator.empty).1.TLS =
      some { MinimumVersion := "TLS1.2", SkipVerify := false,
             ServerName := "dc1.example.com" } ∧
    (validateLdapAuthenticationBackend
        { sampleEnv with
          DefaultLDAPTLS := { MinimumVersion := "TLS1.2", SkipVerify := false,
                              ServerName := "dc1.example.com" } }
        { emptyLdap with
          URL := "ldap://dc2.example.com", User := "cn=admin,dc=example,dc=com",
          Password := "password", BaseDN := "dc=example,dc=com",
          UsersFilter := "({username_attribute}={input})", GroupsFilter := "(member={dn})" }
        StructValidator.empty).1.TLS =
      some { MinimumVersion := "TLS1.2", SkipVerify := false,
             ServerName := "dc1.example.com" } ∧
    (validateLdapAuthenticationBackend sampleEnv
        { emptyLdap with
          URL := "ldap://dc2.example.com", User := "cn=admin,dc=example,dc=com",
          Password := "password", BaseDN := "dc=example,dc=com",
          UsersFilter := "({username_attribute}={input})", GroupsFilter := "(member={dn})",
          TLS := some { MinimumVersion := "", SkipVerify := true,
                        ServerName := "ldap.example.com" } }
        StructValidator.empty).1.TLS =
      some { MinimumVersion := "TLS1.2", SkipVerify := true,
             ServerName := "ldap.example.com" } :=
  ⟨by decide,
    (validateLdap_accepted_url sampleEnv
      { emptyLdap with
        URL := "ldaps://dc1.example.com:636", User := "cn=admin,dc=example,dc=com",
        Password := "password", BaseDN := "dc=example,dc=com",
        UsersFilter := "({username_attribute}={input})", GroupsFilter := "(member={dn})" }
      StructValidator.empty (by decide)).1,
    by decide, by decide, by decide, by decide, by decide, by decide⟩

/-- C19 fails as stated: a directory backend whose URL is ldap:/// (scheme ldap, no
host) and that gives no TLS.ServerName is accepted with no fatal error, and the resulting
TLS.ServerName is empty. -/
theorem validateLdap_accepted_empty_serverName :
    validateLdapAuthenticationBackend sampleEnv
        { emptyLdap with
          URL := "ldap:///", User := "cn=admin,dc=example,dc=com",
          Password := "password", BaseDN := "dc=example,dc=com",
          UsersFilter := "({username_attribute}={input})", GroupsFilter := "(member={dn})" }
        StructValidator.empty =
      ({ Implementation := "custom", URL := "ldap:///",
         TLS := some { MinimumVersion := "TLS1.2", SkipVerify := false, ServerName := "" },
         SkipVerify := none, MinimumTLSVersion := "", BaseDN := "dc=example,dc=com",
         UsersFilter := "({username_attribute}={input})", GroupsFilter := "(member={dn})",
         UsernameAttribute := "uid", MailAttribute := "mail",
         DisplayNameAttribute := "displayname", GroupNameAttribute := "cn",
         User := "cn=admin,dc=example,dc=com", Password := "password" },
       { errors := [], warnings := [] }) ∧
    Option.map TLSConfig.ServerName
      (validateLdapAuthenticationBackend sampleEnv
        { emptyLdap with
          URL := "ldap:///", User := "cn=admin,dc=example,dc=com",
          Password := "password", BaseDN := "dc=example,dc=com",
          UsersFilter := "({username_attribute}={input})", GroupsFilter := "(member={dn})" }
        StructValidator.empty).1.TLS = some "" := by
  decide

/-! ## The refresh interval: claim C11 -/

theorem validateFileAuthenticationBackend_errors_kind (env : Env)
    (f : FileAuthenticationBackendConfiguration) (e : ValidationError)
    (h : e ∈ (validateFileAuthenticationBackend env f StructValidator.empty).2.errors) :
    ∀ s err, e ≠ ValidationError.refreshIntervalInvalid s err := by
  intro s err he
  subst he
  cases hp : f.Password with
  | none =>
    by_cases hpath : f.Path = "" <;>
      simp [validateFileAuthenticationBackend, hp, hpath, StructValidator.Push,
        StructValidator.empty] at h
  | some p =>
    have h2 := validateFileAuthenticationBackend_some_pushed env f p StructValidator.empty hp
    simp only [pushedErrors, StructValidator.empty, List.length_nil, List.drop_zero] at h2
    simp only [StructValidator.empty] at h
    rw [h2] at h
    simp only [List.mem_append, mem_ite_singleton, mem_ite_nil, List.mem_singleton,
      reduceCtorEq, and_false, or_false] at h

theorem validateLdapAuthenticationBackend_errors_kind (env : Env)
    (l : LDAPAuthenticationBackendConfiguration) (e : ValidationError)
    (h : e ∈ (validateLdapAuthenticationBackend env l StructValidator.empty).2.errors) :
    ∀ s err, e ≠ ValidationError.refreshIntervalInvalid s err := by
  intro s err he
  subst he
  have hc := List.count_pos_iff.mpr h
  rw [validateLdapAuthenticationBackend_errors] at hc
  simp only [List.count_append, count_ite, List.count_singleton, beq_iff_eq, reduceCtorEq,
    if_false, if_true, ne_eq, not_false_eq_true, implies_true, tlsVersionErrors_count,
    validateLdapURL_errors_count, List.count_nil, ite_self, zero_add, add_zero, and_self,
    lt_self_iff_false] at hc

theorem validateBackend_refreshInterval (env : Env) (c : AuthenticationBackendConfiguration)
    (v : StructValidator) :
    (validateBackend env c v).1.RefreshInterval = c.RefreshInterval := by
  simp only [validateBackend]
  cases c.File with
  | some f => rfl
  | none =>
    cases c.Ldap with
    | some l => rfl
    | none => rfl

theorem validateBackend_errors (env : Env) (c : AuthenticationBackendConfiguration)
    (v : StructValidator) :
    ∃ l, (validateBackend env c (validateBackendPresence c v)).2.errors = v.errors ++ l ∧
      ∀ e ∈ l, ∀ s err, e ≠ ValidationError.refreshIntervalInvalid s err := by
  have hpres : ∃ l₀, (validateBackendPresence c v) =
      { v with errors := v.errors ++ l₀ } ∧
      ∀ e ∈ l₀, ∀ s err, e ≠ ValidationError.refreshIntervalInvalid s err := by
    simp only [validateBackendPresence]
    by_cases h1 : c.Ldap = none ∧ c.File = none
    · by_cases h2 : c.Ldap ≠ none ∧ c.File ≠ none
      · exact absurd h1.1 h2.1
      · refine ⟨[ValidationError.backendMissing], ?_, ?_⟩
        · simp [h1, StructValidator.Push]
        · intro e he s err
          simp only [List.mem_singleton] at he
          subst he
          simp
    · by_cases h2 : c.Ldap ≠ none ∧ c.File ≠ none
      · refine ⟨[ValidationError.backendBoth], ?_, ?_⟩
        · rw [if_neg h1, if_pos h2]
          rfl
        · intro e he s err
          simp only [List.mem_singleton] at he
          subst he
          simp
      · refine ⟨[], ?_, ?_⟩
        · simp only [h1, h2, if_false, List.append_nil]
        · intro e he
          simp at he
  obtain ⟨l₀, hv, hl₀⟩ := hpres
  rw [hv]
  simp only [validateBackend]
  cases c.File with
  | some f =>
    refine ⟨l₀ ++ (validateFileAuthenticationBackend env f StructValidator.empty).2.errors,
      ?_, ?_⟩
    · simp only [validateFileAuthenticationBackend_snd env f { v with errors := v.errors ++ l₀ },
        List.append_assoc]
    · intro e he
      rcases List.mem_append.mp he with h | h
      · exact hl₀ e h
      · exact validateFileAuthenticationBackend_errors_kind env f e h
  | none =>
    cases c.Ldap with
    | some l =>
      refine ⟨l₀ ++ (validateLdapAuthenticationBackend env l StructValidator.empty).2.errors,
        ?_, ?_⟩
      · simp only [validateLdapAuthenticationBackend_snd env l
          { v with errors := v.errors ++ l₀ }, List.append_assoc]
      · intro e he
        rcases List.mem_append.mp he with h | h
        · exact hl₀ e h
        · exact validateLdapAuthenticationBackend_errors_kind env l e h
    | none => exact ⟨l₀, rfl, hl₀⟩

/-- C11: for every configuration, whichever backends are present: when RefreshInterval
is empty, ValidateAuthenticationBackend sets it to the default and pushes no
refresh-interval error; otherwise it leaves RefreshInterval unchanged and pushes a
refresh-interval error if and only if the duration parser rejects the value and the value
is neither disable nor always, that error naming the value and the message of the
parser. -/
theorem ValidateAuthenticationBackend_refreshInterval (env : Env)
    (c : AuthenticationBackendConfiguration) (v : StructValidator) :
    (c.RefreshInterval = "" →
      (ValidateAuthenticationBackend env c v).1.RefreshInterval = env.RefreshIntervalDefault ∧
      ∀ s err, ValidationError.refreshIntervalInvalid s err ∉
        pushedErrors v (ValidateAuthenticationBackend env c v).2) ∧
    (c.RefreshInterval ≠ "" →
      (ValidateAuthenticationBackend env c v).1.RefreshInterval = c.RefreshInterval ∧
      ∀ s err, (ValidationError.refreshIntervalInvalid s err ∈
          pushedErrors v (ValidateAuthenticationBackend env c v).2 ↔
        s = c.RefreshInterval ∧ env.ParseDurationString c.RefreshInterval = .error err ∧
          c.RefreshInterval ≠ "disable" ∧ c.RefreshInterval ≠ "always")) := by
  obtain ⟨l, hl, hkind⟩ := validateBackend_errors env c v
  have hpushed : pushedErrors v (ValidateAuthenticationBackend env c v).2 =
      l ++ (match env.ParseDurationString c.RefreshInterval with
          | .error err =>
            if c.RefreshInterval ≠ "" ∧ c.RefreshInterval ≠ "disable" ∧
                c.RefreshInterval ≠ "always" then
              [ValidationError.refreshIntervalInvalid c.RefreshInterval err]
            else []
          | .ok _ => []) := by
    simp only [ValidateAuthenticationBackend, validateRefreshInterval_snd, pushedErrors, hl,
      validateBackend_refreshInterval, List.append_assoc, List.drop_left]
  have hri : (ValidateAuthenticationBackend env c v).1.RefreshInterval =
      if c.RefreshInterval = "" then env.RefreshIntervalDefault else c.RefreshInterval := by
    simp only [ValidateAuthenticationBackend, validateRefreshInterval_fst,
      validateBackend_refreshInterval]
  rw [hpushed, hri]
  constructor
  · intro h0
    refine ⟨by simp [h0], ?_⟩
    intro s err hmem
    rcases List.mem_append.mp hmem with h | h
    · exact hkind _ h s err rfl
    · cases hparse : env.ParseDurationString c.RefreshInterval with
      | error e' => rw [hparse] at h; simp [h0] at h
      | ok d => rw [hparse] at h; simp at h
  · intro h0
    refine ⟨by simp [h0], ?_⟩
    intro s err
    constructor
    · intro hmem
      rcases List.mem_append.mp hmem with h | h
      · exact absurd rfl (hkind _ h s err)
      · cases hparse : env.ParseDurationString c.RefreshInterval with
        | error e' =>
          rw [hparse] at h
          simp only [mem_ite_singleton, ValidationError.refreshIntervalInvalid.injEq] at h
          obtain ⟨⟨-, h1, h2⟩, h3, h4⟩ := h
          exact ⟨h3, by rw [h4], h1, h2⟩
        | ok d => rw [hparse] at h; simp at h
    · rintro ⟨hs, hparse, h1, h2⟩
      apply List.mem_append.mpr
      right
      rw [hparse]
      simp [hs, h0, h1, h2]

theorem ValidateAuthenticationBackend_refreshInterval_witness :
    ValidateAuthenticationBackend sampleEnv
        { Ldap := none, File := some { Path := "/config/users.yml", Password := none },
          RefreshInterval := "" } StructValidator.empty =
      ({ Ldap := none,
         File := some { Path := "/config/users.yml",
                        Password := some sampleEnv.DefaultPasswordConfiguration },
         RefreshInterval := "5m" },
       { errors := [], warnings := [] }) ∧
    (ValidateAuthenticationBackend sampleEnv
        { Ldap := none, File := some { Path := "/config/users.yml", Password := none },
          RefreshInterval := "always" } StructValidator.empty).2.errors = [] ∧
    (ValidateAuthenticationBackend sampleEnv
        { Ldap := none, File := some { Path := "/config/users.yml", Password := none },
          RefreshInterval := "never" } StructValidator.empty).2.errors =
      [ValidationError.refreshIntervalInvalid "never"
        "could not convert the input string of never into a duration"] ∧
    (ValidateAuthenticationBackend sampleEnv
        { Ldap := none, File := some { Path := "/config/users.yml", Password := none },
          RefreshInterval := "never" } StructValidator.empty).1.RefreshInterval = "never" :=
  ⟨by decide, by decide, by decide,
    ((ValidateAuthenticationBackend_refreshInterval sampleEnv
      { Ldap := none, File := some { Path := "/config/users.yml", Password := none },
        RefreshInterval := "never" } StructValidator.empty).2 (by decide)).1⟩

/-! ## Idempotence: claims C17 and C18 -/

/-- C18, the case the code misses: a file backend with Parallelism 1000000 and Memory
left at 0 is accepted by a first run with no fatal error, Memory being set to the default
1024; a second run on the resulting record pushes the memory error, because the Memory
it now finds is not 0 and is below Parallelism*8. -/
theorem ValidateAuthenticationBackend_second_run_rejects :
    ValidateAuthenticationBackend sampleEnv
        { Ldap := none,
          File := some
            { Path := "/config/users.yml",
              Password := some { Iterations := 1, KeyLength := 32, SaltLength := 16,
                                 Algorithm := "argon2id", Memory := 0,
                                 Parallelism := 1000000 } },
          RefreshInterval := "5m" } StructValidator.empty =
      ({ Ldap := none,
         File := some
           { Path := "/config/users.yml",
             Password := some { Iterations := 1, KeyLength := 32, SaltLength := 16,
                                Algorithm := "argon2id", Memory := 1024,
                                Parallelism := 1000000 } },
         RefreshInterval := "5m" },
       { errors := [], warnings := [] }) ∧
    ValidateAuthenticationBackend sampleEnv
        { Ldap := none,
          File := some
            { Path := "/config/users.yml",
              Password := some { Iterations := 1, KeyLength := 32, SaltLength := 16,
                                 Algorithm := "argon2id", Memory := 1024,
                                 Parallelism := 1000000 } },
          RefreshInterval := "5m" } StructValidator.empty =
      ({ Ldap := none,
         File := some
           { Path := "/config/users.yml",
             Password := some { Iterations := 1, KeyLength := 32, SaltLength := 16,
                                Algorithm := "argon2id", Memory := 1024,
                                Parallelism := 1000000 } },
         RefreshInterval := "5m" },
       { errors := [ValidationError.memoryInvalid 8000000 1024 1000000], warnings := [] }) := by
  decide

theorem int_default_idem (x d : Int) :
    (if (if x = 0 then d else x) = 0 then d else (if x = 0 then d else x)) =
      (if x = 0 then d else x) := by
  by_cases h : x = 0
  · by_cases hd : d = 0 <;> simp [h, hd]
  · simp [h]

theorem int_default_and_idem (A : Prop) [Decidable A] (x d : Int) :
    (if A ∧ (if A ∧ x = 0 then d else x) = 0 then d else (if A ∧ x = 0 then d else x)) =
      (if A ∧ x = 0 then d else x) := by
  by_cases hA : A
  · by_cases h : x = 0
    · by_cases hd : d = 0 <;> simp [hA, h, hd]
    · simp [hA, h]
  · simp [hA]

theorem string_default_idem (x d : String) :
    (if (if x = "" then d else x) = "" then d else (if x = "" then d else x)) =
      (if x = "" then d else x) := by
  by_cases h : x = ""
  · by_cases hd : d = "" <;> simp [h, hd]
  · simp [h]

theorem string_default_and_idem (A : Prop) [Decidable A] (x d : String) :
    (if A ∧ (if A ∧ x = "" then d else x) = "" then d else (if A ∧ x = "" then d else x)) =
      (if A ∧ x = "" then d else x) := by
  by_cases hA : A
  · by_cases h : x = ""
    · by_cases hd : d = "" <;> simp [hA, h, hd]
    · simp [hA, h]
  · simp [hA]

theorem string_default_two_idem (A B : Prop) [Decidable A] [Decidable B] (x d₁ d₂ : String) :
    (if A ∧ (if A ∧ x = "" then d₁ else if B ∧ x = "" then d₂ else x) = "" then d₁
     else if B ∧ (if A ∧ x = "" then d₁ else if B ∧ x = "" then d₂ else x) = "" then d₂
     else (if A ∧ x = "" then d₁ else if B ∧ x = "" then d₂ else x)) =
      (if A ∧ x = "" then d₁ else if B ∧ x = "" then d₂ else x) := by
  by_cases hA : A <;> by_cases hB : B <;> by_cases h : x = "" <;>
    by_cases h1 : d₁ = "" <;> by_cases h2 : d₂ = "" <;> simp [hA, hB, h, h1, h2]

theorem validatePasswordConfiguration_idem (env : Env) (p : PasswordConfiguration)
    (v w : StructValidator)
    (hd : env.DefaultPasswordConfiguration.Algorithm = argon2id)
    (hidem : ∀ s, env.ToLower (env.ToLower s) = env.ToLower s)
    (hne : ∀ s, s ≠ "" → env.ToLower s ≠ "")
    (hargon : env.ToLower argon2id = argon2id) :
    (validatePasswordConfiguration env (validatePasswordConfiguration env p v).1 w).1 =
      (validatePasswordConfiguration env p v).1 := by
  have ha : resolvedAlgorithm env (validatePasswordConfiguration env p v).1 =
      resolvedAlgorithm env p := by
    rw [validatePasswordConfiguration_fst, resolvedAlgorithm_eq, resolvedAlgorithm_eq, hd]
    by_cases h : p.Algorithm = ""
    · have : argon2id ≠ "" := by decide
      simp [h, this, hargon]
    · simp [h, hne p.Algorithm h, hidem]
  rw [validatePasswordConfiguration_fst env (validatePasswordConfiguration env p v).1 w, ha]
  rw [validatePasswordConfiguration_fst env p v]
  simp only [int_default_idem, int_default_and_idem]

theorem validatePasswordConfiguration_default (env : Env) (w : StructValidator)
    (hd : env.DefaultPasswordConfiguration.Algorithm = argon2id)
    (hargon : env.ToLower argon2id = argon2id) :
    (validatePasswordConfiguration env env.DefaultPasswordConfiguration w).1 =
      env.DefaultPasswordConfiguration := by
  have ha : resolvedAlgorithm env env.DefaultPasswordConfiguration = argon2id := by
    have : argon2id ≠ "" := by decide
    rw [resolvedAlgorithm_eq, hd]
    simp [this, hargon]
  rw [validatePasswordConfiguration_fst, ha]
  simp only [true_and, if_true, ite_self]
  rw [← hd]

theorem validateFileAuthenticationBackend_idem (env : Env)
    (f : FileAuthenticationBackendConfiguration) (v w : StructValidator)
    (hd : env.DefaultPasswordConfiguration.Algorithm = argon2id)
    (hidem : ∀ s, env.ToLower (env.ToLower s) = env.ToLower s)
    (hne : ∀ s, s ≠ "" → env.ToLower s ≠ "")
    (hargon : env.ToLower argon2id = argon2id) :
    (validateFileAuthenticationBackend env (validateFileAuthenticationBackend env f v).1 w).1 =
      (validateFileAuthenticationBackend env f v).1 := by
  cases hp : f.Password with
  | none =>
    have h1 : (validateFileAuthenticationBackend env f v).1 =
        { f with Password := some env.DefaultPasswordConfiguration } := by
      simp only [validateFileAuthenticationBackend, hp]
    rw [h1, validateFileAuthenticationBackend_some_fst env _ env.DefaultPasswordConfiguration w rfl,
      validatePasswordConfiguration_default env _ hd hargon]
  | some p =>
    rw [validateFileAuthenticationBackend_some_fst env f p v hp,
      validateFileAuthenticationBackend_some_fst env _ _ w rfl,
      validatePasswordConfiguration_idem env p _ _ hd hidem hne hargon]

theorem validateLdapURL_round (env : Env) (s : String)
    (hround : ∀ s u, env.urlParse s = some u →
      (u.Scheme = schemeLDAP ∨ u.Scheme = schemeLDAPS) →
      ∃ u', env.urlParse u.Serialized = some u' ∧
        (u'.Scheme = schemeLDAP ∨ u'.Scheme = schemeLDAPS) ∧
        u'.Serialized = u.Serialized ∧ u'.Host = u.Host)
    (h : (validateLdapURL env s StructValidator.empty).1.1 ≠ "") :
    (validateLdapURL env (validateLdapURL env s StructValidator.empty).1.1
        StructValidator.empty).1 =
      (validateLdapURL env s StructValidator.empty).1 := by
  cases hu : env.urlParse s with
  | none => simp [validateLdapURL, hu] at h
  | some u =>
    by_cases hs : u.Scheme = schemeLDAP ∨ u.Scheme = schemeLDAPS
    · obtain ⟨u', hu', hs', hser, hhost⟩ := hround s u hu hs
      have h1 : (validateLdapURL env s StructValidator.empty).1 = (u.Serialized, u.Host) := by
        simp [validateLdapURL, hu, hs]
      rw [h1]
      simp [validateLdapURL, hu', hs', hser, hhost]
    · simp [validateLdapURL, hu, hs] at h

theorem validateLdapAuthenticationBackend_idem (env : Env)
    (l : LDAPAuthenticationBackendConfiguration) (v w : StructValidator)
    (hround : ∀ s u, env.urlParse s = some u →
      (u.Scheme = schemeLDAP ∨ u.Scheme = schemeLDAPS) →
      ∃ u', env.urlParse u.Serialized = some u' ∧
        (u'.Scheme = schemeLDAP ∨ u'.Scheme = schemeLDAPS) ∧
        u'.Serialized = u.Serialized ∧ u'.Host = u.Host) :
    (validateLdapAuthenticationBackend env (validateLdapAuthenticationBackend env l v).1 w).1 =
      (validateLdapAuthenticationBackend env l v).1 := by
  rw [validateLdapAuthenticationBackend_fst env l v,
    validateLdapAuthenticationBackend_fst env _ w,
    validateLdapAuthenticationBackend_record env l,
    validateLdapAuthenticationBackend_record]
  simp only [resolvedImplementation_eq, suppliedTLS_eq, Option.isNone_some, Option.getD_some,
    Bool.false_eq_true, and_false, if_false, string_default_idem, string_default_and_idem,
    string_default_two_idem]
  have hU : ((if l.URL = "" then "" else
        (validateLdapURL env l.URL StructValidator.empty).1.1) = "" ∨
      ((if l.URL = "" then "" else
        (validateLdapURL env l.URL StructValidator.empty).1.1) ≠ "" ∧ l.URL ≠ "" ∧
       (validateLdapURL env (validateLdapURL env l.URL StructValidator.empty).1.1
          StructValidator.empty).1 = (validateLdapURL env l.URL StructValidator.empty).1)) := by
    by_cases h0 : l.URL = ""
    · left; simp [h0]
    · by_cases h1 : (validateLdapURL env l.URL StructValidator.empty).1.1 = ""
      · left; simp [h0, h1]
      · right
        exact ⟨by simp [h0, h1], h0, validateLdapURL_round env l.URL hround h1⟩
  rcases hU with hU | ⟨hU, h0, hrt⟩
  · simp only [hU, if_true, ne_eq, not_true_eq_false, false_and, if_false]
  · simp only [h0, if_false] at hU ⊢
    simp only [hU, h0, if_false, hrt, ne_eq, not_false_eq_true, true_and, string_default_idem]

/-- C17: idempotence of the record. Applying ValidateAuthenticationBackend to the record
that a first application has produced yields that record again, given that the parser
accepts the re-serialised form of a URL it accepted with scheme ldap or ldaps and gives
the same URL and hostname for it, that the default algorithm is argon2id, and that
strings.ToLower is idempotent, keeps a non-empty string non-empty and leaves argon2id
unchanged. -/
theorem ValidateAuthenticationBackend_idempotent (env : Env)
    (c : AuthenticationBackendConfiguration) (v w : StructValidator)
    (hround : ∀ s u, env.urlParse s = some u →
      (u.Scheme = "ldap" ∨ u.Scheme = "ldaps") →
      ∃ u', env.urlParse u.Serialized = some u' ∧
        (u'.Scheme = "ldap" ∨ u'.Scheme = "ldaps") ∧
        u'.Serialized = u.Serialized ∧ u'.Host = u.Host)
    (hd : env.DefaultPasswordConfiguration.Algorithm = "argon2id")
    (hidem : ∀ s, env.ToLower (env.ToLower s) = env.ToLower s)
    (hne : ∀ s, s ≠ "" → env.ToLower s ≠ "")
    (hargon : env.ToLower "argon2id" = "argon2id") :
    (ValidateAuthenticationBackend env (ValidateAuthenticationBackend env c v).1 w).1 =
      (ValidateAuthenticationBackend env c v).1 := by
  rcases c with ⟨ldap, file, ri⟩
  simp only [ValidateAuthenticationBackend, validateRefreshInterval_fst,
    validateBackend_refreshInterval, string_default_idem]
  cases file with
  | some f =>
    simp only [validateBackend,
      validateFileAuthenticationBackend_idem env f _ _ hd hidem hne hargon]
  | none =>
    cases ldap with
    | some l =>
      simp only [validateBackend, validateLdapAuthenticationBackend_idem env l _ _ hround]
    | none => simp only [validateBackend]

theorem sampleURLParse_round (s : String) (u : URL)
    (h : sampleEnv.urlParse s = some u) :
    ∃ u', sampleEnv.urlParse u.Serialized = some u' ∧
      (u.Scheme = "ldap" ∨ u.Scheme = "ldaps" → u'.Scheme = "ldap" ∨ u'.Scheme = "ldaps") ∧
      u'.Serialized = u.Serialized ∧ u'.Host = u.Host := by
  have h' : sampleURLParse s = some u := h
  have hser : u.Serialized = s := by
    unfold sampleURLParse at h'
    cases hs : splitScheme s.data with
    | none => rw [hs] at h'; simp at h'
    | some p =>
      obtain ⟨scheme, rest⟩ := p
      rw [hs] at h'
      simp only at h'
      split_ifs at h' with hc
      simp only [Option.some.injEq] at h'
      rw [← h']
  refine ⟨u, ?_, fun hs => hs, rfl, rfl⟩
  rw [hser]
  exact h

theorem char_toLower_idem (c : Char) : c.toLower.toLower = c.toLower := by
  by_cases h : c.toNat ≥ 65 ∧ c.toNat ≤ 90
  · obtain ⟨h1, h2⟩ := h
    rw [← Char.ofNat_toNat c]
    generalize c.toNat = n at h1 h2
    interval_cases n <;> rfl
  · have hc : c.toLower = c := by
      simp only [Char.toLower]
      rw [if_neg h]
    rw [hc, hc]

theorem asciiToLower_idem (s : String) : asciiToLower (asciiToLower s) = asciiToLower s := by
  simp only [asciiToLower, List.map_map]
  congr 1
  apply List.map_congr_left
  intro c _
  exact char_toLower_idem c

theorem asciiToLower_ne_empty (s : String) (h : s ≠ "") : asciiToLower s ≠ "" := by
  intro h0
  apply h
  have h1 := congrArg String.data h0
  simp only [asciiToLower, List.map_eq_nil_iff] at h1
  exact String.ext h1

theorem ValidateAuthenticationBackend_idempotent_witness :
    (ValidateAuthenticationBackend sampleEnv
        { Ldap := some
            { emptyLdap with
              URL := "ldaps://dc1.example.com:636", User := "cn=admin,dc=example,dc=com",
              Password := "password", BaseDN := "dc=example,dc=com",
              UsersFilter := "({username_attribute}={input})",
              GroupsFilter := "(member={dn})", MinimumTLSVersion := "TLS1.3" },
          File := none, RefreshInterval := "" } StructValidator.empty).1 =
      { Ldap := some
          { Implementation := "custom", URL := "ldaps://dc1.example.com:636",
            TLS := some { MinimumVersion := "TLS1.3", SkipVerify := false,
                          ServerName := "dc1.example.com" },
            SkipVerify := none, MinimumTLSVersion := "TLS1.3", BaseDN := "dc=example,dc=com",
            UsersFilter := "({username_attribute}={input})", GroupsFilter := "(member={dn})",
            UsernameAttribute := "uid", MailAttribute := "mail",
            DisplayNameAttribute := "displayname", GroupNameAttribute := "cn",
            User := "cn=admin,dc=example,dc=com", Password := "password" },
        File := none, RefreshInterval := "5m" } ∧
    (ValidateAuthenticationBackend sampleEnv
        (ValidateAuthenticationBackend sampleEnv
          { Ldap := some
              { emptyLdap with
                URL := "ldaps://dc1.example.com:636", User := "cn=admin,dc=example,dc=com",
                Password := "password", BaseDN := "dc=example,dc=com",
                UsersFilter := "({username_attribute}={input})",
                GroupsFilter := "(member={dn})", MinimumTLSVersion := "TLS1.3" },
            File := none, RefreshInterval := "" } StructValidator.empty).1
        StructValidator.empty).1 =
      (ValidateAuthenticationBackend sampleEnv
        { Ldap := some
            { emptyLdap with
              URL := "ldaps://dc1.example.com:636", User := "cn=admin,dc=example,dc=com",
              Password := "password", BaseDN := "dc=example,dc=com",
              UsersFilter := "({username_attribute}={input})",
              GroupsFilter := "(member={dn})", MinimumTLSVersion := "TLS1.3" },
          File := none, RefreshInterval := "" } StructValidator.empty).1 :=
  ⟨by decide,
    ValidateAuthenticationBackend_idempotent sampleEnv _ StructValidator.empty
      StructValidator.empty
      (fun s u h hs =>
        (sampleURLParse_round s u h).imp fun _ hu => ⟨hu.1, hu.2.1 hs, hu.2.2⟩)
      rfl asciiToLower_idem asciiToLower_ne_empty (by decide)⟩

/-! ## The accumulator: claim C21 -/

theorem validateBackendPresence_eq (c : AuthenticationBackendConfiguration)
    (v : StructValidator) :
    validateBackendPresence c v =
      { v with errors := v.errors ++ (validateBackendPresence c StructValidator.empty).errors } := by
  simp only [validateBackendPresence]
  by_cases h1 : c.Ldap = none ∧ c.File = none
  · have h2 : ¬ (c.Ldap ≠ none ∧ c.File ≠ none) := fun h => h.1 h1.1
    rw [if_pos h1, if_neg h2, if_pos h1, if_neg h2]
    rfl
  · by_cases h2 : c.Ldap ≠ none ∧ c.File ≠ none
    · rw [if_neg h1, if_pos h2, if_neg h1, if_pos h2]
      rfl
    · rw [if_neg h1, if_neg h2, if_neg h1, if_neg h2]
      simp [StructValidator.empty]

theorem validateBackend_fst (env : Env) (c : AuthenticationBackendConfiguration)
    (v : StructValidator) :
    (validateBackend env c v).1 = (validateBackend env c StructValidator.empty).1 := by
  simp only [validateBackend]
  cases c.File with
  | some f => simp only [validateFileAuthenticationBackend_fst env f v]
  | none =>
    cases c.Ldap with
    | some l => simp only [validateLdapAuthenticationBackend_fst env l v]
    | none => rfl

theorem validateBackend_snd (env : Env) (c : AuthenticationBackendConfiguration)
    (v : StructValidator) :
    (validateBackend env c v).2 =
      { errors := v.errors ++ (validateBackend env c StructValidator.empty).2.errors
        warnings := v.warnings ++ (validateBackend env c StructValidator.empty).2.warnings } := by
  simp only [validateBackend]
  cases c.File with
  | some f =>
    have hw : (validateFileAuthenticationBackend env f StructValidator.empty).2.warnings = [] := by
      rw [validateFileAuthenticationBackend_snd]
      rfl
    simp only [hw, List.append_nil]
    rw [validateFileAuthenticationBackend_snd env f v]
  | none =>
    cases c.Ldap with
    | some l => simp only [validateLdapAuthenticationBackend_snd env l v]
    | none => simp [StructValidator.empty]

theorem validateRefreshInterval_snd_empty (env : Env) (c : AuthenticationBackendConfiguration)
    (v : StructValidator) :
    (validateRefreshInterval env c v).2 =
      { v with errors := v.errors ++
          (validateRefreshInterval env c StructValidator.empty).2.errors } := by
  rw [validateRefreshInterval_snd env c v, validateRefreshInterval_snd env c StructValidator.empty]
  simp only [StructValidator.empty, List.nil_append]

theorem validateRefreshInterval_errors_congr (env : Env)
    (c c' : AuthenticationBackendConfiguration) (h : c.RefreshInterval = c'.RefreshInterval) :
    (validateRefreshInterval env c StructValidator.empty).2.errors =
      (validateRefreshInterval env c' StructValidator.empty).2.errors := by
  rw [validateRefreshInterval_snd, validateRefreshInterval_snd, h]

theorem validateRefreshInterval_warnings (env : Env) (c : AuthenticationBackendConfiguration)
    (v : StructValidator) :
    (validateRefreshInterval env c v).2.warnings = v.warnings := by
  rw [validateRefreshInterval_snd]

/-- C21: the accumulator is append-only under ValidateAuthenticationBackend. For every
configuration and every initial accumulator, the resulting fatal errors are the initial
ones followed by the errors the same run pushes on an empty accumulator, and likewise for
the warnings: the initial sequences are prefixes of the resulting ones, no entry is
removed, reordered or rewritten, and the entries appended (and the record returned) do
not depend on what the accumulator held. -/
theorem ValidateAuthenticationBackend_append_only (env : Env)
    (c : AuthenticationBackendConfiguration) (v : StructValidator) :
    (ValidateAuthenticationBackend env c v).2 =
      { errors := v.errors ++
          (ValidateAuthenticationBackend env c StructValidator.empty).2.errors
        warnings := v.warnings ++
          (ValidateAuthenticationBackend env c StructValidator.empty).2.warnings } ∧
    v.errors <+: (ValidateAuthenticationBackend env c v).2.errors ∧
    v.warnings <+: (ValidateAuthenticationBackend env c v).2.warnings ∧
    (∀ v', pushedErrors v' (ValidateAuthenticationBackend env c v').2 =
      pushedErrors v (ValidateAuthenticationBackend env c v).2) ∧
    (∀ v', pushedWarnings v' (ValidateAuthenticationBackend env c v').2 =
      pushedWarnings v (ValidateAuthenticationBackend env c v).2) ∧
    (ValidateAuthenticationBackend env c v).1 =
      (ValidateAuthenticationBackend env c StructValidator.empty).1 := by
  have key : ∀ w, (ValidateAuthenticationBackend env c w).2 =
      { errors := w.errors ++
          (ValidateAuthenticationBackend env c StructValidator.empty).2.errors
        warnings := w.warnings ++
          (ValidateAuthenticationBackend env c StructValidator.empty).2.warnings } := by
    intro w
    simp only [ValidateAuthenticationBackend]
    rw [validateRefreshInterval_snd_empty env _ (validateBackend env c _).2,
      validateRefreshInterval_snd_empty env _
        (validateBackend env c (validateBackendPresence c StructValidator.empty)).2,
      validateRefreshInterval_errors_congr env
        (validateBackend env c (validateBackendPresence c w)).1
        (validateBackend env c (validateBackendPresence c StructValidator.empty)).1
        (by rw [validateBackend_refreshInterval, validateBackend_refreshInterval]),
      validateBackend_snd env c (validateBackendPresence c w),
      validateBackend_snd env c (validateBackendPresence c StructValidator.empty),
      validateBackendPresence_eq c w]
    have hpw : (validateBackendPresence c { errors := [], warnings := [] }).warnings = [] := by
      rw [validateBackendPresence_eq]
    simp only [StructValidator.empty, List.nil_append, List.append_assoc, hpw]
  have hfst : ∀ w, (ValidateAuthenticationBackend env c w).1 =
      (ValidateAuthenticationBackend env c StructValidator.empty).1 := by
    intro w
    simp only [ValidateAuthenticationBackend, validateRefreshInterval_fst]
    rw [validateBackend_fst env c (validateBackendPresence c w),
      validateBackend_fst env c (validateBackendPresence c StructValidator.empty)]
  refine ⟨key v, ?_, ?_, ?_, ?_, hfst v⟩
  · rw [key v]
    exact List.prefix_append _ _
  · rw [key v]
    exact List.prefix_append _ _
  · intro v'
    rw [key v, key v', pushedErrors_append, pushedErrors_append]
  · intro v'
    rw [key v, key v', pushedWarnings_append, pushedWarnings_append]

/-! ## The number of errors of the file backend: claim C22 -/

theorem length_ite_singleton_le {c : Prop} [Decidable c] (x : ValidationError) :
    (if c then [x] else []).length ≤ 1 := by
  split_ifs <;> simp

/-- C22: for every file backend, validateFileAuthenticationBackend pushes at most six
fatal errors and never a warning, and an unknown-algorithm error never comes together
with a parallelism, memory or key-length error. Six is attained: when strings.ToLower
leaves argon2id unchanged, an empty Path with Algorithm argon2id and invalid Iterations,
SaltLength, Parallelism, Memory and KeyLength gives the six errors for Path, Iterations,
SaltLength, Parallelism, Memory and KeyLength, in this order. -/
theorem validateFile_error_count (env : Env) (c : FileAuthenticationBackendConfiguration)
    (v : StructValidator) :
    (pushedErrors v (validateFileAuthenticationBackend env c v).2).length ≤ 6 ∧
    pushedWarnings v (validateFileAuthenticationBackend env c v).2 = [] ∧
    (∀ a, ValidationError.unknownAlgorithm a ∈
        pushedErrors v (validateFileAuthenticationBackend env c v).2 →
      (∀ n, ValidationError.parallelismInvalid n ∉
        pushedErrors v (validateFileAuthenticationBackend env c v).2) ∧
      (∀ r m n, ValidationError.memoryInvalid r m n ∉
        pushedErrors v (validateFileAuthenticationBackend env c v).2) ∧
      (∀ n, ValidationError.keyLengthInvalid n ∉
        pushedErrors v (validateFileAuthenticationBackend env c v).2)) ∧
    (env.ToLower "argon2id" = "argon2id" →
      pushedErrors v
        (validateFileAuthenticationBackend env
          { Path := "",
            Password := some { Iterations := -1, KeyLength := 1, SaltLength := 1,
                               Algorithm := "argon2id", Memory := -100, Parallelism := -1 } }
          v).2 =
        [ValidationError.filePathMissing, ValidationError.iterationsInvalid (-1),
         ValidationError.saltLengthInvalid 1, ValidationError.parallelismInvalid (-1),
         ValidationError.memoryInvalid (-8) (-100) (-1),
         ValidationError.keyLengthInvalid 1]) := by
  refine ⟨?_, ?_, ?_, ?_⟩
  · cases hp : c.Password with
    | none =>
      rw [validateFileAuthenticationBackend_snd, pushedErrors_append]
      by_cases h : c.Path = "" <;>
        simp [validateFileAuthenticationBackend, hp, h, StructValidator.Push,
          StructValidator.empty]
    | some p =>
      rw [validateFileAuthenticationBackend_some_pushed env c p v hp]
      by_cases ha : resolvedAlgorithm env p = argon2id
      · have hno : ¬ (p.Algorithm ≠ "" ∧ env.ToLower p.Algorithm ≠ argon2id ∧
            env.ToLower p.Algorithm ≠ sha512) := by
          rintro ⟨h1, h2, -⟩
          rw [resolvedAlgorithm_eq, if_neg h1] at ha
          exact h2 ha
        rw [if_neg hno, if_pos ha]
        simp only [List.length_append, List.length_nil]
        have b1 := length_ite_singleton_le (c := c.Path = "") ValidationError.filePathMissing
        have b2 := length_ite_singleton_le (c := p.Iterations ≠ 0 ∧ p.Iterations < 1)
          (ValidationError.iterationsInvalid p.Iterations)
        have b3 := length_ite_singleton_le (c := p.SaltLength ≠ 0 ∧ p.SaltLength < 8)
          (ValidationError.saltLengthInvalid p.SaltLength)
        have b4 := length_ite_singleton_le (c := p.Parallelism ≠ 0 ∧ p.Parallelism < 1)
          (ValidationError.parallelismInvalid p.Parallelism)
        have b5 := length_ite_singleton_le
          (c := p.Memory ≠ 0 ∧ p.Memory < wrapInt64
            ((if p.Parallelism = 0 then env.DefaultPasswordConfiguration.Parallelism
              else p.Parallelism) * 8))
          (ValidationError.memoryInvalid
            (wrapInt64 ((if p.Parallelism = 0 then
              env.DefaultPasswordConfiguration.Parallelism else p.Parallelism) * 8))
            p.Memory
            (if p.Parallelism = 0 then env.DefaultPasswordConfiguration.Parallelism
              else p.Parallelism))
        have b6 := length_ite_singleton_le (c := p.KeyLength ≠ 0 ∧ p.KeyLength < 16)
          (ValidationError.keyLengthInvalid p.KeyLength)
        omega
      · rw [if_neg ha]
        simp only [List.length_append, List.length_nil]
        have b1 := length_ite_singleton_le (c := c.Path = "") ValidationError.filePathMissing
        have b0 := length_ite_singleton_le
          (c := p.Algorithm ≠ "" ∧ env.ToLower p.Algorithm ≠ argon2id ∧
            env.ToLower p.Algorithm ≠ sha512)
          (ValidationError.unknownAlgorithm (env.ToLower p.Algorithm))
        have b2 := length_ite_singleton_le (c := p.Iterations ≠ 0 ∧ p.Iterations < 1)
          (ValidationError.iterationsInvalid p.Iterations)
        have b3 := length_ite_singleton_le (c := p.SaltLength ≠ 0 ∧ p.SaltLength < 8)
          (ValidationError.saltLengthInvalid p.SaltLength)
        omega
  · rw [validateFileAuthenticationBackend_snd, pushedWarnings_same]
  · intro a hmem
    cases hp : c.Password with
    | none =>
      exfalso
      rw [validateFileAuthenticationBackend_snd, pushedErrors_append] at hmem
      by_cases h : c.Path = "" <;>
        simp [validateFileAuthenticationBackend, hp, h, StructValidator.Push,
          StructValidator.empty] at hmem
    | some p =>
      rw [validateFileAuthenticationBackend_some_pushed env c p v hp] at hmem ⊢
      simp only [List.mem_append, mem_ite_singleton, mem_ite_nil, List.mem_singleton,
        reduceCtorEq, and_false, false_or, or_false, ne_eq,
        ValidationError.unknownAlgorithm.injEq] at hmem
      obtain ⟨⟨h1, h2, -⟩, -⟩ := hmem
      have ha : resolvedAlgorithm env p ≠ argon2id := by
        rw [resolvedAlgorithm_eq, if_neg h1]
        exact h2
      simp only [List.mem_append, mem_ite_singleton, mem_ite_nil, List.mem_singleton, ha,
        reduceCtorEq, and_false, false_or, or_false, false_and, not_false_eq_true,
        implies_true, and_self]
  · intro hlow
    have ha : resolvedAlgorithm env
        { Iterations := -1, KeyLength := 1, SaltLength := 1, Algorithm := "argon2id",
          Memory := -100, Parallelism := -1 } = argon2id := by
      rw [resolvedAlgorithm_eq]
      simp [hlow, argon2id]
    rw [validateFileAuthenticationBackend_some_pushed env _ _ v rfl, if_pos ha]
    have hw : wrapInt64 (-8) = -8 := by decide
    simp [hlow, argon2id, sha512, hw]

theorem validateFile_error_count_witness :
    sampleEnv.ToLower "argon2id" = "argon2id" ∧
    (pushedErrors StructValidator.empty
      (validateFileAuthenticationBackend sampleEnv
        { Path := "",
          Password := some { Iterations := -1, KeyLength := 1, SaltLength := 1,
                             Algorithm := "argon2id", Memory := -100, Parallelism := -1 } }
        StructValidator.empty).2).length = 6 ∧
    (pushedErrors StructValidator.empty
      (validateFileAuthenticationBackend sampleEnv
        { Path := "",
          Password := some { Iterations := -1, KeyLength := 1, SaltLength := 1,
                             Algorithm := "argon2id", Memory := -100, Parallelism := -1 } }
        StructValidator.empty).2).length ≤ 6 ∧
    validateFileAuthenticationBackend sampleEnv
        { Path := "",
          Password := some { Iterations := -1, KeyLength := 1, SaltLength := 1,
                             Algorithm := "argon2id", Memory := -100, Parallelism := -1 } }
        StructValidator.empty =
      ({ Path := "",
         Password := some { Iterations := -1, KeyLength := 1, SaltLength := 1,
                            Algorithm := "argon2id", Memory := -100, Parallelism := -1 } },
       { errors :=
          [ValidationError.filePathMissing, ValidationError.iterationsInvalid (-1),
           ValidationError.saltLengthInvalid 1, ValidationError.parallelismInvalid (-1),
           ValidationError.memoryInvalid (-8) (-100) (-1),
           ValidationError.keyLengthInvalid 1],
         warnings := [] }) :=
  ⟨by decide, by decide,
    (validateFile_error_count sampleEnv
      { Path := "",
        Password := some { Iterations := -1, KeyLength := 1, SaltLength := 1,
                           Algorithm := "argon2id", Memory := -100, Parallelism := -1 } }
      StructValidator.empty).1,
    by decide⟩

end Authelia
